import Mathlib

/-! MultiPageUI: focus navigation on a sparse 8x3 widget grid

A shallow embedding of the navigation core of `src/MultiPageUI.cpp` together
with theorems about it: the grid page (`Page::findLeftmostInRow`,
`Page::findRightmostInRow`, `Page::updateScrollPosition`, `Page::navigateUp`,
`Page::navigateDown`, `Page::navigateLeft`, `Page::navigateRight`,
`Page::selectRadioInRow`), the page manager (`PageManager::addPage`,
`navigateToPage`, `goBack`, `goNext`, `getCurrentPage`, `findFirstValidRow`),
the widget classes with `Link::onPress`, and `handleInput`.

Conventions of the embedding.

* C++ `int` values are `Int`.  Row and column arithmetic (`row - 1`, `col + 1`)
  stays far inside the 32-bit range for a focus in the grid; the arithmetic on
  the stored `scrollOffset` can leave it and goes through `wrapInt`.
* A `Widget*` stored in the grid is an `Option WidgetRef`, `none` being
  `nullptr`.
* A method that mutates the page and its `int&` arguments returns the new page
  and the new values in a `NavResult`, next to the method's `bool` result.
* A `for` loop whose body either returns or continues is `forUp` / `forDown`
  applied to the body, the first index and the number of iterations.
* Page and widget objects live in stores indexed by their addresses; the
  global `pageManager`, the two stores and the output on `Serial` make up the
  program state `UIState`.
-/

namespace MultiPageUI

/-! ## Layout constants (`MultiPageUI.cpp`, lines 6-8) -/

/-- Number of rows in a page grid: `const int TOTAL_ROWS = 8`. -/
def TOTAL_ROWS : Int := 8

/-- Number of rows shown at once: `const int VISIBLE_ROWS = 4`. -/
def VISIBLE_ROWS : Int := 4

/-- Number of columns in a page grid: `const int COLS = 3`. -/
def COLS : Int := 3

/-! ## Machine integers -/

/-- Smallest value of a 32-bit `int`. -/
def INT_MIN : Int := -2147483648

/-- Largest value of a 32-bit `int`. -/
def INT_MAX : Int := 2147483647

/-- Reduction of an integer to the 32-bit two's complement range. -/
def wrapInt (x : Int) : Int := (x + 2147483648) % 4294967296 - 2147483648

/-- The value is representable as a 32-bit `int`. -/
def isInt (x : Int) : Prop := INT_MIN ≤ x ∧ x ≤ INT_MAX

instance (x : Int) : Decidable (isInt x) := by
  unfold isInt; infer_instance

/-! ## Data model -/

/-- A non-null `Widget*`: the identity of an externally allocated widget. -/
abbrev WidgetRef := Nat

/-- The `Page` class: `Widget* widgets[8][3]`, `int scrollOffset`, `const char* name`. -/
structure Page where
  /-- The grid of widget pointers, `none` for `nullptr`. -/
  widgets : Fin 8 → Fin 3 → Option WidgetRef
  /-- Index of the first visible row. -/
  scrollOffset : Int
  /-- The page name. -/
  name : String

/-- Method `Page::getWidget`: the bounds-checked read of `widgets[r][c]`, `nullptr`
outside the grid.  The unchecked reads `widgets[r][c]` of the navigation
methods are modelled by the same function; they are undefined in C++ outside
the grid and every theorem below keeps them inside it. -/
def Page.getWidget (p : Page) (r c : Int) : Option WidgetRef :=
  if h : 0 ≤ r ∧ r < 8 ∧ 0 ≤ c ∧ c < 3 then
    p.widgets ⟨r.toNat, by omega⟩ ⟨c.toNat, by omega⟩
  else none

/-- The values a navigation method leaves behind: its `bool` result, the page
(whose `scrollOffset` it may have changed) and the `int& row`, `int& col`
arguments. -/
structure NavResult where
  /-- The returned `bool`. -/
  moved : Bool
  /-- The page after the call. -/
  page : Page
  /-- The value of `row` after the call. -/
  row : Int
  /-- The value of `col` after the call. -/
  col : Int

/-! ## Loops -/

/-- The loop `for (int i = start; ...; i++)` running `n` iterations, whose body
either returns a value (`some`) or falls through to the next iteration
(`none`); `none` when the loop ends without returning. -/
def forUp {α : Type} (body : Int → Option α) (start : Int) : Nat → Option α
  | 0 => none
  | n + 1 =>
    match body start with
    | some x => some x
    | none => forUp body (start + 1) n

/-- The loop `for (int i = start; ...; i--)` running `n` iterations, whose body
either returns a value (`some`) or falls through to the next iteration
(`none`); `none` when the loop ends without returning. -/
def forDown {α : Type} (body : Int → Option α) (start : Int) : Nat → Option α
  | 0 => none
  | n + 1 =>
    match body start with
    | some x => some x
    | none => forDown body (start - 1) n

/-! ## Row lookups -/

/-- Method `Page::findLeftmostInRow`: the first column of `row` holding a widget, `-1`
when the row is outside the grid or empty.  The loop
`for (int c = 0; c < COLS; c++)` runs `COLS - 0` times. -/
def Page.findLeftmostInRow (p : Page) (row : Int) : Int :=
  if row < 0 ∨ row ≥ TOTAL_ROWS then -1
  else
    match forUp (fun c => if p.getWidget row c ≠ none then some c else none) 0
        (COLS - 0).toNat with
    | some c => c
    | none => -1

/-- Method `Page::findRightmostInRow`: the last column of `row` holding a widget, `-1`
when the row is outside the grid or empty.  The loop
`for (int c = COLS - 1; c >= 0; c--)` runs `COLS - 1 - 0 + 1` times. -/
def Page.findRightmostInRow (p : Page) (row : Int) : Int :=
  if row < 0 ∨ row ≥ TOTAL_ROWS then -1
  else
    match forDown (fun c => if p.getWidget row c ≠ none then some c else none) (COLS - 1)
        (COLS - 1 - 0 + 1).toNat with
    | some c => c
    | none => -1

/-! ## Scroll window -/

/-- Method `Page::updateScrollPosition`: move the window so that it contains `selRow`,
then clamp the offset to `[0, TOTAL_ROWS - VISIBLE_ROWS]`. -/
def Page.updateScrollPosition (p : Page) (selRow : Int) : Page :=
  let s1 : Int :=
    if selRow < p.scrollOffset then selRow
    else if selRow ≥ wrapInt (p.scrollOffset + VISIBLE_ROWS) then
      wrapInt (wrapInt (selRow - VISIBLE_ROWS) + 1)
    else p.scrollOffset
  let s2 : Int := if s1 < 0 then 0 else s1
  let s3 : Int := if s2 > TOTAL_ROWS - VISIBLE_ROWS then TOTAL_ROWS - VISIBLE_ROWS else s2
  { p with scrollOffset := s3 }

/-! ## Directional navigation -/

/-- Method `Page::navigateUp`.  The loop `for (int r = row - 1; r >= 0; r--)` runs
`row` times (not at all when `row <= 0`). -/
def Page.navigateUp (p : Page) (row col : Int) : NavResult :=
  match forDown (fun r =>
      if p.getWidget r col = none then
        let targetCol := p.findLeftmostInRow r
        if targetCol = -1 then none
        else some (NavResult.mk true (p.updateScrollPosition r) r targetCol)
      else some (NavResult.mk true (p.updateScrollPosition r) r col))
      (row - 1) (row - 1 - 0 + 1).toNat with
  | some res => res
  | none => NavResult.mk false p row col

/-- Method `Page::navigateDown`.  The loop `for (int r = row + 1; r < TOTAL_ROWS; r++)`
runs `TOTAL_ROWS - (row + 1)` times (not at all when that is negative). -/
def Page.navigateDown (p : Page) (row col : Int) : NavResult :=
  match forUp (fun r =>
      if p.getWidget r col = none then
        let targetCol := p.findLeftmostInRow r
        if targetCol = -1 then none
        else some (NavResult.mk true (p.updateScrollPosition r) r targetCol)
      else some (NavResult.mk true (p.updateScrollPosition r) r col))
      (row + 1) (TOTAL_ROWS - (row + 1)).toNat with
  | some res => res
  | none => NavResult.mk false p row col

/-- The test `isFullRow` of `navigateLeft` and `navigateRight`: column 0 holds a
widget and columns 1 and 2 do not. -/
def Page.isFullRow (p : Page) (row : Int) : Bool :=
  decide (p.getWidget row 0 ≠ none) && decide (p.getWidget row 1 = none)
    && decide (p.getWidget row 2 = none)

/-- Method `Page::navigateLeft`: nothing on a full row; else the nearest widget to the
left in the row; else the rightmost widget of the nearest non-empty row above;
else the rightmost widget of the first non-empty row met from the bottom down
to `row + 1`. -/
def Page.navigateLeft (p : Page) (row col : Int) : NavResult :=
  if p.isFullRow row then NavResult.mk false p row col
  else
    match forDown (fun c =>
        if p.getWidget row c ≠ none then some (NavResult.mk true p row c) else none)
        (col - 1) (col - 1 - 0 + 1).toNat with
    | some res => res
    | none =>
      match forDown (fun r =>
          let rightmost := p.findRightmostInRow r
          if rightmost ≠ -1 then
            some (NavResult.mk true (p.updateScrollPosition r) r rightmost)
          else none)
          (row - 1) (row - 1 - 0 + 1).toNat with
      | some res => res
      | none =>
        match forDown (fun r =>
            let rightmost := p.findRightmostInRow r
            if rightmost ≠ -1 then
              some (NavResult.mk true (p.updateScrollPosition r) r rightmost)
            else none)
            (TOTAL_ROWS - 1) (TOTAL_ROWS - 1 - row).toNat with
        | some res => res
        | none => NavResult.mk false p row col

/-- Method `Page::navigateRight`: nothing on a full row; else the nearest widget to the
right in the row; else the leftmost widget of the nearest non-empty row below;
else the leftmost widget of the first non-empty row met from the top down to
`row - 1`. -/
def Page.navigateRight (p : Page) (row col : Int) : NavResult :=
  if p.isFullRow row then NavResult.mk false p row col
  else
    match forUp (fun c =>
        if p.getWidget row c ≠ none then some (NavResult.mk true p row c) else none)
        (col + 1) (COLS - (col + 1)).toNat with
    | some res => res
    | none =>
      match forUp (fun r =>
          let leftmost := p.findLeftmostInRow r
          if leftmost ≠ -1 then
            some (NavResult.mk true (p.updateScrollPosition r) r leftmost)
          else none)
          (row + 1) (TOTAL_ROWS - (row + 1)).toNat with
      | some res => res
      | none =>
        match forUp (fun r =>
            let leftmost := p.findLeftmostInRow r
            if leftmost ≠ -1 then
              some (NavResult.mk true (p.updateScrollPosition r) r leftmost)
            else none)
            0 (row - 0).toNat with
        | some res => res
        | none => NavResult.mk false p row col

/-! ## Vocabulary of the statements -/

/-- The cell `(r, c)` lies in the grid and holds a widget. -/
def Page.occupied (p : Page) (r c : Int) : Prop := p.getWidget r c ≠ none

instance (p : Page) (r c : Int) : Decidable (p.occupied r c) := by
  unfold Page.occupied; infer_instance

/-- Some cell of row `r` holds a widget. -/
def Page.rowOccupied (p : Page) (r : Int) : Prop :=
  ∃ c : Int, 0 ≤ c ∧ c < COLS ∧ p.occupied r c

/-- Column `c` is the leftmost occupied column of row `r`. -/
def Page.leftmostAt (p : Page) (r c : Int) : Prop :=
  0 ≤ c ∧ c < COLS ∧ p.occupied r c ∧ ∀ k : Int, 0 ≤ k → k < c → ¬ p.occupied r k

/-- Column `c` is the rightmost occupied column of row `r`. -/
def Page.rightmostAt (p : Page) (r c : Int) : Prop :=
  0 ≤ c ∧ c < COLS ∧ p.occupied r c ∧ ∀ k : Int, c < k → k < COLS → ¬ p.occupied r k

/-! ## The example grid of the specification -/

/-- The grid occupied only at `(0,0)`, `(2,1)`, `(3,0)` and `(3,2)`. -/
def exampleGrid : Fin 8 → Fin 3 → Option WidgetRef := fun r c =>
  if r.val = 0 ∧ c.val = 0 then some 1
  else if r.val = 2 ∧ c.val = 1 then some 2
  else if r.val = 3 ∧ c.val = 0 then some 3
  else if r.val = 3 ∧ c.val = 2 then some 4
  else none

/-- A freshly constructed page over `exampleGrid` (`scrollOffset(0)`). -/
def examplePage : Page := Page.mk exampleGrid 0 "Example"

/-- The grid occupied only at `(0,0)` and `(0,1)`: one row of two widgets. -/
def pairGrid : Fin 8 → Fin 3 → Option WidgetRef := fun r c =>
  if r.val = 0 ∧ c.val = 0 then some 1
  else if r.val = 0 ∧ c.val = 1 then some 2
  else none

/-- A freshly constructed page over `pairGrid` (`scrollOffset(0)`). -/
def pairPage : Page := Page.mk pairGrid 0 "Pair"

/-! ## Widgets

The widget classes of `MultiPageUI.h`.  A widget object lives in a store
indexed by its address (`WidgetRef`); the grid of a page holds addresses only.
-/

/-- The enumeration `WidgetType`. -/
inductive WidgetType
  | W_LABEL
  | W_BUTTON
  | W_RADIO
  | W_CHECKBOX
  | W_LINK
  deriving DecidableEq

/-- A non-null `void (*)()`: the identity of a button handler. -/
abbrev HandlerRef := Nat

/-- The five widget classes with their data members; the `handler` of a
`Button` may be null. -/
inductive Widget
  | label (text : String)
  | button (text : String) (handler : Option HandlerRef)
  | radioButton (text : String) (selected : Bool)
  | checkBox (text : String) (checked : Bool)
  | link (text : String) (route : String)
  deriving DecidableEq

/-- The virtual `getType` of the five classes. -/
def Widget.getType : Widget → WidgetType
  | Widget.label _ => WidgetType.W_LABEL
  | Widget.button _ _ => WidgetType.W_BUTTON
  | Widget.radioButton _ _ => WidgetType.W_RADIO
  | Widget.checkBox _ _ => WidgetType.W_CHECKBOX
  | Widget.link _ _ => WidgetType.W_LINK

/-- Method `RadioButton::select`: `selected = true`.  The receiver has static
type `RadioButton*`; on any other object the model leaves it alone. -/
def RadioButton.select : Widget → Widget
  | Widget.radioButton text _ => Widget.radioButton text true
  | w => w

/-- Method `RadioButton::deselect`: `selected = false`. -/
def RadioButton.deselect : Widget → Widget
  | Widget.radioButton text _ => Widget.radioButton text false
  | w => w

/-- Method `RadioButton::isSelected`. -/
def RadioButton.isSelected : Widget → Bool
  | Widget.radioButton _ selected => selected
  | _ => false

/-- Method `CheckBox::toggle`: `checked = !checked`. -/
def CheckBox.toggle : Widget → Widget
  | Widget.checkBox text checked => Widget.checkBox text (!checked)
  | w => w

/-- Method `CheckBox::isChecked`. -/
def CheckBox.isChecked : Widget → Bool
  | Widget.checkBox _ checked => checked
  | _ => false

/-- The loop `for (int i = start; ...; i++)` running `n` iterations, whose body
only updates the state and never leaves the loop. -/
def loopUp {σ : Type} (body : Int → σ → σ) (start : Int) : Nat → σ → σ
  | 0, s => s
  | n + 1, s => loopUp body (start + 1) n (body start s)

/-- Method `Page::selectRadioInRow`: deselect every radio button of the row,
then select `target`.  It changes widget objects only, so it maps the widget
store to the new widget store.  The loop `for (int c = 0; c < COLS; c++)` runs
`COLS - 0` times; its read `widgets[row][c]` is `getWidget`, as in the
navigation methods. -/
def Page.selectRadioInRow (p : Page) (widgetStore : WidgetRef → Widget) (row : Int)
    (target : WidgetRef) : WidgetRef → Widget :=
  let ws := loopUp (fun c ws =>
      match p.getWidget row c with
      | some w =>
        if (ws w).getType = WidgetType.W_RADIO then
          Function.update ws w (RadioButton.deselect (ws w))
        else ws
      | none => ws) 0 (COLS - 0).toNat widgetStore
  Function.update ws target (RadioButton.select (ws target))

/-! ## The page manager and the program state -/

/-- A non-null `Page*`: the identity of an externally allocated page. -/
abbrev PageRef := Nat

/-- The bound of the page registry: `static const int MAX_PAGES = 10`. -/
def MAX_PAGES : Int := 10

/-- The `PageManager` class: the public focus `selRow`, `selCol` and the private
`Page* pages[MAX_PAGES]`, `currentPageIndex`, `numPages`. -/
structure PageManager where
  /-- The focused row. -/
  selRow : Int
  /-- The focused column. -/
  selCol : Int
  /-- The array of registered pages, read at `int` indices. -/
  pages : Int → PageRef
  /-- Index of the current page. -/
  currentPageIndex : Int
  /-- Number of registered pages. -/
  numPages : Int

/-- The constructor `PageManager::PageManager() : currentPageIndex(0),
numPages(0)` with the member initialisers `selRow = 1, selCol = 0`.  It does
not write the array, whose indeterminate contents are the argument. -/
def PageManager.new (uninit : Int → PageRef) : PageManager :=
  { selRow := 1, selCol := 0, pages := uninit, currentPageIndex := 0, numPages := 0 }

/-- One call on the global `Serial`. -/
inductive SerialOut
  | print (text : String)
  | println (text : String)
  deriving DecidableEq

/-- The mutable program state: the global `pageManager`, the page objects and
the widget objects by address, and what has been written to `Serial`. -/
structure UIState where
  /-- The global `pageManager`. -/
  pageManager : PageManager
  /-- The `Page` objects. -/
  pageStore : PageRef → Page
  /-- The `Widget` objects. -/
  widgetStore : WidgetRef → Widget
  /-- The calls made on `Serial`, oldest first. -/
  serial : List SerialOut

/-- The call `Serial.print(text)`. -/
def Serial.print (s : UIState) (text : String) : UIState :=
  { s with serial := s.serial ++ [SerialOut.print text] }

/-- The call `Serial.println(text)`. -/
def Serial.println (s : UIState) (text : String) : UIState :=
  { s with serial := s.serial ++ [SerialOut.println text] }

/-- Method `PageManager::addPage`. -/
def PageManager.addPage (m : PageManager) (page : PageRef) : PageManager :=
  if m.numPages < MAX_PAGES then
    { m with pages := Function.update m.pages m.numPages page, numPages := m.numPages + 1 }
  else m

/-- Method `PageManager::getCurrentPage`, `none` being `nullptr`. -/
def PageManager.getCurrentPage (m : PageManager) : Option PageRef :=
  if m.currentPageIndex ≥ 0 ∧ m.currentPageIndex < m.numPages then
    some (m.pages m.currentPageIndex)
  else none

/-- Method `PageManager::findFirstValidRow`: the first row of the current page
that holds a widget, `0` when there is no current page or no such row.  The
loop `for (int r = 0; r < TOTAL_ROWS; r++)` runs `TOTAL_ROWS - 0` times. -/
def PageManager.findFirstValidRow (m : PageManager) (pageStore : PageRef → Page) : Int :=
  match m.getCurrentPage with
  | none => 0
  | some page =>
    match forUp (fun r => if (pageStore page).findLeftmostInRow r ≠ -1 then some r else none)
        0 (TOTAL_ROWS - 0).toNat with
    | some r => r
    | none => 0

/-- The statements repeated verbatim in `navigateToPage`, `goBack` and `goNext`
after `currentPageIndex` is set (lines 453-457, 470-474, 483-487):
`selRow = findFirstValidRow(); selCol = pages[currentPageIndex]->findLeftmostInRow(selRow);
if (selCol == -1) selCol = 0;`. -/
def PageManager.reanchor (m : PageManager) (pageStore : PageRef → Page) : PageManager :=
  let m1 : PageManager := { m with selRow := m.findFirstValidRow pageStore }
  let m2 : PageManager :=
    { m1 with selCol := (pageStore (m1.pages m1.currentPageIndex)).findLeftmostInRow m1.selRow }
  if m2.selCol = -1 then { m2 with selCol := 0 } else m2

/-- Method `PageManager::navigateToPage` of the global manager; `strcmp(..) == 0`
is equality of the names.  The loop `for (int i = 0; i < numPages; i++)` runs
`numPages - 0` times. -/
def PageManager.navigateToPage (s : UIState) (pageName : String) : UIState :=
  match forUp (fun i =>
      if (s.pageStore (s.pageManager.pages i)).name = pageName then
        let m : PageManager :=
          PageManager.reanchor { s.pageManager with currentPageIndex := i } s.pageStore
        some (Serial.println (Serial.print { s with pageManager := m } "Navigated to page: ")
          pageName)
      else none) 0 (s.pageManager.numPages - 0).toNat with
  | some s1 => s1
  | none => Serial.println (Serial.print s "Page not found: ") pageName

/-- Method `PageManager::goBack` of the global manager; `%` is the truncating
remainder of C++. -/
def PageManager.goBack (s : UIState) : UIState :=
  if s.pageManager.numPages > 1 then
    let m : PageManager := PageManager.reanchor
      { s.pageManager with
        currentPageIndex :=
          Int.tmod (s.pageManager.currentPageIndex + s.pageManager.numPages - 1)
            s.pageManager.numPages } s.pageStore
    Serial.println (Serial.print { s with pageManager := m } "Went back to page: ")
      (s.pageStore (m.pages m.currentPageIndex)).name
  else s

/-- Method `PageManager::goNext` of the global manager; `%` is the truncating
remainder of C++. -/
def PageManager.goNext (s : UIState) : UIState :=
  if s.pageManager.numPages > 1 then
    let m : PageManager := PageManager.reanchor
      { s.pageManager with
        currentPageIndex :=
          Int.tmod (s.pageManager.currentPageIndex + 1) s.pageManager.numPages } s.pageStore
    Serial.println (Serial.print { s with pageManager := m } "Went forward to page: ")
      (s.pageStore (m.pages m.currentPageIndex)).name
  else s

/-! ## Activation -/

/-- Method `Link::onPress` of a link whose route is `route`: `route[0] == '/'`
reads the first character and `route + 1` drops it. -/
def Link.onPress (route : String) (s : UIState) : UIState :=
  if route = "/back" then PageManager.goBack s
  else if route = "/next" then PageManager.goNext s
  else
    let pageName : String :=
      match route.data with
      | '/' :: rest => String.mk rest
      | _ => route
    PageManager.navigateToPage s pageName

/-- The virtual `onPress`: the empty `Widget::onPress` for the classes that do
not override it, `Button::onPress` (`if (handler) handler();`) and
`Link::onPress`.  What a handler does is the parameter `handlers`. -/
def Widget.onPress (handlers : HandlerRef → UIState → UIState) (w : Widget) (s : UIState) :
    UIState :=
  match w with
  | Widget.button _ (some h) => handlers h s
  | Widget.link _ route => Link.onPress route s
  | _ => s

/-- The five pins read by `handleInput`; `true` for a pin read `LOW`. -/
structure Input where
  /-- Pin `WIO_5S_UP`. -/
  up : Bool
  /-- Pin `WIO_5S_DOWN`. -/
  down : Bool
  /-- Pin `WIO_5S_LEFT`. -/
  left : Bool
  /-- Pin `WIO_5S_RIGHT`. -/
  right : Bool
  /-- Pin `WIO_5S_PRESS`. -/
  press : Bool

/-- The effect of a call `currentPage->navigateX(pageManager.selRow,
pageManager.selCol)` whose outcome is `res`: the page object and the two
referenced members take their new values; the returned `bool` is dropped. -/
def storeNavResult (s : UIState) (currentPage : PageRef) (res : NavResult) : UIState :=
  { s with
    pageStore := Function.update s.pageStore currentPage res.page,
    pageManager := { s.pageManager with selRow := res.row, selCol := res.col } }

/-- The function `handleInput` for one reading of the pins. -/
def handleInput (handlers : HandlerRef → UIState → UIState) (input : Input) (s : UIState) :
    UIState :=
  match s.pageManager.getCurrentPage with
  | none => s
  | some currentPage =>
    let s1 : UIState :=
      if input.up then
        storeNavResult s currentPage
          ((s.pageStore currentPage).navigateUp s.pageManager.selRow s.pageManager.selCol)
      else s
    let s2 : UIState :=
      if input.down then
        storeNavResult s1 currentPage
          ((s1.pageStore currentPage).navigateDown s1.pageManager.selRow s1.pageManager.selCol)
      else s1
    let s3 : UIState :=
      if input.left then
        storeNavResult s2 currentPage
          ((s2.pageStore currentPage).navigateLeft s2.pageManager.selRow s2.pageManager.selCol)
      else s2
    let s4 : UIState :=
      if input.right then
        storeNavResult s3 currentPage
          ((s3.pageStore currentPage).navigateRight s3.pageManager.selRow s3.pageManager.selCol)
      else s3
    if input.press then
      match (s4.pageStore currentPage).getWidget s4.pageManager.selRow s4.pageManager.selCol with
      | none => s4
      | some w =>
        match (s4.widgetStore w).getType with
        | WidgetType.W_RADIO =>
          { s4 with
            widgetStore :=
              (s4.pageStore currentPage).selectRadioInRow s4.widgetStore s4.pageManager.selRow w }
        | WidgetType.W_CHECKBOX =>
          { s4 with
            widgetStore := Function.update s4.widgetStore w (CheckBox.toggle (s4.widgetStore w)) }
        | _ => Widget.onPress handlers (s4.widgetStore w) s4
    else s4

/-! ## Runs -/

/-- The operations a run is made of: page registration, the three page
switches, and the four directional commands on the current page. -/
inductive Action
  | addPage (page : PageRef)
  | navigateToPage (pageName : String)
  | goBack
  | goNext
  | navigateUp
  | navigateDown
  | navigateLeft
  | navigateRight

/-- One operation on the program state.  A directional command is `handleInput`
reading that one pin low (no handler is reached). -/
def Action.apply (a : Action) (s : UIState) : UIState :=
  match a with
  | Action.addPage page => { s with pageManager := s.pageManager.addPage page }
  | Action.navigateToPage pageName => PageManager.navigateToPage s pageName
  | Action.goBack => PageManager.goBack s
  | Action.goNext => PageManager.goNext s
  | Action.navigateUp => handleInput (fun _ t => t) (Input.mk true false false false false) s
  | Action.navigateDown => handleInput (fun _ t => t) (Input.mk false true false false false) s
  | Action.navigateLeft => handleInput (fun _ t => t) (Input.mk false false true false false) s
  | Action.navigateRight => handleInput (fun _ t => t) (Input.mk false false false true false) s

/-- The state after the operations of `acts`, first to last. -/
def run (acts : List Action) (s : UIState) : UIState :=
  acts.foldl (fun t a => a.apply t) s

/-- The state at start-up: a freshly constructed manager, nothing written to
`Serial`, and the given page and widget objects. -/
def initialState (uninit : Int → PageRef) (pageStore : PageRef → Page)
    (widgetStore : WidgetRef → Widget) : UIState :=
  { pageManager := PageManager.new uninit, pageStore := pageStore,
    widgetStore := widgetStore, serial := [] }

/-- The current page exists, and if its grid holds a widget then the focused
cell holds one. -/
def UIState.focusValid (s : UIState) : Prop :=
  ∃ page : PageRef, s.pageManager.getCurrentPage = some page ∧
    ((∃ r c : Int, (s.pageStore page).occupied r c) →
      (s.pageStore page).occupied s.pageManager.selRow s.pageManager.selCol)

/-- The operation re-anchors or moves the focus in state `s`: a
`navigateToPage` whose name is registered, a `goBack` or `goNext` with more
than one page, or a directional command that returns true on the current
page. -/
def Action.anchors (a : Action) (s : UIState) : Prop :=
  match a with
  | Action.addPage _ => False
  | Action.navigateToPage pageName =>
    ∃ i : Int, 0 ≤ i ∧ i < s.pageManager.numPages ∧
      (s.pageStore (s.pageManager.pages i)).name = pageName
  | Action.goBack => s.pageManager.numPages > 1
  | Action.goNext => s.pageManager.numPages > 1
  | Action.navigateUp =>
    ∃ page : PageRef, s.pageManager.getCurrentPage = some page ∧
      ((s.pageStore page).navigateUp s.pageManager.selRow s.pageManager.selCol).moved = true
  | Action.navigateDown =>
    ∃ page : PageRef, s.pageManager.getCurrentPage = some page ∧
      ((s.pageStore page).navigateDown s.pageManager.selRow s.pageManager.selCol).moved = true
  | Action.navigateLeft =>
    ∃ page : PageRef, s.pageManager.getCurrentPage = some page ∧
      ((s.pageStore page).navigateLeft s.pageManager.selRow s.pageManager.selCol).moved = true
  | Action.navigateRight =>
    ∃ page : PageRef, s.pageManager.getCurrentPage = some page ∧
      ((s.pageStore page).navigateRight s.pageManager.selRow s.pageManager.selCol).moved = true

/-- The registry and the focus are consistent: between 0 and `MAX_PAGES` pages,
the current index 0 when there is none and the index of a registered page
otherwise, and the focus inside the grid. -/
def UIState.wellFormed (s : UIState) : Prop :=
  (0 ≤ s.pageManager.numPages ∧ s.pageManager.numPages ≤ MAX_PAGES) ∧
  (s.pageManager.numPages = 0 → s.pageManager.currentPageIndex = 0) ∧
  (s.pageManager.numPages ≠ 0 →
    0 ≤ s.pageManager.currentPageIndex ∧
      s.pageManager.currentPageIndex < s.pageManager.numPages) ∧
  (0 ≤ s.pageManager.selRow ∧ s.pageManager.selRow < TOTAL_ROWS) ∧
  (0 ≤ s.pageManager.selCol ∧ s.pageManager.selCol < COLS)

/-- What every directional method guarantees about its outcome `res` when
called on page `p` with the focus `(row, col)`: the grid and the name are
untouched; on success the new focus is an occupied cell of the grid; on
failure the focus is the old one. -/
def NavResult.sound (res : NavResult) (p : Page) (row col : Int) : Prop :=
  res.page.widgets = p.widgets ∧ res.page.name = p.name ∧
  (res.moved = true → p.occupied res.row res.col) ∧
  (res.moved = false → res.row = row ∧ res.col = col)

/-- No operation of the run `acts`, started in state `s`, anchors the focus in
the state it is applied to. -/
def unanchored : List Action → UIState → Prop
  | [], _ => True
  | a :: rest, s => ¬ a.anchors s ∧ unanchored rest (a.apply s)

/-! ## Example pages and states -/

/-- The grid occupied only at `(5,0)` and `(5,1)`: its first widget lies below
the first window. -/
def lowGrid : Fin 8 → Fin 3 → Option WidgetRef := fun r c =>
  if r.val = 5 ∧ c.val = 0 then some 1
  else if r.val = 5 ∧ c.val = 1 then some 2
  else none

/-- A freshly constructed page over `lowGrid` (`scrollOffset(0)`). -/
def lowPage : Page := Page.mk lowGrid 0 "Low"

/-- Page objects at three addresses: `examplePage` at 0, `lowPage` at 1 and
`pairPage` elsewhere. -/
def examplePages : PageRef → Page := fun ref =>
  if ref = 0 then examplePage else if ref = 1 then lowPage else pairPage

/-- Widget objects for the examples: a check box at address 1, a radio button
at addresses 3 (selected) and 4, labels elsewhere. -/
def exampleWidgets : WidgetRef → Widget := fun ref =>
  if ref = 1 then Widget.checkBox "Sound" false
  else if ref = 3 then Widget.radioButton "Low" true
  else if ref = 4 then Widget.radioButton "High" false
  else Widget.label "Text"

/-- The start-up state over `examplePages` and `exampleWidgets`. -/
def exampleStart : UIState := initialState (fun _ => 0) examplePages exampleWidgets

/-- The example state after registering the pages at addresses 0, 1 and 2. -/
def threePageState : UIState :=
  run [Action.addPage 0, Action.addPage 1, Action.addPage 2] exampleStart

/-- The example state with `examplePage` current and the focus on `(0,0)`,
which holds the check box at address 1. -/
def checkBoxState : UIState :=
  run [Action.addPage 0, Action.navigateToPage "Example"] exampleStart

/-- The example state with `examplePage` current and the focus on `(2,1)`,
which holds the label at address 2. -/
def labelState : UIState :=
  run [Action.addPage 0, Action.navigateToPage "Example", Action.navigateDown] exampleStart

/-- The grid occupied only at `(1,1)`, `(4,0)` and `(4,1)`: two non-empty rows
sharing column 1. -/
def stackGrid : Fin 8 → Fin 3 → Option WidgetRef := fun r c =>
  if r.val = 1 ∧ c.val = 1 then some 1
  else if r.val = 4 ∧ c.val = 0 then some 2
  else if r.val = 4 ∧ c.val = 1 then some 3
  else none

/-- A freshly constructed page over `stackGrid` (`scrollOffset(0)`). -/
def stackPage : Page := Page.mk stackGrid 0 "Stack"

/-! ## Loop lemmas -/

theorem forUp_eq_none {α : Type} (body : Int → Option α) (n : Nat) :
    ∀ start : Int, forUp body start n = none ↔
      ∀ i : Nat, i < n → body (start + i) = none := by
  induction n with
  | zero => intro start; simp [forUp]
  | succ n ih =>
    intro start
    unfold forUp
    cases hb : body start with
    | some x =>
      constructor
      · intro h; cases h
      · intro h
        have := h 0 (by omega)
        simp [hb] at this
    | none =>
      simp only [ih]
      constructor
      · intro h i hi
        cases i with
        | zero => simpa using hb
        | succ j =>
          have := h j (by omega)
          rw [← this]; congr 1; push_cast; ring
      · intro h i hi
        have := h (i + 1) (by omega)
        rw [← this]; congr 1; push_cast; ring

theorem forUp_eq_some {α : Type} (body : Int → Option α) (n : Nat) (x : α) :
    ∀ start : Int, forUp body start n = some x ↔
      ∃ i : Nat, i < n ∧ body (start + i) = some x ∧
        ∀ j : Nat, j < i → body (start + j) = none := by
  induction n with
  | zero => intro start; simp [forUp]
  | succ n ih =>
    intro start
    unfold forUp
    cases hb : body start with
    | some y =>
      constructor
      · intro h
        refine ⟨0, by omega, ?_, ?_⟩
        · simpa [hb] using h
        · intro j hj; omega
      · rintro ⟨i, hi, hx, hnone⟩
        cases i with
        | zero => simpa [hb] using hx
        | succ j =>
          have := hnone 0 (by omega)
          simp [hb] at this
    | none =>
      simp only [ih]
      constructor
      · rintro ⟨i, hi, hx, hnone⟩
        refine ⟨i + 1, by omega, ?_, ?_⟩
        · rw [← hx]; congr 1; push_cast; ring
        · intro j hj
          cases j with
          | zero => simpa using hb
          | succ k =>
            have := hnone k (by omega)
            rw [← this]; congr 1; push_cast; ring
      · rintro ⟨i, hi, hx, hnone⟩
        cases i with
        | zero => simp [hb] at hx
        | succ j =>
          refine ⟨j, by omega, ?_, ?_⟩
          · rw [← hx]; congr 1; push_cast; ring
          · intro k hk
            have := hnone (k + 1) (by omega)
            rw [← this]; congr 1; push_cast; ring

theorem forDown_eq_none {α : Type} (body : Int → Option α) (n : Nat) :
    ∀ start : Int, forDown body start n = none ↔
      ∀ i : Nat, i < n → body (start - i) = none := by
  induction n with
  | zero => intro start; simp [forDown]
  | succ n ih =>
    intro start
    unfold forDown
    cases hb : body start with
    | some x =>
      constructor
      · intro h; cases h
      · intro h
        have := h 0 (by omega)
        simp [hb] at this
    | none =>
      simp only [ih]
      constructor
      · intro h i hi
        cases i with
        | zero => simpa using hb
        | succ j =>
          have := h j (by omega)
          rw [← this]; congr 1; push_cast; ring
      · intro h i hi
        have := h (i + 1) (by omega)
        rw [← this]; congr 1; push_cast; ring

theorem forDown_eq_some {α : Type} (body : Int → Option α) (n : Nat) (x : α) :
    ∀ start : Int, forDown body start n = some x ↔
      ∃ i : Nat, i < n ∧ body (start - i) = some x ∧
        ∀ j : Nat, j < i → body (start - j) = none := by
  induction n with
  | zero => intro start; simp [forDown]
  | succ n ih =>
    intro start
    unfold forDown
    cases hb : body start with
    | some y =>
      constructor
      · intro h
        refine ⟨0, by omega, ?_, ?_⟩
        · simpa [hb] using h
        · intro j hj; omega
      · rintro ⟨i, hi, hx, hnone⟩
        cases i with
        | zero => simpa [hb] using hx
        | succ j =>
          have := hnone 0 (by omega)
          simp [hb] at this
    | none =>
      simp only [ih]
      constructor
      · rintro ⟨i, hi, hx, hnone⟩
        refine ⟨i + 1, by omega, ?_, ?_⟩
        · rw [← hx]; congr 1; push_cast; ring
        · intro j hj
          cases j with
          | zero => simpa using hb
          | succ k =>
            have := hnone k (by omega)
            rw [← this]; congr 1; push_cast; ring
      · rintro ⟨i, hi, hx, hnone⟩
        cases i with
        | zero => simp [hb] at hx
        | succ j =>
          refine ⟨j, by omega, ?_, ?_⟩
          · rw [← hx]; congr 1; push_cast; ring
          · intro k hk
            have := hnone (k + 1) (by omega)
            rw [← this]; congr 1; push_cast; ring

/-! ## Cells and row lookups -/

theorem occupied_inRange (p : Page) (r c : Int) (h : p.occupied r c) :
    0 ≤ r ∧ r < 8 ∧ 0 ≤ c ∧ c < 3 := by
  unfold Page.occupied Page.getWidget at h
  by_cases hb : 0 ≤ r ∧ r < 8 ∧ 0 ≤ c ∧ c < 3
  · exact hb
  · simp [hb] at h

theorem rowOccupied_iff (p : Page) (r : Int) :
    p.rowOccupied r ↔ p.occupied r 0 ∨ p.occupied r 1 ∨ p.occupied r 2 := by
  unfold Page.rowOccupied COLS
  constructor
  · rintro ⟨c, h0, h3, hc⟩
    have h : c = 0 ∨ c = 1 ∨ c = 2 := by omega
    rcases h with h | h | h <;> subst h <;> simp [hc]
  · rintro (h | h | h)
    · exact ⟨0, by omega, by omega, h⟩
    · exact ⟨1, by omega, by omega, h⟩
    · exact ⟨2, by omega, by omega, h⟩

theorem rowOccupied_inRange (p : Page) (r : Int) (h : p.rowOccupied r) : 0 ≤ r ∧ r < 8 := by
  obtain ⟨c, _, _, hc⟩ := h
  have := occupied_inRange p r c hc
  omega

theorem findLeftmostInRow_eq (p : Page) (r : Int) :
    p.findLeftmostInRow r =
      if p.occupied r 0 then 0 else if p.occupied r 1 then 1
      else if p.occupied r 2 then 2 else -1 := by
  unfold Page.findLeftmostInRow
  by_cases hr : r < 0 ∨ r ≥ TOTAL_ROWS
  · have h0 : ¬ p.occupied r 0 := fun h => by
      have := occupied_inRange p r 0 h; simp only [TOTAL_ROWS] at hr; omega
    have h1 : ¬ p.occupied r 1 := fun h => by
      have := occupied_inRange p r 1 h; simp only [TOTAL_ROWS] at hr; omega
    have h2 : ¬ p.occupied r 2 := fun h => by
      have := occupied_inRange p r 2 h; simp only [TOTAL_ROWS] at hr; omega
    simp [hr, h0, h1, h2]
  · simp only [hr, if_false]
    have hn : (COLS - 0).toNat = 3 := by decide
    rw [hn]
    simp only [forUp, Page.occupied]
    by_cases h0 : p.getWidget r 0 = none <;> by_cases h1 : p.getWidget r 1 = none <;>
      by_cases h2 : p.getWidget r 2 = none <;> simp [h0, h1, h2]

theorem findRightmostInRow_eq (p : Page) (r : Int) :
    p.findRightmostInRow r =
      if p.occupied r 2 then 2 else if p.occupied r 1 then 1
      else if p.occupied r 0 then 0 else -1 := by
  unfold Page.findRightmostInRow
  by_cases hr : r < 0 ∨ r ≥ TOTAL_ROWS
  · have h0 : ¬ p.occupied r 0 := fun h => by
      have := occupied_inRange p r 0 h; simp only [TOTAL_ROWS] at hr; omega
    have h1 : ¬ p.occupied r 1 := fun h => by
      have := occupied_inRange p r 1 h; simp only [TOTAL_ROWS] at hr; omega
    have h2 : ¬ p.occupied r 2 := fun h => by
      have := occupied_inRange p r 2 h; simp only [TOTAL_ROWS] at hr; omega
    simp [hr, h0, h1, h2]
  · simp only [hr, if_false]
    have hn : (COLS - 1 - 0 + 1).toNat = 3 := by decide
    have hs : COLS - 1 = 2 := by decide
    rw [hn, hs]
    simp only [forDown, Page.occupied]
    by_cases h0 : p.getWidget r 0 = none <;> by_cases h1 : p.getWidget r 1 = none <;>
      by_cases h2 : p.getWidget r 2 = none <;> simp [h0, h1, h2]

theorem findLeftmostInRow_eq_neg_one (p : Page) (r : Int) :
    p.findLeftmostInRow r = -1 ↔ ¬ p.rowOccupied r := by
  rw [findLeftmostInRow_eq, rowOccupied_iff]
  by_cases h0 : p.occupied r 0 <;> by_cases h1 : p.occupied r 1 <;>
    by_cases h2 : p.occupied r 2 <;> simp [h0, h1, h2]

theorem findRightmostInRow_eq_neg_one (p : Page) (r : Int) :
    p.findRightmostInRow r = -1 ↔ ¬ p.rowOccupied r := by
  rw [findRightmostInRow_eq, rowOccupied_iff]
  by_cases h0 : p.occupied r 0 <;> by_cases h1 : p.occupied r 1 <;>
    by_cases h2 : p.occupied r 2 <;> simp [h0, h1, h2]

theorem findLeftmostInRow_leftmostAt (p : Page) (r : Int) (h : p.rowOccupied r) :
    p.leftmostAt r (p.findLeftmostInRow r) := by
  rw [rowOccupied_iff] at h
  rw [findLeftmostInRow_eq]
  unfold Page.leftmostAt COLS
  by_cases h0 : p.occupied r 0
  · simp only [h0, if_true]
    exact ⟨by omega, by omega, trivial, fun k hk hk2 => by omega⟩
  · by_cases h1 : p.occupied r 1
    · simp only [h0, h1, if_true, if_false]
      refine ⟨by omega, by omega, trivial, fun k hk hk2 => ?_⟩
      have : k = 0 := by omega
      subst this; exact h0
    · have h2 : p.occupied r 2 := by tauto
      simp only [h0, h1, h2, if_true, if_false]
      refine ⟨by omega, by omega, trivial, fun k hk hk2 => ?_⟩
      have : k = 0 ∨ k = 1 := by omega
      rcases this with hk | hk <;> subst hk <;> assumption

theorem findRightmostInRow_rightmostAt (p : Page) (r : Int) (h : p.rowOccupied r) :
    p.rightmostAt r (p.findRightmostInRow r) := by
  rw [rowOccupied_iff] at h
  rw [findRightmostInRow_eq]
  unfold Page.rightmostAt COLS
  by_cases h2 : p.occupied r 2
  · simp only [h2, if_true]
    exact ⟨by omega, by omega, trivial, fun k hk hk2 => by omega⟩
  · by_cases h1 : p.occupied r 1
    · simp only [h2, h1, if_true, if_false]
      refine ⟨by omega, by omega, trivial, fun k hk hk2 => ?_⟩
      have : k = 2 := by omega
      subst this; exact h2
    · have h0 : p.occupied r 0 := by tauto
      simp only [h0, h1, h2, if_true, if_false]
      refine ⟨by omega, by omega, trivial, fun k hk hk2 => ?_⟩
      have : k = 1 ∨ k = 2 := by omega
      rcases this with hk | hk <;> subst hk <;> assumption

/-! ## The vertical scans -/

/-- The body shared by the loops of `navigateUp` and `navigateDown` falls
through exactly on an empty row. -/
theorem vertical_body_none (p : Page) (col r : Int) (hcol : 0 ≤ col ∧ col < COLS) :
    (if p.getWidget r col = none then
        if p.findLeftmostInRow r = -1 then none
        else some (NavResult.mk true (p.updateScrollPosition r) r (p.findLeftmostInRow r))
      else some (NavResult.mk true (p.updateScrollPosition r) r col)) = none ↔
      ¬ p.rowOccupied r := by
  by_cases hw : p.getWidget r col = none
  · simp only [hw, if_true]
    rw [← findLeftmostInRow_eq_neg_one]
    by_cases hl : p.findLeftmostInRow r = -1 <;> simp [hl]
  · simp only [hw, if_false]
    constructor
    · intro h; cases h
    · intro h; exact absurd ⟨col, hcol.1, hcol.2, hw⟩ h

/-- What the body shared by the loops of `navigateUp` and `navigateDown`
returns on a non-empty row. -/
theorem vertical_body_some (p : Page) (col r : Int) (x : NavResult)
    (h : (if p.getWidget r col = none then
        if p.findLeftmostInRow r = -1 then none
        else some (NavResult.mk true (p.updateScrollPosition r) r (p.findLeftmostInRow r))
      else some (NavResult.mk true (p.updateScrollPosition r) r col)) = some x) :
    p.rowOccupied r ∧
      ∃ c : Int, x = NavResult.mk true (p.updateScrollPosition r) r c ∧ p.occupied r c ∧
        (p.occupied r col → c = col) ∧ (¬ p.occupied r col → p.leftmostAt r c) := by
  by_cases hw : p.getWidget r col = none
  · simp only [hw, if_true] at h
    by_cases hl : p.findLeftmostInRow r = -1
    · simp [hl] at h
    · simp only [hl, if_false, Option.some.injEq] at h
      have hocc : p.rowOccupied r := by
        by_contra hn
        exact hl ((findLeftmostInRow_eq_neg_one p r).2 hn)
      have hlm := findLeftmostInRow_leftmostAt p r hocc
      exact ⟨hocc, _, h.symm, hlm.2.2.1, fun ho => absurd hw ho, fun _ => hlm⟩
  · simp only [hw, if_false, Option.some.injEq] at h
    have hc := occupied_inRange p r col hw
    exact ⟨⟨col, hc.2.2.1, hc.2.2.2, hw⟩, col, h.symm, hw, fun _ => rfl,
      fun hn => absurd hw hn⟩

/-- The two outcomes of `navigateDown`: nothing below and nothing changed, or a
move to the nearest non-empty row below. -/
theorem navigateDown_cases (p : Page) (row col : Int) (hcol : 0 ≤ col ∧ col < COLS) :
    (p.navigateDown row col = NavResult.mk false p row col ∧
      ∀ r : Int, row < r → r < TOTAL_ROWS → ¬ p.rowOccupied r) ∨
    (∃ r c : Int, p.navigateDown row col = NavResult.mk true (p.updateScrollPosition r) r c ∧
      row < r ∧ r < TOTAL_ROWS ∧ p.rowOccupied r ∧ p.occupied r c ∧
      (∀ k : Int, row < k → k < r → ¬ p.rowOccupied k) ∧
      (p.occupied r col → c = col) ∧ (¬ p.occupied r col → p.leftmostAt r c)) := by
  unfold Page.navigateDown
  split
  · rename_i res h
    rw [forUp_eq_some] at h
    obtain ⟨i, hi, hx, hnone⟩ := h
    obtain ⟨hocc, c, hres, hoc, h1, h2⟩ := vertical_body_some p col _ res hx
    right
    refine ⟨row + 1 + i, c, hres, by omega, ?_, hocc, hoc, ?_, h1, h2⟩
    · simp only [TOTAL_ROWS] at hi ⊢; omega
    · intro k hk1 hk2
      have hk := hnone (k - (row + 1)).toNat (by omega)
      have e : row + 1 + ((k - (row + 1)).toNat : Int) = k := by omega
      rw [e] at hk
      exact (vertical_body_none p col k hcol).1 hk
  · rename_i h
    rw [forUp_eq_none] at h
    left
    refine ⟨rfl, fun r h1 h2 => ?_⟩
    have hk := h (r - (row + 1)).toNat (by simp only [TOTAL_ROWS] at h2 ⊢; omega)
    have e : row + 1 + ((r - (row + 1)).toNat : Int) = r := by omega
    rw [e] at hk
    exact (vertical_body_none p col r hcol).1 hk

/-- The two outcomes of `navigateUp`: nothing above and nothing changed, or a
move to the nearest non-empty row above. -/
theorem navigateUp_cases (p : Page) (row col : Int) (hcol : 0 ≤ col ∧ col < COLS) :
    (p.navigateUp row col = NavResult.mk false p row col ∧
      ∀ r : Int, 0 ≤ r → r < row → ¬ p.rowOccupied r) ∨
    (∃ r c : Int, p.navigateUp row col = NavResult.mk true (p.updateScrollPosition r) r c ∧
      0 ≤ r ∧ r < row ∧ p.rowOccupied r ∧ p.occupied r c ∧
      (∀ k : Int, r < k → k < row → ¬ p.rowOccupied k) ∧
      (p.occupied r col → c = col) ∧ (¬ p.occupied r col → p.leftmostAt r c)) := by
  unfold Page.navigateUp
  split
  · rename_i res h
    rw [forDown_eq_some] at h
    obtain ⟨i, hi, hx, hnone⟩ := h
    obtain ⟨hocc, c, hres, hoc, h1, h2⟩ := vertical_body_some p col _ res hx
    right
    refine ⟨row - 1 - i, c, hres, by omega, by omega, hocc, hoc, ?_, h1, h2⟩
    intro k hk1 hk2
    have hk := hnone (row - 1 - k).toNat (by omega)
    have e : row - 1 - ((row - 1 - k).toNat : Int) = k := by omega
    rw [e] at hk
    exact (vertical_body_none p col k hcol).1 hk
  · rename_i h
    rw [forDown_eq_none] at h
    left
    refine ⟨rfl, fun r h1 h2 => ?_⟩
    have hk := h (row - 1 - r).toNat (by omega)
    have e : row - 1 - ((row - 1 - r).toNat : Int) = r := by omega
    rw [e] at hk
    exact (vertical_body_none p col r hcol).1 hk

/-! ## The horizontal scans -/

/-- The in-row loop body of `navigateLeft` / `navigateRight` falls through
exactly on an empty cell. -/
theorem inRow_body_none (p : Page) (row c : Int) :
    (if p.getWidget row c ≠ none then some (NavResult.mk true p row c) else none) = none ↔
      ¬ p.occupied row c := by
  unfold Page.occupied
  by_cases h : p.getWidget row c = none <;> simp [h]

/-- What the in-row loop body of `navigateLeft` / `navigateRight` returns on an
occupied cell. -/
theorem inRow_body_some (p : Page) (row c : Int) (x : NavResult)
    (h : (if p.getWidget row c ≠ none then some (NavResult.mk true p row c) else none)
      = some x) :
    p.occupied row c ∧ x = NavResult.mk true p row c := by
  unfold Page.occupied
  by_cases hw : p.getWidget row c = none
  · simp [hw] at h
  · simp only [ne_eq, hw, not_false_eq_true, if_true, Option.some.injEq] at h
    exact ⟨hw, h.symm⟩

/-- The row loop body of `navigateLeft` falls through exactly on an empty row. -/
theorem leftRow_body_none (p : Page) (r : Int) :
    (if p.findRightmostInRow r ≠ -1 then
        some (NavResult.mk true (p.updateScrollPosition r) r (p.findRightmostInRow r))
      else none) = none ↔ ¬ p.rowOccupied r := by
  rw [← findRightmostInRow_eq_neg_one]
  by_cases h : p.findRightmostInRow r = -1 <;> simp [h]

/-- What the row loop body of `navigateLeft` returns on a non-empty row. -/
theorem leftRow_body_some (p : Page) (r : Int) (x : NavResult)
    (h : (if p.findRightmostInRow r ≠ -1 then
        some (NavResult.mk true (p.updateScrollPosition r) r (p.findRightmostInRow r))
      else none) = some x) :
    p.rowOccupied r ∧
      ∃ c : Int, x = NavResult.mk true (p.updateScrollPosition r) r c ∧ p.rightmostAt r c := by
  by_cases hl : p.findRightmostInRow r = -1
  · simp [hl] at h
  · simp only [ne_eq, hl, not_false_eq_true, if_true, Option.some.injEq] at h
    have hocc : p.rowOccupied r := by
      by_contra hn
      exact hl ((findRightmostInRow_eq_neg_one p r).2 hn)
    exact ⟨hocc, _, h.symm, findRightmostInRow_rightmostAt p r hocc⟩

/-- The row loop body of `navigateRight` falls through exactly on an empty row. -/
theorem rightRow_body_none (p : Page) (r : Int) :
    (if p.findLeftmostInRow r ≠ -1 then
        some (NavResult.mk true (p.updateScrollPosition r) r (p.findLeftmostInRow r))
      else none) = none ↔ ¬ p.rowOccupied r := by
  rw [← findLeftmostInRow_eq_neg_one]
  by_cases h : p.findLeftmostInRow r = -1 <;> simp [h]

/-- What the row loop body of `navigateRight` returns on a non-empty row. -/
theorem rightRow_body_some (p : Page) (r : Int) (x : NavResult)
    (h : (if p.findLeftmostInRow r ≠ -1 then
        some (NavResult.mk true (p.updateScrollPosition r) r (p.findLeftmostInRow r))
      else none) = some x) :
    p.rowOccupied r ∧
      ∃ c : Int, x = NavResult.mk true (p.updateScrollPosition r) r c ∧ p.leftmostAt r c := by
  by_cases hl : p.findLeftmostInRow r = -1
  · simp [hl] at h
  · simp only [ne_eq, hl, not_false_eq_true, if_true, Option.some.injEq] at h
    have hocc : p.rowOccupied r := by
      by_contra hn
      exact hl ((findLeftmostInRow_eq_neg_one p r).2 hn)
    exact ⟨hocc, _, h.symm, findLeftmostInRow_leftmostAt p r hocc⟩

/-- The outcomes of `navigateLeft`: refusal on a full row; an in-row move; a
move to the end of the nearest non-empty row above; a wrap to the end of the
last non-empty row below; or nothing to go to and nothing changed. -/
theorem navigateLeft_cases (p : Page) (row col : Int) :
    (p.isFullRow row = true ∧ p.navigateLeft row col = NavResult.mk false p row col) ∨
    (p.isFullRow row = false ∧
      ∃ c : Int, p.navigateLeft row col = NavResult.mk true p row c ∧
        0 ≤ c ∧ c < col ∧ p.occupied row c ∧
        ∀ k : Int, c < k → k < col → ¬ p.occupied row k) ∨
    (p.isFullRow row = false ∧ (∀ k : Int, 0 ≤ k → k < col → ¬ p.occupied row k) ∧
      ∃ r c : Int, p.navigateLeft row col = NavResult.mk true (p.updateScrollPosition r) r c ∧
        0 ≤ r ∧ r < row ∧ p.rowOccupied r ∧ p.rightmostAt r c ∧
        ∀ k : Int, r < k → k < row → ¬ p.rowOccupied k) ∨
    (p.isFullRow row = false ∧ (∀ k : Int, 0 ≤ k → k < col → ¬ p.occupied row k) ∧
      (∀ k : Int, 0 ≤ k → k < row → ¬ p.rowOccupied k) ∧
      ∃ r c : Int, p.navigateLeft row col = NavResult.mk true (p.updateScrollPosition r) r c ∧
        row < r ∧ r < TOTAL_ROWS ∧ p.rowOccupied r ∧ p.rightmostAt r c ∧
        ∀ k : Int, r < k → k < TOTAL_ROWS → ¬ p.rowOccupied k) ∨
    (p.isFullRow row = false ∧ (∀ k : Int, 0 ≤ k → k < col → ¬ p.occupied row k) ∧
      (∀ k : Int, 0 ≤ k → k < row → ¬ p.rowOccupied k) ∧
      (∀ k : Int, row < k → k < TOTAL_ROWS → ¬ p.rowOccupied k) ∧
      p.navigateLeft row col = NavResult.mk false p row col) := by
  unfold Page.navigateLeft
  by_cases hfull : p.isFullRow row = true
  · left; simp [hfull]
  · right
    have hf : p.isFullRow row = false := by simpa using hfull
    simp only [hf, Bool.false_eq_true, if_false]
    split
    · rename_i res h
      rw [forDown_eq_some] at h
      obtain ⟨i, hi, hx, hnone⟩ := h
      obtain ⟨hocc, hres⟩ := inRow_body_some p row _ res hx
      left
      refine ⟨trivial, col - 1 - i, hres, by omega, by omega, hocc, fun k hk1 hk2 => ?_⟩
      have hk := hnone (col - 1 - k).toNat (by omega)
      have e : col - 1 - ((col - 1 - k).toNat : Int) = k := by omega
      rw [e] at hk
      exact (inRow_body_none p row k).1 hk
    · rename_i h
      rw [forDown_eq_none] at h
      have hrow : ∀ k : Int, 0 ≤ k → k < col → ¬ p.occupied row k := by
        intro k hk1 hk2
        have hk := h (col - 1 - k).toNat (by omega)
        have e : col - 1 - ((col - 1 - k).toNat : Int) = k := by omega
        rw [e] at hk
        exact (inRow_body_none p row k).1 hk
      right
      split
      · rename_i res h
        rw [forDown_eq_some] at h
        obtain ⟨i, hi, hx, hnone⟩ := h
        obtain ⟨hocc, c, hres, hrm⟩ := leftRow_body_some p _ res hx
        left
        refine ⟨trivial, hrow, row - 1 - i, c, hres, by omega, by omega, hocc, hrm,
          fun k hk1 hk2 => ?_⟩
        have hk := hnone (row - 1 - k).toNat (by omega)
        have e : row - 1 - ((row - 1 - k).toNat : Int) = k := by omega
        rw [e] at hk
        exact (leftRow_body_none p k).1 hk
      · rename_i h
        rw [forDown_eq_none] at h
        have habove : ∀ k : Int, 0 ≤ k → k < row → ¬ p.rowOccupied k := by
          intro k hk1 hk2
          have hk := h (row - 1 - k).toNat (by omega)
          have e : row - 1 - ((row - 1 - k).toNat : Int) = k := by omega
          rw [e] at hk
          exact (leftRow_body_none p k).1 hk
        right
        split
        · rename_i res h
          rw [forDown_eq_some] at h
          obtain ⟨i, hi, hx, hnone⟩ := h
          obtain ⟨hocc, c, hres, hrm⟩ := leftRow_body_some p _ res hx
          left
          simp only [TOTAL_ROWS] at hi hnone ⊢
          refine ⟨trivial, hrow, habove, 8 - 1 - i, c, hres, by omega, by omega, hocc, hrm,
            fun k hk1 hk2 => ?_⟩
          have hk := hnone (8 - 1 - k).toNat (by omega)
          have e : (8 : Int) - 1 - ((8 - 1 - k).toNat : Int) = k := by omega
          rw [e] at hk
          exact (leftRow_body_none p k).1 hk
        · rename_i h
          rw [forDown_eq_none] at h
          right
          refine ⟨trivial, hrow, habove, fun k hk1 hk2 => ?_, rfl⟩
          simp only [TOTAL_ROWS] at h hk2
          have hk := h (8 - 1 - k).toNat (by omega)
          have e : (8 : Int) - 1 - ((8 - 1 - k).toNat : Int) = k := by omega
          rw [e] at hk
          exact (leftRow_body_none p k).1 hk

/-- The outcomes of `navigateRight`: refusal on a full row; an in-row move; a
move to the start of the nearest non-empty row below; a wrap to the start of
the first non-empty row above; or nothing to go to and nothing changed. -/
theorem navigateRight_cases (p : Page) (row col : Int) :
    (p.isFullRow row = true ∧ p.navigateRight row col = NavResult.mk false p row col) ∨
    (p.isFullRow row = false ∧
      ∃ c : Int, p.navigateRight row col = NavResult.mk true p row c ∧
        col < c ∧ c < COLS ∧ p.occupied row c ∧
        ∀ k : Int, col < k → k < c → ¬ p.occupied row k) ∨
    (p.isFullRow row = false ∧ (∀ k : Int, col < k → k < COLS → ¬ p.occupied row k) ∧
      ∃ r c : Int, p.navigateRight row col = NavResult.mk true (p.updateScrollPosition r) r c ∧
        row < r ∧ r < TOTAL_ROWS ∧ p.rowOccupied r ∧ p.leftmostAt r c ∧
        ∀ k : Int, row < k → k < r → ¬ p.rowOccupied k) ∨
    (p.isFullRow row = false ∧ (∀ k : Int, col < k → k < COLS → ¬ p.occupied row k) ∧
      (∀ k : Int, row < k → k < TOTAL_ROWS → ¬ p.rowOccupied k) ∧
      ∃ r c : Int, p.navigateRight row col = NavResult.mk true (p.updateScrollPosition r) r c ∧
        0 ≤ r ∧ r < row ∧ p.rowOccupied r ∧ p.leftmostAt r c ∧
        ∀ k : Int, 0 ≤ k → k < r → ¬ p.rowOccupied k) ∨
    (p.isFullRow row = false ∧ (∀ k : Int, col < k → k < COLS → ¬ p.occupied row k) ∧
      (∀ k : Int, row < k → k < TOTAL_ROWS → ¬ p.rowOccupied k) ∧
      (∀ k : Int, 0 ≤ k → k < row → ¬ p.rowOccupied k) ∧
      p.navigateRight row col = NavResult.mk false p row col) := by
  unfold Page.navigateRight
  by_cases hfull : p.isFullRow row = true
  · left; simp [hfull]
  · right
    have hf : p.isFullRow row = false := by simpa using hfull
    simp only [hf, Bool.false_eq_true, if_false]
    simp only [TOTAL_ROWS, COLS]
    split
    · rename_i res h
      rw [forUp_eq_some] at h
      obtain ⟨i, hi, hx, hnone⟩ := h
      obtain ⟨hocc, hres⟩ := inRow_body_some p row _ res hx
      left
      refine ⟨trivial, col + 1 + i, hres, by omega, by omega, hocc, fun k hk1 hk2 => ?_⟩
      have hk := hnone (k - (col + 1)).toNat (by omega)
      have e : col + 1 + ((k - (col + 1)).toNat : Int) = k := by omega
      rw [e] at hk
      exact (inRow_body_none p row k).1 hk
    · rename_i h
      rw [forUp_eq_none] at h
      have hrow : ∀ k : Int, col < k → k < 3 → ¬ p.occupied row k := by
        intro k hk1 hk2
        have hk := h (k - (col + 1)).toNat (by omega)
        have e : col + 1 + ((k - (col + 1)).toNat : Int) = k := by omega
        rw [e] at hk
        exact (inRow_body_none p row k).1 hk
      right
      split
      · rename_i res h
        rw [forUp_eq_some] at h
        obtain ⟨i, hi, hx, hnone⟩ := h
        obtain ⟨hocc, c, hres, hlm⟩ := rightRow_body_some p _ res hx
        left
        refine ⟨trivial, hrow, row + 1 + i, c, hres, by omega, by omega, hocc, hlm,
          fun k hk1 hk2 => ?_⟩
        have hk := hnone (k - (row + 1)).toNat (by omega)
        have e : row + 1 + ((k - (row + 1)).toNat : Int) = k := by omega
        rw [e] at hk
        exact (rightRow_body_none p k).1 hk
      · rename_i h
        rw [forUp_eq_none] at h
        have hbelow : ∀ k : Int, row < k → k < 8 → ¬ p.rowOccupied k := by
          intro k hk1 hk2
          have hk := h (k - (row + 1)).toNat (by omega)
          have e : row + 1 + ((k - (row + 1)).toNat : Int) = k := by omega
          rw [e] at hk
          exact (rightRow_body_none p k).1 hk
        right
        split
        · rename_i res h
          rw [forUp_eq_some] at h
          obtain ⟨i, hi, hx, hnone⟩ := h
          obtain ⟨hocc, c, hres, hlm⟩ := rightRow_body_some p _ res hx
          left
          refine ⟨trivial, hrow, hbelow, 0 + i, c, hres, by omega, by omega, hocc, hlm,
            fun k hk1 hk2 => ?_⟩
          have hk := hnone k.toNat (by omega)
          have e : (0 : Int) + (k.toNat : Int) = k := by omega
          rw [e] at hk
          exact (rightRow_body_none p k).1 hk
        · rename_i h
          rw [forUp_eq_none] at h
          right
          refine ⟨trivial, hrow, hbelow, fun k hk1 hk2 => ?_, rfl⟩
          have hk := h k.toNat (by omega)
          have e : (0 : Int) + (k.toNat : Int) = k := by omega
          rw [e] at hk
          exact (rightRow_body_none p k).1 hk

/-! ## The scroll window -/

theorem getWidget_updateScrollPosition (p : Page) (s r c : Int) :
    (p.updateScrollPosition s).getWidget r c = p.getWidget r c := rfl

theorem occupied_updateScrollPosition (p : Page) (s r c : Int) :
    (p.updateScrollPosition s).occupied r c ↔ p.occupied r c := Iff.rfl

/-- After `updateScrollPosition r` with `r` a row of the grid, the window holds
`r` and the offset lies in `[0, 4]`. -/
theorem updateScrollPosition_window (p : Page) (r : Int) (hs : isInt p.scrollOffset)
    (h0 : 0 ≤ r) (h8 : r < TOTAL_ROWS) :
    (p.updateScrollPosition r).scrollOffset ≤ r ∧
    r ≤ (p.updateScrollPosition r).scrollOffset + VISIBLE_ROWS - 1 ∧
    0 ≤ (p.updateScrollPosition r).scrollOffset ∧
    (p.updateScrollPosition r).scrollOffset ≤ TOTAL_ROWS - VISIBLE_ROWS := by
  unfold isInt INT_MIN INT_MAX at hs
  simp only [Page.updateScrollPosition, wrapInt, TOTAL_ROWS, VISIBLE_ROWS] at h8 ⊢
  split_ifs <;> omega

/-! ## Vertical navigation -/

/-- C1. From an in-range focus `navigateDown` returns true exactly when some row
below holds a widget; it then lands on the nearest such row, keeping the column
when that cell is occupied and taking the row's leftmost occupied column
otherwise; when no row below holds a widget it returns false and the focus
stays where it was (no wrap to the top). -/
theorem navigateDown_nearest_row_below (p : Page) (row col : Int)
    (hrow : 0 ≤ row ∧ row < TOTAL_ROWS) (hcol : 0 ≤ col ∧ col < COLS) :
    ((p.navigateDown row col).moved = true ↔
      ∃ r : Int, row < r ∧ r < TOTAL_ROWS ∧ p.rowOccupied r) ∧
    ((p.navigateDown row col).moved = true →
      row < (p.navigateDown row col).row ∧ (p.navigateDown row col).row < TOTAL_ROWS ∧
      p.rowOccupied (p.navigateDown row col).row ∧
      (∀ k : Int, row < k → k < (p.navigateDown row col).row → ¬ p.rowOccupied k) ∧
      (p.occupied (p.navigateDown row col).row col → (p.navigateDown row col).col = col) ∧
      (¬ p.occupied (p.navigateDown row col).row col →
        p.leftmostAt (p.navigateDown row col).row (p.navigateDown row col).col)) ∧
    ((p.navigateDown row col).moved = false →
      (¬ ∃ r : Int, row < r ∧ r < TOTAL_ROWS ∧ p.rowOccupied r) ∧
      (p.navigateDown row col).row = row ∧ (p.navigateDown row col).col = col) := by
  have _ := hrow
  rcases navigateDown_cases p row col hcol with ⟨h, hno⟩ | ⟨r, c, h, h1, h2, h3, _, h5, h6, h7⟩
  · rw [h]
    refine ⟨?_, ?_, ?_⟩
    · constructor
      · intro hm; cases hm
      · rintro ⟨r, hr1, hr2, hr3⟩; exact absurd hr3 (hno r hr1 hr2)
    · intro hm; cases hm
    · intro _
      exact ⟨fun ⟨r, hr1, hr2, hr3⟩ => hno r hr1 hr2 hr3, rfl, rfl⟩
  · rw [h]
    refine ⟨?_, ?_, ?_⟩
    · exact ⟨fun _ => ⟨r, h1, h2, h3⟩, fun _ => rfl⟩
    · intro _; exact ⟨h1, h2, h3, h5, h6, h7⟩
    · intro hm; cases hm

/-- C1, on the example grid: Down from `(0,0)` lands on `(2,1)` and a second
Down lands on `(3,0)`. -/
theorem navigateDown_nearest_row_below_witness :
    (0 ≤ (0 : Int) ∧ (0 : Int) < TOTAL_ROWS) ∧ (0 ≤ (0 : Int) ∧ (0 : Int) < COLS) ∧
    (((examplePage.navigateDown 0 0).moved = true ↔
      ∃ r : Int, 0 < r ∧ r < TOTAL_ROWS ∧ examplePage.rowOccupied r) ∧
    ((examplePage.navigateDown 0 0).moved = true →
      0 < (examplePage.navigateDown 0 0).row ∧
      (examplePage.navigateDown 0 0).row < TOTAL_ROWS ∧
      examplePage.rowOccupied (examplePage.navigateDown 0 0).row ∧
      (∀ k : Int, 0 < k → k < (examplePage.navigateDown 0 0).row →
        ¬ examplePage.rowOccupied k) ∧
      (examplePage.occupied (examplePage.navigateDown 0 0).row 0 →
        (examplePage.navigateDown 0 0).col = 0) ∧
      (¬ examplePage.occupied (examplePage.navigateDown 0 0).row 0 →
        examplePage.leftmostAt (examplePage.navigateDown 0 0).row
          (examplePage.navigateDown 0 0).col)) ∧
    ((examplePage.navigateDown 0 0).moved = false →
      (¬ ∃ r : Int, 0 < r ∧ r < TOTAL_ROWS ∧ examplePage.rowOccupied r) ∧
      (examplePage.navigateDown 0 0).row = 0 ∧ (examplePage.navigateDown 0 0).col = 0)) ∧
    (examplePage.navigateDown 0 0).moved = true ∧
    (examplePage.navigateDown 0 0).row = 2 ∧ (examplePage.navigateDown 0 0).col = 1 ∧
    ((examplePage.navigateDown 0 0).page.navigateDown 2 1).moved = true ∧
    ((examplePage.navigateDown 0 0).page.navigateDown 2 1).row = 3 ∧
    ((examplePage.navigateDown 0 0).page.navigateDown 2 1).col = 0 :=
  ⟨by decide, by decide, navigateDown_nearest_row_below examplePage 0 0 (by decide) (by decide),
    by decide, by decide, by decide, by decide, by decide, by decide⟩

/-- C2. From an in-range focus `navigateUp` returns true exactly when some row
above holds a widget; it then lands on the nearest such row, keeping the column
when that cell is occupied and taking the row's leftmost occupied column
otherwise; when no row above holds a widget (so from the topmost occupied row)
it returns false and leaves row and column unchanged (no wrap to the bottom). -/
theorem navigateUp_nearest_row_above (p : Page) (row col : Int)
    (hrow : 0 ≤ row ∧ row < TOTAL_ROWS) (hcol : 0 ≤ col ∧ col < COLS) :
    ((p.navigateUp row col).moved = true ↔
      ∃ r : Int, 0 ≤ r ∧ r < row ∧ p.rowOccupied r) ∧
    ((p.navigateUp row col).moved = true →
      0 ≤ (p.navigateUp row col).row ∧ (p.navigateUp row col).row < row ∧
      p.rowOccupied (p.navigateUp row col).row ∧
      (∀ k : Int, (p.navigateUp row col).row < k → k < row → ¬ p.rowOccupied k) ∧
      (p.occupied (p.navigateUp row col).row col → (p.navigateUp row col).col = col) ∧
      (¬ p.occupied (p.navigateUp row col).row col →
        p.leftmostAt (p.navigateUp row col).row (p.navigateUp row col).col)) ∧
    ((p.navigateUp row col).moved = false →
      (¬ ∃ r : Int, 0 ≤ r ∧ r < row ∧ p.rowOccupied r) ∧
      (p.navigateUp row col).row = row ∧ (p.navigateUp row col).col = col) := by
  have _ := hrow
  rcases navigateUp_cases p row col hcol with ⟨h, hno⟩ | ⟨r, c, h, h1, h2, h3, _, h5, h6, h7⟩
  · rw [h]
    refine ⟨?_, ?_, ?_⟩
    · constructor
      · intro hm; cases hm
      · rintro ⟨r, hr1, hr2, hr3⟩; exact absurd hr3 (hno r hr1 hr2)
    · intro hm; cases hm
    · intro _
      exact ⟨fun ⟨r, hr1, hr2, hr3⟩ => hno r hr1 hr2 hr3, rfl, rfl⟩
  · rw [h]
    refine ⟨?_, ?_, ?_⟩
    · exact ⟨fun _ => ⟨r, h1, h2, h3⟩, fun _ => rfl⟩
    · intro _; exact ⟨h1, h2, h3, h5, h6, h7⟩
    · intro hm; cases hm

/-- C2, on the example grid: Up from `(3,2)` lands on `(2,1)`, and Up from the
topmost occupied row `(0,0)` fails and leaves the focus at `(0,0)`. -/
theorem navigateUp_nearest_row_above_witness :
    (0 ≤ (3 : Int) ∧ (3 : Int) < TOTAL_ROWS) ∧ (0 ≤ (2 : Int) ∧ (2 : Int) < COLS) ∧
    (((examplePage.navigateUp 3 2).moved = true ↔
      ∃ r : Int, 0 ≤ r ∧ r < 3 ∧ examplePage.rowOccupied r) ∧
    ((examplePage.navigateUp 3 2).moved = true →
      0 ≤ (examplePage.navigateUp 3 2).row ∧ (examplePage.navigateUp 3 2).row < 3 ∧
      examplePage.rowOccupied (examplePage.navigateUp 3 2).row ∧
      (∀ k : Int, (examplePage.navigateUp 3 2).row < k → k < 3 →
        ¬ examplePage.rowOccupied k) ∧
      (examplePage.occupied (examplePage.navigateUp 3 2).row 2 →
        (examplePage.navigateUp 3 2).col = 2) ∧
      (¬ examplePage.occupied (examplePage.navigateUp 3 2).row 2 →
        examplePage.leftmostAt (examplePage.navigateUp 3 2).row
          (examplePage.navigateUp 3 2).col)) ∧
    ((examplePage.navigateUp 3 2).moved = false →
      (¬ ∃ r : Int, 0 ≤ r ∧ r < 3 ∧ examplePage.rowOccupied r) ∧
      (examplePage.navigateUp 3 2).row = 3 ∧ (examplePage.navigateUp 3 2).col = 2)) ∧
    (examplePage.navigateUp 3 2).moved = true ∧
    (examplePage.navigateUp 3 2).row = 2 ∧ (examplePage.navigateUp 3 2).col = 1 ∧
    (examplePage.navigateUp 0 0).moved = false ∧
    (examplePage.navigateUp 0 0).row = 0 ∧ (examplePage.navigateUp 0 0).col = 0 :=
  ⟨by decide, by decide, navigateUp_nearest_row_above examplePage 3 2 (by decide) (by decide),
    by decide, by decide, by decide, by decide, by decide, by decide⟩

/-! ## Invariants of a successful move -/

/-- C3. Focus validity: from any in-range focus (the starting cell may be
empty), whenever `navigateUp`, `navigateDown`, `navigateLeft` or
`navigateRight` returns true, the resulting `(row, col)` is in range and the
cell there is occupied. -/
theorem navigate_success_focus_valid (p : Page) (row col : Int)
    (hrow : 0 ≤ row ∧ row < TOTAL_ROWS) (hcol : 0 ≤ col ∧ col < COLS) (res : NavResult)
    (hres : res = p.navigateUp row col ∨ res = p.navigateDown row col ∨
      res = p.navigateLeft row col ∨ res = p.navigateRight row col)
    (hmoved : res.moved = true) :
    (0 ≤ res.row ∧ res.row < TOTAL_ROWS) ∧ (0 ≤ res.col ∧ res.col < COLS) ∧
    res.page.getWidget res.row res.col ≠ none ∧ p.getWidget res.row res.col ≠ none := by
  have _ := hrow
  have key : ∀ (q : Page) (r c : Int), q.getWidget r c = p.getWidget r c → p.occupied r c →
      (0 ≤ r ∧ r < TOTAL_ROWS) ∧ (0 ≤ c ∧ c < COLS) ∧
      q.getWidget r c ≠ none ∧ p.getWidget r c ≠ none := by
    intro q r c hq ho
    have hb := occupied_inRange p r c ho
    refine ⟨⟨hb.1, hb.2.1⟩, ⟨hb.2.2.1, hb.2.2.2⟩, ?_, ho⟩
    rw [hq]; exact ho
  rcases hres with h | h | h | h
  · rcases navigateUp_cases p row col hcol with ⟨e, _⟩ | ⟨r, c, e, _, _, _, ho, _⟩
    · rw [h, e] at hmoved; cases hmoved
    · rw [h, e]; exact key _ r c rfl ho
  · rcases navigateDown_cases p row col hcol with ⟨e, _⟩ | ⟨r, c, e, _, _, _, ho, _⟩
    · rw [h, e] at hmoved; cases hmoved
    · rw [h, e]; exact key _ r c rfl ho
  · rcases navigateLeft_cases p row col with ⟨_, e⟩ | ⟨_, c, e, _, _, ho, _⟩ |
      ⟨_, _, r, c, e, _, _, _, hm, _⟩ | ⟨_, _, _, r, c, e, _, _, _, hm, _⟩ | ⟨_, _, _, _, e⟩
    · rw [h, e] at hmoved; cases hmoved
    · rw [h, e]; exact key _ row c rfl ho
    · rw [h, e]; exact key _ r c rfl hm.2.2.1
    · rw [h, e]; exact key _ r c rfl hm.2.2.1
    · rw [h, e] at hmoved; cases hmoved
  · rcases navigateRight_cases p row col with ⟨_, e⟩ | ⟨_, c, e, _, _, ho, _⟩ |
      ⟨_, _, r, c, e, _, _, _, hm, _⟩ | ⟨_, _, _, r, c, e, _, _, _, hm, _⟩ | ⟨_, _, _, _, e⟩
    · rw [h, e] at hmoved; cases hmoved
    · rw [h, e]; exact key _ row c rfl ho
    · rw [h, e]; exact key _ r c rfl hm.2.2.1
    · rw [h, e]; exact key _ r c rfl hm.2.2.1
    · rw [h, e] at hmoved; cases hmoved

/-- C3, on the example grid: Right from the empty cell `(1,1)` succeeds and
lands on the occupied cell `(2,1)`. -/
theorem navigate_success_focus_valid_witness :
    (0 ≤ (1 : Int) ∧ (1 : Int) < TOTAL_ROWS) ∧ (0 ≤ (1 : Int) ∧ (1 : Int) < COLS) ∧
    examplePage.getWidget 1 1 = none ∧
    (examplePage.navigateRight 1 1).moved = true ∧
    (examplePage.navigateRight 1 1).row = 2 ∧ (examplePage.navigateRight 1 1).col = 1 ∧
    ((0 ≤ (examplePage.navigateRight 1 1).row ∧
        (examplePage.navigateRight 1 1).row < TOTAL_ROWS) ∧
      (0 ≤ (examplePage.navigateRight 1 1).col ∧ (examplePage.navigateRight 1 1).col < COLS) ∧
      (examplePage.navigateRight 1 1).page.getWidget (examplePage.navigateRight 1 1).row
        (examplePage.navigateRight 1 1).col ≠ none ∧
      examplePage.getWidget (examplePage.navigateRight 1 1).row
        (examplePage.navigateRight 1 1).col ≠ none) :=
  ⟨by decide, by decide, by decide, by decide, by decide, by decide,
    navigate_success_focus_valid examplePage 1 1 (by decide) (by decide)
      (examplePage.navigateRight 1 1) (Or.inr (Or.inr (Or.inr rfl))) (by decide)⟩

/-- C4. Viewport containment: from any in-range focus and any prior
`scrollOffset` (a 32-bit `int`), after a successful `navigateUp` or
`navigateDown`, or a successful `navigateLeft` or `navigateRight` that changed
the row, the resulting row `r` satisfies `scrollOffset <= r <= scrollOffset + 3`
and `0 <= scrollOffset <= 4`. -/
theorem navigate_success_viewport (p : Page) (row col : Int)
    (hs : isInt p.scrollOffset)
    (hrow : 0 ≤ row ∧ row < TOTAL_ROWS) (hcol : 0 ≤ col ∧ col < COLS) (res : NavResult)
    (hres : res = p.navigateUp row col ∨ res = p.navigateDown row col ∨
      ((res = p.navigateLeft row col ∨ res = p.navigateRight row col) ∧ res.row ≠ row))
    (hmoved : res.moved = true) :
    (res.page.scrollOffset ≤ res.row ∧ res.row ≤ res.page.scrollOffset + 3) ∧
    (0 ≤ res.page.scrollOffset ∧ res.page.scrollOffset ≤ 4) := by
  have key : ∀ r c : Int, 0 ≤ r → r < TOTAL_ROWS →
      ((NavResult.mk true (p.updateScrollPosition r) r c).page.scrollOffset
          ≤ (NavResult.mk true (p.updateScrollPosition r) r c).row ∧
        (NavResult.mk true (p.updateScrollPosition r) r c).row
          ≤ (NavResult.mk true (p.updateScrollPosition r) r c).page.scrollOffset + 3) ∧
      (0 ≤ (NavResult.mk true (p.updateScrollPosition r) r c).page.scrollOffset ∧
        (NavResult.mk true (p.updateScrollPosition r) r c).page.scrollOffset ≤ 4) := by
    intro r c h0 h8
    have h := updateScrollPosition_window p r hs h0 h8
    simp only [TOTAL_ROWS, VISIBLE_ROWS] at h
    show ((p.updateScrollPosition r).scrollOffset ≤ r ∧
        r ≤ (p.updateScrollPosition r).scrollOffset + 3) ∧
      (0 ≤ (p.updateScrollPosition r).scrollOffset ∧
        (p.updateScrollPosition r).scrollOffset ≤ 4)
    exact ⟨⟨h.1, by omega⟩, h.2.2.1, by omega⟩
  have hr8 : row < TOTAL_ROWS := hrow.2
  rcases hres with h | h | ⟨h | h, hne⟩
  · rcases navigateUp_cases p row col hcol with ⟨e, _⟩ | ⟨r, c, e, h0, h1, _⟩
    · rw [h, e] at hmoved; cases hmoved
    · rw [h, e]; exact key r c h0 (by omega)
  · rcases navigateDown_cases p row col hcol with ⟨e, _⟩ | ⟨r, c, e, _, h1, _⟩
    · rw [h, e] at hmoved; cases hmoved
    · rw [h, e]; exact key r c (by omega) h1
  · rcases navigateLeft_cases p row col with ⟨_, e⟩ | ⟨_, c, e, _⟩ |
      ⟨_, _, r, c, e, h0, h1, _⟩ | ⟨_, _, _, r, c, e, h0, h1, _⟩ | ⟨_, _, _, _, e⟩
    · rw [h, e] at hmoved; cases hmoved
    · rw [h, e] at hne; exact absurd rfl hne
    · rw [h, e]; exact key r c h0 (by omega)
    · rw [h, e]; exact key r c (by omega) h1
    · rw [h, e] at hmoved; cases hmoved
  · rcases navigateRight_cases p row col with ⟨_, e⟩ | ⟨_, c, e, _⟩ |
      ⟨_, _, r, c, e, h0, h1, _⟩ | ⟨_, _, _, r, c, e, h0, h1, _⟩ | ⟨_, _, _, _, e⟩
    · rw [h, e] at hmoved; cases hmoved
    · rw [h, e] at hne; exact absurd rfl hne
    · rw [h, e]; exact key r c (by omega) h1
    · rw [h, e]; exact key r c h0 (by omega)
    · rw [h, e] at hmoved; cases hmoved

/-- C4, on the example grid with the window first put at the bottom
(`scrollOffset = 4`): Left from `(2,1)` changes the row, lands on `(0,0)` and
brings the offset to `0`. -/
theorem navigate_success_viewport_witness :
    isInt (Page.mk exampleGrid 4 "Example").scrollOffset ∧
    (0 ≤ (2 : Int) ∧ (2 : Int) < TOTAL_ROWS) ∧ (0 ≤ (1 : Int) ∧ (1 : Int) < COLS) ∧
    ((Page.mk exampleGrid 4 "Example").navigateLeft 2 1).moved = true ∧
    ((Page.mk exampleGrid 4 "Example").navigateLeft 2 1).row = 0 ∧
    ((Page.mk exampleGrid 4 "Example").navigateLeft 2 1).page.scrollOffset = 0 ∧
    ((((Page.mk exampleGrid 4 "Example").navigateLeft 2 1).page.scrollOffset
        ≤ ((Page.mk exampleGrid 4 "Example").navigateLeft 2 1).row ∧
      ((Page.mk exampleGrid 4 "Example").navigateLeft 2 1).row
        ≤ ((Page.mk exampleGrid 4 "Example").navigateLeft 2 1).page.scrollOffset + 3) ∧
    (0 ≤ ((Page.mk exampleGrid 4 "Example").navigateLeft 2 1).page.scrollOffset ∧
      ((Page.mk exampleGrid 4 "Example").navigateLeft 2 1).page.scrollOffset ≤ 4)) :=
  ⟨by decide, by decide, by decide, by decide, by decide, by decide,
    navigate_success_viewport (Page.mk exampleGrid 4 "Example") 2 1 (by decide) (by decide)
      (by decide) ((Page.mk exampleGrid 4 "Example").navigateLeft 2 1)
      (Or.inr (Or.inr ⟨Or.inl rfl, by decide⟩)) (by decide)⟩

/-- C5. Full-row exclusion: on a row whose column 0 is occupied and whose
columns 1 and 2 are empty, `navigateLeft` and `navigateRight` both return false
and leave the page (so its `scrollOffset`), `row` and `col` unchanged, whatever
the rest of the grid holds and whatever `col` is. -/
theorem navigate_horizontal_fullRow (p : Page) (row col : Int)
    (hrow : 0 ≤ row ∧ row < TOTAL_ROWS) (hcol : 0 ≤ col ∧ col < COLS)
    (h0 : p.getWidget row 0 ≠ none) (h1 : p.getWidget row 1 = none)
    (h2 : p.getWidget row 2 = none) :
    ((p.navigateLeft row col).moved = false ∧ (p.navigateLeft row col).row = row ∧
      (p.navigateLeft row col).col = col ∧
      (p.navigateLeft row col).page.scrollOffset = p.scrollOffset ∧
      (p.navigateLeft row col).page = p) ∧
    ((p.navigateRight row col).moved = false ∧ (p.navigateRight row col).row = row ∧
      (p.navigateRight row col).col = col ∧
      (p.navigateRight row col).page.scrollOffset = p.scrollOffset ∧
      (p.navigateRight row col).page = p) := by
  have _ := hrow
  have _ := hcol
  have hfull : p.isFullRow row = true := by simp [Page.isFullRow, h0, h1, h2]
  constructor
  · unfold Page.navigateLeft
    simp [hfull]
  · unfold Page.navigateRight
    simp [hfull]

/-- C5, on the example grid: Left and Right from `(0,0)` both fail. -/
theorem navigate_horizontal_fullRow_witness :
    (0 ≤ (0 : Int) ∧ (0 : Int) < TOTAL_ROWS) ∧ (0 ≤ (0 : Int) ∧ (0 : Int) < COLS) ∧
    examplePage.getWidget 0 0 ≠ none ∧ examplePage.getWidget 0 1 = none ∧
    examplePage.getWidget 0 2 = none ∧
    (((examplePage.navigateLeft 0 0).moved = false ∧ (examplePage.navigateLeft 0 0).row = 0 ∧
      (examplePage.navigateLeft 0 0).col = 0 ∧
      (examplePage.navigateLeft 0 0).page.scrollOffset = examplePage.scrollOffset ∧
      (examplePage.navigateLeft 0 0).page = examplePage) ∧
    ((examplePage.navigateRight 0 0).moved = false ∧ (examplePage.navigateRight 0 0).row = 0 ∧
      (examplePage.navigateRight 0 0).col = 0 ∧
      (examplePage.navigateRight 0 0).page.scrollOffset = examplePage.scrollOffset ∧
      (examplePage.navigateRight 0 0).page = examplePage)) :=
  ⟨by decide, by decide, by decide, by decide, by decide,
    navigate_horizontal_fullRow examplePage 0 0 (by decide) (by decide) (by decide)
      (by decide) (by decide)⟩

/-! ## Horizontal navigation -/

theorem isFullRow_eq_false (p : Page) (row : Int)
    (h : ¬ (p.getWidget row 0 ≠ none ∧ p.getWidget row 1 = none ∧ p.getWidget row 2 = none)) :
    p.isFullRow row = false := by
  unfold Page.isFullRow
  by_cases h0 : p.getWidget row 0 = none <;> by_cases h1 : p.getWidget row 1 = none <;>
    by_cases h2 : p.getWidget row 2 = none <;> simp_all

/-- C6. Left wrap: on a row that is not a full row and has no widget left of
`col`, `navigateLeft` succeeds when some row above holds a widget, landing on
the nearest such row at its rightmost occupied column; otherwise, when some row
below holds a widget, it succeeds and lands on the last non-empty row at its
rightmost occupied column; both times the page is realigned with
`updateScrollPosition` for the new row. -/
theorem navigateLeft_wrap (p : Page) (row col : Int)
    (hrow : 0 ≤ row ∧ row < TOTAL_ROWS) (hcol : 0 ≤ col ∧ col < COLS)
    (hnotfull : ¬ (p.getWidget row 0 ≠ none ∧ p.getWidget row 1 = none ∧
      p.getWidget row 2 = none))
    (hleft : ∀ k : Int, 0 ≤ k → k < col → p.getWidget row k = none) :
    ((∃ r : Int, 0 ≤ r ∧ r < row ∧ p.rowOccupied r) →
      ∃ r c : Int, p.navigateLeft row col = NavResult.mk true (p.updateScrollPosition r) r c ∧
        (0 ≤ r ∧ r < row) ∧ p.rowOccupied r ∧
        (∀ k : Int, r < k → k < row → ¬ p.rowOccupied k) ∧ p.rightmostAt r c) ∧
    ((¬ ∃ r : Int, 0 ≤ r ∧ r < row ∧ p.rowOccupied r) →
      (∃ r : Int, row < r ∧ r < TOTAL_ROWS ∧ p.rowOccupied r) →
      ∃ r c : Int, p.navigateLeft row col = NavResult.mk true (p.updateScrollPosition r) r c ∧
        (row < r ∧ r < TOTAL_ROWS) ∧ p.rowOccupied r ∧
        (∀ k : Int, r < k → k < TOTAL_ROWS → ¬ p.rowOccupied k) ∧ p.rightmostAt r c) := by
  have _ := hrow
  have _ := hcol
  have hf := isFullRow_eq_false p row hnotfull
  rcases navigateLeft_cases p row col with ⟨hfull, _⟩ | ⟨_, c, _, hc0, hc1, ho, _⟩ |
    ⟨_, _, r, c, e, h0, h1, hocc, hrm, hnear⟩ |
    ⟨_, _, habove, r, c, e, h0, h1, hocc, hrm, hlast⟩ | ⟨_, _, habove, hbelow, _⟩
  · rw [hf] at hfull; cases hfull
  · exact absurd (hleft c hc0 hc1) ho
  · refine ⟨fun _ => ⟨r, c, e, ⟨h0, h1⟩, hocc, hnear, hrm⟩, fun hn _ => ?_⟩
    exact absurd ⟨r, h0, h1, hocc⟩ hn
  · refine ⟨fun ⟨k, hk0, hk1, hk⟩ => absurd hk (habove k hk0 hk1), fun _ _ => ?_⟩
    exact ⟨r, c, e, ⟨h0, h1⟩, hocc, hlast, hrm⟩
  · refine ⟨fun ⟨k, hk0, hk1, hk⟩ => absurd hk (habove k hk0 hk1), fun _ hb => ?_⟩
    obtain ⟨k, hk0, hk1, hk⟩ := hb
    exact absurd hk (hbelow k hk0 hk1)

/-- C6, on the example grid: Left from `(2,1)` lands on `(0,0)`, the end of the
nearest non-empty row above. -/
theorem navigateLeft_wrap_witness :
    (0 ≤ (2 : Int) ∧ (2 : Int) < TOTAL_ROWS) ∧ (0 ≤ (1 : Int) ∧ (1 : Int) < COLS) ∧
    (¬ (examplePage.getWidget 2 0 ≠ none ∧ examplePage.getWidget 2 1 = none ∧
      examplePage.getWidget 2 2 = none)) ∧
    (∀ k : Int, 0 ≤ k → k < 1 → examplePage.getWidget 2 k = none) ∧
    (((∃ r : Int, 0 ≤ r ∧ r < 2 ∧ examplePage.rowOccupied r) →
      ∃ r c : Int, examplePage.navigateLeft 2 1 =
          NavResult.mk true (examplePage.updateScrollPosition r) r c ∧
        (0 ≤ r ∧ r < 2) ∧ examplePage.rowOccupied r ∧
        (∀ k : Int, r < k → k < 2 → ¬ examplePage.rowOccupied k) ∧
        examplePage.rightmostAt r c) ∧
    ((¬ ∃ r : Int, 0 ≤ r ∧ r < 2 ∧ examplePage.rowOccupied r) →
      (∃ r : Int, 2 < r ∧ r < TOTAL_ROWS ∧ examplePage.rowOccupied r) →
      ∃ r c : Int, examplePage.navigateLeft 2 1 =
          NavResult.mk true (examplePage.updateScrollPosition r) r c ∧
        (2 < r ∧ r < TOTAL_ROWS) ∧ examplePage.rowOccupied r ∧
        (∀ k : Int, r < k → k < TOTAL_ROWS → ¬ examplePage.rowOccupied k) ∧
        examplePage.rightmostAt r c)) ∧
    (examplePage.navigateLeft 2 1).moved = true ∧
    (examplePage.navigateLeft 2 1).row = 0 ∧ (examplePage.navigateLeft 2 1).col = 0 :=
  ⟨by decide, by decide, by decide,
    fun k h0 h1 => by
      have hk : k = 0 := by omega
      subst hk; decide,
    navigateLeft_wrap examplePage 2 1 (by decide) (by decide) (by decide)
      (fun k h0 h1 => by
        have hk : k = 0 := by omega
        subst hk; decide),
    by decide, by decide, by decide⟩

/-- C7. Right wrap: on a row that is not a full row and has no widget right of
`col`, `navigateRight` succeeds when some row below holds a widget, landing on
the nearest such row at its leftmost occupied column; otherwise, when some row
above holds a widget, it succeeds and lands on the first non-empty row at its
leftmost occupied column; both times the page is realigned with
`updateScrollPosition` for the new row. -/
theorem navigateRight_wrap (p : Page) (row col : Int)
    (hrow : 0 ≤ row ∧ row < TOTAL_ROWS) (hcol : 0 ≤ col ∧ col < COLS)
    (hnotfull : ¬ (p.getWidget row 0 ≠ none ∧ p.getWidget row 1 = none ∧
      p.getWidget row 2 = none))
    (hright : ∀ k : Int, col < k → k < COLS → p.getWidget row k = none) :
    ((∃ r : Int, row < r ∧ r < TOTAL_ROWS ∧ p.rowOccupied r) →
      ∃ r c : Int, p.navigateRight row col = NavResult.mk true (p.updateScrollPosition r) r c ∧
        (row < r ∧ r < TOTAL_ROWS) ∧ p.rowOccupied r ∧
        (∀ k : Int, row < k → k < r → ¬ p.rowOccupied k) ∧ p.leftmostAt r c) ∧
    ((¬ ∃ r : Int, row < r ∧ r < TOTAL_ROWS ∧ p.rowOccupied r) →
      (∃ r : Int, 0 ≤ r ∧ r < row ∧ p.rowOccupied r) →
      ∃ r c : Int, p.navigateRight row col = NavResult.mk true (p.updateScrollPosition r) r c ∧
        (0 ≤ r ∧ r < row) ∧ p.rowOccupied r ∧
        (∀ k : Int, 0 ≤ k → k < r → ¬ p.rowOccupied k) ∧ p.leftmostAt r c) := by
  have _ := hrow
  have _ := hcol
  have hf := isFullRow_eq_false p row hnotfull
  rcases navigateRight_cases p row col with ⟨hfull, _⟩ | ⟨_, c, _, hc0, hc1, ho, _⟩ |
    ⟨_, _, r, c, e, h0, h1, hocc, hlm, hnear⟩ |
    ⟨_, _, hbelow, r, c, e, h0, h1, hocc, hlm, hfirst⟩ | ⟨_, _, hbelow, habove, _⟩
  · rw [hf] at hfull; cases hfull
  · exact absurd (hright c hc0 hc1) ho
  · refine ⟨fun _ => ⟨r, c, e, ⟨h0, h1⟩, hocc, hnear, hlm⟩, fun hn _ => ?_⟩
    exact absurd ⟨r, h0, h1, hocc⟩ hn
  · refine ⟨fun ⟨k, hk0, hk1, hk⟩ => absurd hk (hbelow k hk0 hk1), fun _ _ => ?_⟩
    exact ⟨r, c, e, ⟨h0, h1⟩, hocc, hfirst, hlm⟩
  · refine ⟨fun ⟨k, hk0, hk1, hk⟩ => absurd hk (hbelow k hk0 hk1), fun _ ha => ?_⟩
    obtain ⟨k, hk0, hk1, hk⟩ := ha
    exact absurd hk (habove k hk0 hk1)

/-- C7, on the example grid: Right from `(3,2)`, the last widget of the last
non-empty row, wraps to `(0,0)`, the start of the first non-empty row. -/
theorem navigateRight_wrap_witness :
    (0 ≤ (3 : Int) ∧ (3 : Int) < TOTAL_ROWS) ∧ (0 ≤ (2 : Int) ∧ (2 : Int) < COLS) ∧
    (¬ (examplePage.getWidget 3 0 ≠ none ∧ examplePage.getWidget 3 1 = none ∧
      examplePage.getWidget 3 2 = none)) ∧
    (∀ k : Int, 2 < k → k < COLS → examplePage.getWidget 3 k = none) ∧
    (((∃ r : Int, 3 < r ∧ r < TOTAL_ROWS ∧ examplePage.rowOccupied r) →
      ∃ r c : Int, examplePage.navigateRight 3 2 =
          NavResult.mk true (examplePage.updateScrollPosition r) r c ∧
        (3 < r ∧ r < TOTAL_ROWS) ∧ examplePage.rowOccupied r ∧
        (∀ k : Int, 3 < k → k < r → ¬ examplePage.rowOccupied k) ∧
        examplePage.leftmostAt r c) ∧
    ((¬ ∃ r : Int, 3 < r ∧ r < TOTAL_ROWS ∧ examplePage.rowOccupied r) →
      (∃ r : Int, 0 ≤ r ∧ r < 3 ∧ examplePage.rowOccupied r) →
      ∃ r c : Int, examplePage.navigateRight 3 2 =
          NavResult.mk true (examplePage.updateScrollPosition r) r c ∧
        (0 ≤ r ∧ r < 3) ∧ examplePage.rowOccupied r ∧
        (∀ k : Int, 0 ≤ k → k < r → ¬ examplePage.rowOccupied k) ∧
        examplePage.leftmostAt r c)) ∧
    (examplePage.navigateRight 3 2).moved = true ∧
    (examplePage.navigateRight 3 2).row = 0 ∧ (examplePage.navigateRight 3 2).col = 0 ∧
    (examplePage.navigateRight 2 1).moved = true ∧
    (examplePage.navigateRight 2 1).row = 3 ∧ (examplePage.navigateRight 2 1).col = 0 :=
  ⟨by decide, by decide, by decide,
    fun k h0 h1 => by
      simp only [COLS] at h1
      omega,
    navigateRight_wrap examplePage 3 2 (by decide) (by decide) (by decide)
      (fun k h0 h1 => by
        simp only [COLS] at h1
        omega),
    by decide, by decide, by decide, by decide, by decide, by decide⟩

/-- C8. In-row horizontal move: on a row that is not a full row, if some column
left of `col` is occupied then `navigateLeft` returns true, moves `col` to the
nearest occupied column on the left and leaves `row` and the page (so its
`scrollOffset`) unchanged; symmetrically `navigateRight` moves to the nearest
occupied column on the right. -/
theorem navigate_inRow_move (p : Page) (row col : Int)
    (hrow : 0 ≤ row ∧ row < TOTAL_ROWS) (hcol : 0 ≤ col ∧ col < COLS)
    (hnotfull : ¬ (p.getWidget row 0 ≠ none ∧ p.getWidget row 1 = none ∧
      p.getWidget row 2 = none)) :
    ((∃ k : Int, 0 ≤ k ∧ k < col ∧ p.getWidget row k ≠ none) →
      ∃ c : Int, p.navigateLeft row col = NavResult.mk true p row c ∧
        (p.navigateLeft row col).page.scrollOffset = p.scrollOffset ∧
        (0 ≤ c ∧ c < col) ∧ p.getWidget row c ≠ none ∧
        ∀ k : Int, c < k → k < col → p.getWidget row k = none) ∧
    ((∃ k : Int, col < k ∧ k < COLS ∧ p.getWidget row k ≠ none) →
      ∃ c : Int, p.navigateRight row col = NavResult.mk true p row c ∧
        (p.navigateRight row col).page.scrollOffset = p.scrollOffset ∧
        (col < c ∧ c < COLS) ∧ p.getWidget row c ≠ none ∧
        ∀ k : Int, col < k → k < c → p.getWidget row k = none) := by
  have _ := hrow
  have _ := hcol
  have hf := isFullRow_eq_false p row hnotfull
  constructor
  · rintro ⟨k, hk0, hk1, hk⟩
    rcases navigateLeft_cases p row col with ⟨hfull, _⟩ | ⟨_, c, e, hc0, hc1, ho, hnear⟩ |
      ⟨_, hno, _⟩ | ⟨_, hno, _⟩ | ⟨_, hno, _⟩
    · rw [hf] at hfull; cases hfull
    · refine ⟨c, e, by rw [e], ⟨hc0, hc1⟩, ho, fun j hj0 hj1 => ?_⟩
      have := hnear j hj0 hj1
      unfold Page.occupied at this
      exact not_not.1 this
    · exact absurd hk (hno k hk0 hk1)
    · exact absurd hk (hno k hk0 hk1)
    · exact absurd hk (hno k hk0 hk1)
  · rintro ⟨k, hk0, hk1, hk⟩
    rcases navigateRight_cases p row col with ⟨hfull, _⟩ | ⟨_, c, e, hc0, hc1, ho, hnear⟩ |
      ⟨_, hno, _⟩ | ⟨_, hno, _⟩ | ⟨_, hno, _⟩
    · rw [hf] at hfull; cases hfull
    · refine ⟨c, e, by rw [e], ⟨hc0, hc1⟩, ho, fun j hj0 hj1 => ?_⟩
      have := hnear j hj0 hj1
      unfold Page.occupied at this
      exact not_not.1 this
    · exact absurd hk (hno k hk0 hk1)
    · exact absurd hk (hno k hk0 hk1)
    · exact absurd hk (hno k hk0 hk1)

/-- C8, on the example grid: Right from `(3,0)` gives `(3,2)` and Left from
`(3,2)` gives `(3,0)`, the page untouched. -/
theorem navigate_inRow_move_witness :
    (0 ≤ (3 : Int) ∧ (3 : Int) < TOTAL_ROWS) ∧ (0 ≤ (0 : Int) ∧ (0 : Int) < COLS) ∧
    (¬ (examplePage.getWidget 3 0 ≠ none ∧ examplePage.getWidget 3 1 = none ∧
      examplePage.getWidget 3 2 = none)) ∧
    (((∃ k : Int, 0 ≤ k ∧ k < 0 ∧ examplePage.getWidget 3 k ≠ none) →
      ∃ c : Int, examplePage.navigateLeft 3 0 = NavResult.mk true examplePage 3 c ∧
        (examplePage.navigateLeft 3 0).page.scrollOffset = examplePage.scrollOffset ∧
        (0 ≤ c ∧ c < 0) ∧ examplePage.getWidget 3 c ≠ none ∧
        ∀ k : Int, c < k → k < 0 → examplePage.getWidget 3 k = none) ∧
    ((∃ k : Int, 0 < k ∧ k < COLS ∧ examplePage.getWidget 3 k ≠ none) →
      ∃ c : Int, examplePage.navigateRight 3 0 = NavResult.mk true examplePage 3 c ∧
        (examplePage.navigateRight 3 0).page.scrollOffset = examplePage.scrollOffset ∧
        (0 < c ∧ c < COLS) ∧ examplePage.getWidget 3 c ≠ none ∧
        ∀ k : Int, 0 < k → k < c → examplePage.getWidget 3 k = none)) ∧
    (∃ k : Int, 0 < k ∧ k < COLS ∧ examplePage.getWidget 3 k ≠ none) ∧
    (examplePage.navigateRight 3 0).moved = true ∧
    (examplePage.navigateRight 3 0).row = 3 ∧ (examplePage.navigateRight 3 0).col = 2 ∧
    (examplePage.navigateRight 3 0).page.scrollOffset = 0 ∧
    (examplePage.navigateLeft 3 2).moved = true ∧
    (examplePage.navigateLeft 3 2).row = 3 ∧ (examplePage.navigateLeft 3 2).col = 0 ∧
    (examplePage.navigateLeft 3 2).page.scrollOffset = 0 :=
  ⟨by decide, by decide, by decide,
    navigate_inRow_move examplePage 3 0 (by decide) (by decide) (by decide),
    ⟨2, by decide, by decide, by decide⟩,
    by decide, by decide, by decide, by decide, by decide, by decide, by decide, by decide⟩

/-- C9 as stated fails: on the grid occupied only at `(0,0)` and `(0,1)` the
focused cells are occupied and row 0 is not a full row, yet Left from `(0,0)`
returns false although `(0,1)` is occupied, and Right from `(0,1)` returns
false although `(0,0)` is occupied. -/
theorem navigate_horizontal_failure_counterexample :
    ((0 ≤ (0 : Int) ∧ (0 : Int) < TOTAL_ROWS) ∧ (0 ≤ (0 : Int) ∧ (0 : Int) < COLS) ∧
      pairPage.getWidget 0 0 ≠ none ∧
      (¬ (pairPage.getWidget 0 0 ≠ none ∧ pairPage.getWidget 0 1 = none ∧
        pairPage.getWidget 0 2 = none)) ∧
      (pairPage.navigateLeft 0 0).moved = false ∧
      pairPage.getWidget 0 1 ≠ none) ∧
    ((0 ≤ (0 : Int) ∧ (0 : Int) < TOTAL_ROWS) ∧ (0 ≤ (1 : Int) ∧ (1 : Int) < COLS) ∧
      pairPage.getWidget 0 1 ≠ none ∧
      (¬ (pairPage.getWidget 0 0 ≠ none ∧ pairPage.getWidget 0 1 = none ∧
        pairPage.getWidget 0 2 = none)) ∧
      (pairPage.navigateRight 0 1).moved = false ∧
      pairPage.getWidget 0 0 ≠ none) := by
  decide

/-- C9, amended. On an occupied cell of a row that is not a full row, if
`navigateLeft` returns false then every cell of every other row is empty and so
is every cell of the focused row in a column left of `col` (cells of the
focused row right of `col` may be occupied); likewise if `navigateRight`
returns false then every cell of every other row is empty and so is every cell
of the focused row in a column right of `col`. -/
theorem navigate_horizontal_failure (p : Page) (row col : Int)
    (hrow : 0 ≤ row ∧ row < TOTAL_ROWS) (hcol : 0 ≤ col ∧ col < COLS)
    (hocc : p.getWidget row col ≠ none)
    (hnotfull : ¬ (p.getWidget row 0 ≠ none ∧ p.getWidget row 1 = none ∧
      p.getWidget row 2 = none)) :
    ((p.navigateLeft row col).moved = false →
      ∀ r c : Int, 0 ≤ r ∧ r < TOTAL_ROWS → 0 ≤ c ∧ c < COLS → r ≠ row ∨ c < col →
        p.getWidget r c = none) ∧
    ((p.navigateRight row col).moved = false →
      ∀ r c : Int, 0 ≤ r ∧ r < TOTAL_ROWS → 0 ≤ c ∧ c < COLS → r ≠ row ∨ col < c →
        p.getWidget r c = none) := by
  have _ := hrow
  have _ := hcol
  have _ := hocc
  have hf := isFullRow_eq_false p row hnotfull
  have empty_of : ∀ r c : Int, 0 ≤ c ∧ c < COLS → ¬ p.rowOccupied r → p.getWidget r c = none := by
    intro r c hc hn
    by_contra h
    exact hn ⟨c, hc.1, hc.2, h⟩
  constructor
  · intro hm
    rcases navigateLeft_cases p row col with ⟨hfull, _⟩ | ⟨_, c, e, _⟩ | ⟨_, _, r, c, e, _⟩ |
      ⟨_, _, _, r, c, e, _⟩ | ⟨_, hleft, habove, hbelow, _⟩
    · rw [hf] at hfull; cases hfull
    · rw [e] at hm; cases hm
    · rw [e] at hm; cases hm
    · rw [e] at hm; cases hm
    · intro r c hr hc hne
      by_cases hlt : r < row
      · exact empty_of r c hc (habove r hr.1 hlt)
      · by_cases hgt : row < r
        · exact empty_of r c hc (hbelow r hgt hr.2)
        · have hr' : r = row := by omega
          subst hr'
          have hc' : c < col := by
            rcases hne with h | h
            · exact absurd rfl h
            · exact h
          have := hleft c hc.1 hc'
          unfold Page.occupied at this
          exact not_not.1 this
  · intro hm
    rcases navigateRight_cases p row col with ⟨hfull, _⟩ | ⟨_, c, e, _⟩ | ⟨_, _, r, c, e, _⟩ |
      ⟨_, _, _, r, c, e, _⟩ | ⟨_, hright, hbelow, habove, _⟩
    · rw [hf] at hfull; cases hfull
    · rw [e] at hm; cases hm
    · rw [e] at hm; cases hm
    · rw [e] at hm; cases hm
    · intro r c hr hc hne
      by_cases hlt : r < row
      · exact empty_of r c hc (habove r hr.1 hlt)
      · by_cases hgt : row < r
        · exact empty_of r c hc (hbelow r hgt hr.2)
        · have hr' : r = row := by omega
          subst hr'
          have hc' : col < c := by
            rcases hne with h | h
            · exact absurd rfl h
            · exact h
          have := hright c hc' hc.2
          unfold Page.occupied at this
          exact not_not.1 this

/-- C9 amended, on the grid occupied only at `(0,0)` and `(0,1)`: Left from
`(0,0)` returns false, and the only other widget sits right of the focus in
the focused row. -/
theorem navigate_horizontal_failure_witness :
    (0 ≤ (0 : Int) ∧ (0 : Int) < TOTAL_ROWS) ∧ (0 ≤ (0 : Int) ∧ (0 : Int) < COLS) ∧
    pairPage.getWidget 0 0 ≠ none ∧
    (¬ (pairPage.getWidget 0 0 ≠ none ∧ pairPage.getWidget 0 1 = none ∧
      pairPage.getWidget 0 2 = none)) ∧
    (pairPage.navigateLeft 0 0).moved = false ∧
    (((pairPage.navigateLeft 0 0).moved = false →
      ∀ r c : Int, 0 ≤ r ∧ r < TOTAL_ROWS → 0 ≤ c ∧ c < COLS → r ≠ 0 ∨ c < 0 →
        pairPage.getWidget r c = none) ∧
    ((pairPage.navigateRight 0 0).moved = false →
      ∀ r c : Int, 0 ≤ r ∧ r < TOTAL_ROWS → 0 ≤ c ∧ c < COLS → r ≠ 0 ∨ 0 < c →
        pairPage.getWidget r c = none)) :=
  ⟨by decide, by decide, by decide, by decide, by decide,
    navigate_horizontal_failure pairPage 0 0 (by decide) (by decide) (by decide) (by decide)⟩

/-- C10. Failure is atomic: from any in-range focus and any `scrollOffset`,
whenever `navigateUp`, `navigateDown`, `navigateLeft` or `navigateRight`
returns false, `row`, `col` and the page (so its `scrollOffset`) are exactly
what they were before the call. -/
theorem navigate_failure_unchanged (p : Page) (row col : Int)
    (hrow : 0 ≤ row ∧ row < TOTAL_ROWS) (hcol : 0 ≤ col ∧ col < COLS) (res : NavResult)
    (hres : res = p.navigateUp row col ∨ res = p.navigateDown row col ∨
      res = p.navigateLeft row col ∨ res = p.navigateRight row col)
    (hfail : res.moved = false) :
    res.row = row ∧ res.col = col ∧ res.page.scrollOffset = p.scrollOffset ∧ res.page = p := by
  have _ := hrow
  rcases hres with h | h | h | h
  · rcases navigateUp_cases p row col hcol with ⟨e, _⟩ | ⟨r, c, e, _⟩
    · rw [h, e]; exact ⟨rfl, rfl, rfl, rfl⟩
    · rw [h, e] at hfail; cases hfail
  · rcases navigateDown_cases p row col hcol with ⟨e, _⟩ | ⟨r, c, e, _⟩
    · rw [h, e]; exact ⟨rfl, rfl, rfl, rfl⟩
    · rw [h, e] at hfail; cases hfail
  · rcases navigateLeft_cases p row col with ⟨_, e⟩ | ⟨_, c, e, _⟩ | ⟨_, _, r, c, e, _⟩ |
      ⟨_, _, _, r, c, e, _⟩ | ⟨_, _, _, _, e⟩
    · rw [h, e]; exact ⟨rfl, rfl, rfl, rfl⟩
    · rw [h, e] at hfail; cases hfail
    · rw [h, e] at hfail; cases hfail
    · rw [h, e] at hfail; cases hfail
    · rw [h, e]; exact ⟨rfl, rfl, rfl, rfl⟩
  · rcases navigateRight_cases p row col with ⟨_, e⟩ | ⟨_, c, e, _⟩ | ⟨_, _, r, c, e, _⟩ |
      ⟨_, _, _, r, c, e, _⟩ | ⟨_, _, _, _, e⟩
    · rw [h, e]; exact ⟨rfl, rfl, rfl, rfl⟩
    · rw [h, e] at hfail; cases hfail
    · rw [h, e] at hfail; cases hfail
    · rw [h, e] at hfail; cases hfail
    · rw [h, e]; exact ⟨rfl, rfl, rfl, rfl⟩

/-- C10, on the example grid with `scrollOffset = 2`: Down from `(3,2)`, the
bottommost occupied row, fails and leaves `(3,2)` and the offset `2` in place. -/
theorem navigate_failure_unchanged_witness :
    (0 ≤ (3 : Int) ∧ (3 : Int) < TOTAL_ROWS) ∧ (0 ≤ (2 : Int) ∧ (2 : Int) < COLS) ∧
    ((Page.mk exampleGrid 2 "Example").navigateDown 3 2).moved = false ∧
    (((Page.mk exampleGrid 2 "Example").navigateDown 3 2).row = 3 ∧
      ((Page.mk exampleGrid 2 "Example").navigateDown 3 2).col = 2 ∧
      ((Page.mk exampleGrid 2 "Example").navigateDown 3 2).page.scrollOffset
        = (Page.mk exampleGrid 2 "Example").scrollOffset ∧
      ((Page.mk exampleGrid 2 "Example").navigateDown 3 2).page
        = Page.mk exampleGrid 2 "Example") :=
  ⟨by decide, by decide, by decide,
    navigate_failure_unchanged (Page.mk exampleGrid 2 "Example") 3 2 (by decide) (by decide)
      ((Page.mk exampleGrid 2 "Example").navigateDown 3 2) (Or.inr (Or.inl rfl)) (by decide)⟩

/-! ## Scroll realignment -/

/-- The offset computed by `updateScrollPosition` on 32-bit values, without the
wrap-around. -/
theorem updateScrollPosition_scrollOffset (p : Page) (selRow : Int)
    (hs : isInt p.scrollOffset) (hr : isInt selRow) :
    (p.updateScrollPosition selRow).scrollOffset =
      max 0 (min 4 (if selRow < p.scrollOffset then selRow
        else if selRow ≥ p.scrollOffset + 4 then selRow - 3 else p.scrollOffset)) := by
  unfold isInt INT_MIN INT_MAX at hs hr
  simp only [Page.updateScrollPosition, wrapInt, TOTAL_ROWS, VISIBLE_ROWS]
  split_ifs <;> omega

/-- C20. For every prior `scrollOffset` `s` and every `selRow` (32-bit `int`
values), `updateScrollPosition(selRow)` sets the offset to `clamp(t, 0, 4)`
where `t = selRow` if `selRow < s`, `t = selRow - 3` if `selRow >= s + 4` and
`t = s` otherwise; the offset is unchanged when `s` is in `[0,4]` and the row
is inside the window; the result is always in `[0,4]`; a second call with the
same row changes nothing more; the grid and the name are never touched. -/
theorem updateScrollPosition_formula (p : Page) (selRow : Int)
    (hs : isInt p.scrollOffset) (hr : isInt selRow) :
    (p.updateScrollPosition selRow).scrollOffset =
      max 0 (min 4 (if selRow < p.scrollOffset then selRow
        else if selRow ≥ p.scrollOffset + 4 then selRow - 3 else p.scrollOffset)) ∧
    (0 ≤ p.scrollOffset ∧ p.scrollOffset ≤ 4 →
      p.scrollOffset ≤ selRow ∧ selRow ≤ p.scrollOffset + 3 →
      (p.updateScrollPosition selRow).scrollOffset = p.scrollOffset) ∧
    (0 ≤ (p.updateScrollPosition selRow).scrollOffset ∧
      (p.updateScrollPosition selRow).scrollOffset ≤ 4) ∧
    ((p.updateScrollPosition selRow).updateScrollPosition selRow).scrollOffset =
      (p.updateScrollPosition selRow).scrollOffset ∧
    (p.updateScrollPosition selRow).widgets = p.widgets ∧
    (p.updateScrollPosition selRow).name = p.name := by
  have e1 := updateScrollPosition_scrollOffset p selRow hs hr
  have hb : 0 ≤ (p.updateScrollPosition selRow).scrollOffset ∧
      (p.updateScrollPosition selRow).scrollOffset ≤ 4 := by
    rw [e1]; omega
  have hs2 : isInt (p.updateScrollPosition selRow).scrollOffset := by
    unfold isInt INT_MIN INT_MAX; omega
  have e2 := updateScrollPosition_scrollOffset (p.updateScrollPosition selRow) selRow hs2 hr
  refine ⟨e1, ?_, hb, ?_, rfl, rfl⟩
  · intro h1 h2
    rw [e1]
    split_ifs <;> omega
  · rw [e2]
    generalize (p.updateScrollPosition selRow).scrollOffset = t at e1 hb ⊢
    split_ifs at e1 ⊢ <;> omega

/-- C20, at two inputs: from offset 6 the row 1 brings the offset to 1; from
offset `INT_MAX` the row `INT_MAX`, where `scrollOffset + VISIBLE_ROWS` leaves
the 32-bit range, still gives the clamped value 4. -/
theorem updateScrollPosition_formula_witness :
    isInt (Page.mk exampleGrid 6 "Example").scrollOffset ∧ isInt 1 ∧
    ((Page.mk exampleGrid 6 "Example").updateScrollPosition 1).scrollOffset = 1 ∧
    ((Page.mk exampleGrid INT_MAX "Example").updateScrollPosition INT_MAX).scrollOffset = 4 ∧
    (((Page.mk exampleGrid 6 "Example").updateScrollPosition 1).scrollOffset =
      max 0 (min 4 (if (1 : Int) < (Page.mk exampleGrid 6 "Example").scrollOffset then 1
        else if (1 : Int) ≥ (Page.mk exampleGrid 6 "Example").scrollOffset + 4 then 1 - 3
        else (Page.mk exampleGrid 6 "Example").scrollOffset)) ∧
    (0 ≤ (Page.mk exampleGrid 6 "Example").scrollOffset ∧
        (Page.mk exampleGrid 6 "Example").scrollOffset ≤ 4 →
      (Page.mk exampleGrid 6 "Example").scrollOffset ≤ 1 ∧
        1 ≤ (Page.mk exampleGrid 6 "Example").scrollOffset + 3 →
      ((Page.mk exampleGrid 6 "Example").updateScrollPosition 1).scrollOffset =
        (Page.mk exampleGrid 6 "Example").scrollOffset) ∧
    (0 ≤ ((Page.mk exampleGrid 6 "Example").updateScrollPosition 1).scrollOffset ∧
      ((Page.mk exampleGrid 6 "Example").updateScrollPosition 1).scrollOffset ≤ 4) ∧
    (((Page.mk exampleGrid 6 "Example").updateScrollPosition 1).updateScrollPosition
        1).scrollOffset =
      ((Page.mk exampleGrid 6 "Example").updateScrollPosition 1).scrollOffset ∧
    ((Page.mk exampleGrid 6 "Example").updateScrollPosition 1).widgets =
      (Page.mk exampleGrid 6 "Example").widgets ∧
    ((Page.mk exampleGrid 6 "Example").updateScrollPosition 1).name =
      (Page.mk exampleGrid 6 "Example").name) :=
  ⟨by decide, by decide, by decide, by decide,
    updateScrollPosition_formula (Page.mk exampleGrid 6 "Example") 1 (by decide) (by decide)⟩

/-! ## The page registry -/

theorem addPage_focus (m : PageManager) (page : PageRef) :
    (m.addPage page).currentPageIndex = m.currentPageIndex ∧
    (m.addPage page).selRow = m.selRow ∧ (m.addPage page).selCol = m.selCol := by
  unfold PageManager.addPage
  split_ifs <;> exact ⟨rfl, rfl, rfl⟩

theorem addPage_below (m : PageManager) (page : PageRef) (h : m.numPages < MAX_PAGES) :
    (m.addPage page).numPages = m.numPages + 1 ∧
    (m.addPage page).pages m.numPages = page ∧
    ∀ i : Int, i ≠ m.numPages → (m.addPage page).pages i = m.pages i := by
  unfold PageManager.addPage
  rw [if_pos h]
  refine ⟨rfl, ?_, fun i hi => ?_⟩
  · show Function.update m.pages m.numPages page m.numPages = page
    simp
  · show Function.update m.pages m.numPages page i = m.pages i
    simp [Function.update, hi]

theorem addPage_full (m : PageManager) (page : PageRef) (h : ¬ m.numPages < MAX_PAGES) :
    m.addPage page = m := by
  unfold PageManager.addPage
  simp [h]

/-- The registry after registering the pages of `ps`, in order, on a fresh
manager. -/
theorem addPage_foldl (uninit : Int → PageRef) (ps : List PageRef) :
    (ps.foldl PageManager.addPage (PageManager.new uninit)).numPages = min (ps.length : Int) 10 ∧
    (∀ i : Nat, (i : Int) < min (ps.length : Int) 10 →
      ps[i]? = some ((ps.foldl PageManager.addPage (PageManager.new uninit)).pages i)) ∧
    (ps.foldl PageManager.addPage (PageManager.new uninit)).currentPageIndex = 0 ∧
    (ps.foldl PageManager.addPage (PageManager.new uninit)).selRow = 1 ∧
    (ps.foldl PageManager.addPage (PageManager.new uninit)).selCol = 0 := by
  induction ps using List.reverseRecOn with
  | nil =>
    refine ⟨by simp [PageManager.new], fun i hi => ?_, rfl, rfl, rfl⟩
    simp at hi
    omega
  | append_singleton l a ih =>
    rw [List.foldl_append]
    simp only [List.foldl_cons, List.foldl_nil, List.length_append, List.length_singleton]
    obtain ⟨hn, hp, hi, hr, hc⟩ := ih
    have hf := addPage_focus (l.foldl PageManager.addPage (PageManager.new uninit)) a
    refine ⟨?_, ?_, by rw [hf.1, hi], by rw [hf.2.1, hr], by rw [hf.2.2, hc]⟩
    · by_cases hlt : (l.foldl PageManager.addPage (PageManager.new uninit)).numPages < MAX_PAGES
      · rw [(addPage_below _ a hlt).1, hn]
        simp only [MAX_PAGES] at hlt
        push_cast
        omega
      · rw [addPage_full _ a hlt, hn]
        simp only [MAX_PAGES] at hlt
        push_cast
        omega
    · intro i hilt
      by_cases hlt : (l.foldl PageManager.addPage (PageManager.new uninit)).numPages < MAX_PAGES
      · have hb := addPage_below _ a hlt
        simp only [MAX_PAGES] at hlt
        have hlen : (l.length : Int) < 10 := by omega
        have hnl : (l.foldl PageManager.addPage (PageManager.new uninit)).numPages = l.length := by
          omega
        by_cases hil : i < l.length
        · rw [hb.2.2 i (by omega)]
          rw [List.getElem?_append_left hil]
          exact hp i (by omega)
        · have hie : i = l.length := by push_cast at hilt; omega
          subst hie
          rw [← hnl, hb.2.1]
          simp
      · rw [addPage_full _ a hlt]
        simp only [MAX_PAGES] at hlt
        have hil : i < l.length := by push_cast at hilt; omega
        rw [List.getElem?_append_left hil]
        exact hp i (by omega)

/-- C14. Bounded registration: with fewer than 10 pages registered `addPage`
stores the page in the slot after the registered ones, leaves their slots
alone and increases the count by one; with 10 registered it changes nothing;
it never touches the current page index or the focus; and after registering
the pages of a list `ps` on a fresh manager the registry holds exactly the
first `min(|ps|, 10)` of them in insertion order. -/
theorem addPage_bounded (m : PageManager) (page : PageRef) (uninit : Int → PageRef)
    (ps : List PageRef) :
    (m.numPages < 10 →
      (m.addPage page).numPages = m.numPages + 1 ∧
      (m.addPage page).pages m.numPages = page ∧
      ∀ i : Int, i ≠ m.numPages → (m.addPage page).pages i = m.pages i) ∧
    (m.numPages = 10 → m.addPage page = m) ∧
    ((m.addPage page).currentPageIndex = m.currentPageIndex ∧
      (m.addPage page).selRow = m.selRow ∧ (m.addPage page).selCol = m.selCol) ∧
    ((ps.foldl PageManager.addPage (PageManager.new uninit)).numPages
        = min (ps.length : Int) 10 ∧
      (∀ i : Nat, (i : Int) < min (ps.length : Int) 10 →
        ps[i]? = some ((ps.foldl PageManager.addPage (PageManager.new uninit)).pages i)) ∧
      (ps.foldl PageManager.addPage (PageManager.new uninit)).currentPageIndex = 0 ∧
      (ps.foldl PageManager.addPage (PageManager.new uninit)).selRow = 1 ∧
      (ps.foldl PageManager.addPage (PageManager.new uninit)).selCol = 0) :=
  ⟨fun h => addPage_below m page (by simp only [MAX_PAGES]; exact h),
    fun h => addPage_full m page (by simp only [MAX_PAGES]; omega),
    addPage_focus m page, addPage_foldl uninit ps⟩

/-- C14, on a fresh manager: twelve registrations keep the first ten pages, in
order, and an eleventh page is not stored. -/
theorem addPage_bounded_witness :
    ([20, 21, 22, 23, 24, 25, 26, 27, 28, 29, 30, 31].foldl PageManager.addPage
        (PageManager.new (fun _ => 0))).numPages = 10 ∧
    ([20, 21, 22, 23, 24, 25, 26, 27, 28, 29, 30, 31].foldl PageManager.addPage
        (PageManager.new (fun _ => 0))).pages 9 = 29 ∧
    ([20, 21, 22, 23, 24, 25, 26, 27, 28, 29, 30, 31].foldl PageManager.addPage
        (PageManager.new (fun _ => 0))).pages 10 = 0 ∧
    ((PageManager.new (fun _ => 0)).addPage 7).numPages = 1 ∧
    ((PageManager.new (fun _ => 0)).numPages < 10 →
      ((PageManager.new (fun _ => 0)).addPage 7).numPages
        = (PageManager.new (fun _ => 0)).numPages + 1 ∧
      ((PageManager.new (fun _ => 0)).addPage 7).pages (PageManager.new (fun _ => 0)).numPages
        = 7 ∧
      ∀ i : Int, i ≠ (PageManager.new (fun _ => 0)).numPages →
        ((PageManager.new (fun _ => 0)).addPage 7).pages i
          = (PageManager.new (fun _ => 0)).pages i) :=
  ⟨by decide, by decide, by decide, by decide,
    (addPage_bounded (PageManager.new (fun _ => 0)) 7 (fun _ => 0) []).1⟩

/-! ## Page switches -/

theorem reanchor_frame (m : PageManager) (pageStore : PageRef → Page) :
    (m.reanchor pageStore).currentPageIndex = m.currentPageIndex ∧
    (m.reanchor pageStore).numPages = m.numPages ∧
    (m.reanchor pageStore).pages = m.pages := by
  unfold PageManager.reanchor
  simp only
  split_ifs <;> exact ⟨rfl, rfl, rfl⟩

theorem reanchor_getCurrentPage (m : PageManager) (pageStore : PageRef → Page) :
    (m.reanchor pageStore).getCurrentPage = m.getCurrentPage := by
  obtain ⟨h1, h2, h3⟩ := reanchor_frame m pageStore
  unfold PageManager.getCurrentPage
  rw [h1, h2, h3]

/-- What `findFirstValidRow` returns when there is a current page: the first
non-empty row of its grid, or 0 on an empty grid. -/
theorem findFirstValidRow_spec (m : PageManager) (pageStore : PageRef → Page) (page : PageRef)
    (hcur : m.getCurrentPage = some page) :
    ((∃ r : Int, (pageStore page).rowOccupied r) →
      (pageStore page).rowOccupied (m.findFirstValidRow pageStore) ∧
      ∀ k : Int, k < m.findFirstValidRow pageStore → ¬ (pageStore page).rowOccupied k) ∧
    ((¬ ∃ r : Int, (pageStore page).rowOccupied r) → m.findFirstValidRow pageStore = 0) := by
  unfold PageManager.findFirstValidRow
  rw [hcur]
  simp only
  have hbody : ∀ r : Int,
      (if (pageStore page).findLeftmostInRow r ≠ -1 then some r else none) = none ↔
        ¬ (pageStore page).rowOccupied r := by
    intro r
    rw [← findLeftmostInRow_eq_neg_one]
    by_cases h : (pageStore page).findLeftmostInRow r = -1 <;> simp [h]
  split
  · rename_i r h
    rw [forUp_eq_some] at h
    obtain ⟨i, hi, hx, hnone⟩ := h
    have hocc : (pageStore page).rowOccupied (0 + (i : Int)) := by
      by_contra hn
      rw [(hbody _).2 hn] at hx
      cases hx
    have hr : r = 0 + (i : Int) := by
      by_cases h : (pageStore page).findLeftmostInRow (0 + (i : Int)) = -1
      · rw [if_neg (not_not.2 h)] at hx
        cases hx
      · rw [if_pos h] at hx
        exact (Option.some.inj hx).symm
    subst hr
    refine ⟨fun _ => ⟨hocc, fun k hk hko => ?_⟩, fun hn => absurd ⟨_, hocc⟩ hn⟩
    have hk0 := (rowOccupied_inRange _ k hko).1
    have := hnone k.toNat (by omega)
    have e : (0 : Int) + (k.toNat : Int) = k := by omega
    rw [e] at this
    exact (hbody k).1 this hko
  · rename_i h
    rw [forUp_eq_none] at h
    refine ⟨fun ⟨r, hr⟩ => ?_, fun _ => rfl⟩
    have hb := rowOccupied_inRange _ r hr
    have := h r.toNat (by simp only [TOTAL_ROWS]; omega)
    have e : (0 : Int) + (r.toNat : Int) = r := by omega
    rw [e] at this
    exact absurd hr ((hbody r).1 this)

/-- The focus after the re-anchoring statements when there is a current page:
the leftmost widget of the first non-empty row, or `(0,0)` on an empty grid;
always inside the grid. -/
theorem reanchor_spec (m : PageManager) (pageStore : PageRef → Page) (page : PageRef)
    (hcur : m.getCurrentPage = some page) :
    ((∃ r : Int, (pageStore page).rowOccupied r) →
      (pageStore page).rowOccupied (m.reanchor pageStore).selRow ∧
      (∀ k : Int, k < (m.reanchor pageStore).selRow → ¬ (pageStore page).rowOccupied k) ∧
      (pageStore page).leftmostAt (m.reanchor pageStore).selRow (m.reanchor pageStore).selCol) ∧
    ((¬ ∃ r : Int, (pageStore page).rowOccupied r) →
      (m.reanchor pageStore).selRow = 0 ∧ (m.reanchor pageStore).selCol = 0) ∧
    (0 ≤ (m.reanchor pageStore).selRow ∧ (m.reanchor pageStore).selRow < TOTAL_ROWS) ∧
    (0 ≤ (m.reanchor pageStore).selCol ∧ (m.reanchor pageStore).selCol < COLS) := by
  have hpage : m.pages m.currentPageIndex = page := by
    unfold PageManager.getCurrentPage at hcur
    split_ifs at hcur
    exact Option.some.inj hcur
  obtain ⟨hf1, hf2⟩ := findFirstValidRow_spec m pageStore page hcur
  have hrow : (m.reanchor pageStore).selRow = m.findFirstValidRow pageStore := by
    unfold PageManager.reanchor
    simp only
    split_ifs <;> rfl
  have hcol : (m.reanchor pageStore).selCol =
      if (pageStore page).findLeftmostInRow (m.findFirstValidRow pageStore) = -1 then 0
      else (pageStore page).findLeftmostInRow (m.findFirstValidRow pageStore) := by
    unfold PageManager.reanchor
    simp only [hpage]
    split_ifs <;> rfl
  rw [hrow, hcol]
  by_cases hex : ∃ r : Int, (pageStore page).rowOccupied r
  · obtain ⟨ho, hmin⟩ := hf1 hex
    have hne : (pageStore page).findLeftmostInRow (m.findFirstValidRow pageStore) ≠ -1 :=
      fun h => (findLeftmostInRow_eq_neg_one _ _).1 h ho
    have hlm := findLeftmostInRow_leftmostAt _ _ ho
    have hb := rowOccupied_inRange _ _ ho
    rw [if_neg hne]
    refine ⟨fun _ => ⟨ho, hmin, hlm⟩, fun hn => absurd hex hn, ?_, hlm.1, hlm.2.1⟩
    simp only [TOTAL_ROWS]; omega
  · have h0 := hf2 hex
    have hno : ¬ (pageStore page).rowOccupied (m.findFirstValidRow pageStore) :=
      fun h => hex ⟨_, h⟩
    have hl := (findLeftmostInRow_eq_neg_one _ _).2 hno
    rw [if_pos hl]
    refine ⟨fun h => absurd h hex, fun _ => ⟨h0, rfl⟩, ?_, ?_⟩
    · rw [h0]; simp only [TOTAL_ROWS]; omega
    · simp only [COLS]; omega

/-- The two outcomes of `navigateToPage`: no registered page has the name and
only the notice is printed, or the first page with the name becomes current and
the focus is re-anchored. -/
theorem navigateToPage_cases (s : UIState) (pageName : String) :
    ((∀ i : Int, 0 ≤ i → i < s.pageManager.numPages →
        (s.pageStore (s.pageManager.pages i)).name ≠ pageName) ∧
      PageManager.navigateToPage s pageName =
        Serial.println (Serial.print s "Page not found: ") pageName) ∨
    (∃ i : Int, 0 ≤ i ∧ i < s.pageManager.numPages ∧
      (s.pageStore (s.pageManager.pages i)).name = pageName ∧
      (∀ j : Int, 0 ≤ j → j < i → (s.pageStore (s.pageManager.pages j)).name ≠ pageName) ∧
      PageManager.navigateToPage s pageName =
        Serial.println (Serial.print
          { s with pageManager :=
              PageManager.reanchor { s.pageManager with currentPageIndex := i } s.pageStore }
          "Navigated to page: ") pageName) := by
  unfold PageManager.navigateToPage
  split
  · rename_i t h
    rw [forUp_eq_some] at h
    obtain ⟨i, hi, hx, hnone⟩ := h
    right
    by_cases hn : (s.pageStore (s.pageManager.pages (0 + (i : Int)))).name = pageName
    · rw [if_pos hn] at hx
      refine ⟨0 + (i : Int), by omega, by omega, hn, fun j hj0 hj1 => ?_, (Option.some.inj hx).symm⟩
      have := hnone j.toNat (by omega)
      have e : (0 : Int) + (j.toNat : Int) = j := by omega
      rw [e] at this
      intro hj
      rw [if_pos hj] at this
      cases this
    · rw [if_neg hn] at hx
      cases hx
  · rename_i h
    rw [forUp_eq_none] at h
    left
    refine ⟨fun i hi0 hi1 hn => ?_, rfl⟩
    have := h i.toNat (by omega)
    have e : (0 : Int) + (i.toNat : Int) = i := by omega
    rw [e, if_pos hn] at this
    cases this

/-- C12. Page not found: when no registered page has the given name,
`navigateToPage` leaves the manager (current page index, `selRow`, `selCol`),
every page object (so every `scrollOffset`) and every widget unchanged, and
its only effect is the notice `Page not found: ` followed by the name on
`Serial`. -/
theorem navigateToPage_not_found (s : UIState) (pageName : String)
    (hmiss : ∀ i : Int, 0 ≤ i → i < s.pageManager.numPages →
      (s.pageStore (s.pageManager.pages i)).name ≠ pageName) :
    (PageManager.navigateToPage s pageName).pageManager.currentPageIndex
      = s.pageManager.currentPageIndex ∧
    (PageManager.navigateToPage s pageName).pageManager.selRow = s.pageManager.selRow ∧
    (PageManager.navigateToPage s pageName).pageManager.selCol = s.pageManager.selCol ∧
    (∀ page : PageRef, ((PageManager.navigateToPage s pageName).pageStore page).scrollOffset
      = (s.pageStore page).scrollOffset) ∧
    (PageManager.navigateToPage s pageName).pageManager = s.pageManager ∧
    (PageManager.navigateToPage s pageName).pageStore = s.pageStore ∧
    (PageManager.navigateToPage s pageName).widgetStore = s.widgetStore ∧
    (PageManager.navigateToPage s pageName).serial =
      s.serial ++ [SerialOut.print "Page not found: ", SerialOut.println pageName] := by
  rcases navigateToPage_cases s pageName with ⟨_, e⟩ | ⟨i, h0, h1, hn, _⟩
  · rw [e]
    refine ⟨rfl, rfl, rfl, fun _ => rfl, rfl, rfl, rfl, ?_⟩
    simp [Serial.println, Serial.print]
  · exact absurd hn (hmiss i h0 h1)

/-- C12, on the example state with the pages `Example` and `Low` registered:
the name `Settings` is not registered and the call only prints the notice. -/
theorem navigateToPage_not_found_witness :
    (∀ i : Int, 0 ≤ i →
      i < (run [Action.addPage 0, Action.addPage 1] exampleStart).pageManager.numPages →
      ((run [Action.addPage 0, Action.addPage 1] exampleStart).pageStore
        ((run [Action.addPage 0, Action.addPage 1] exampleStart).pageManager.pages i)).name
        ≠ "Settings") ∧
    (PageManager.navigateToPage (run [Action.addPage 0, Action.addPage 1] exampleStart)
        "Settings").pageManager
      = (run [Action.addPage 0, Action.addPage 1] exampleStart).pageManager ∧
    (PageManager.navigateToPage (run [Action.addPage 0, Action.addPage 1] exampleStart)
        "Settings").serial
      = [SerialOut.print "Page not found: ", SerialOut.println "Settings"] :=
  ⟨fun i h0 h1 => by
      have h2 : (run [Action.addPage 0, Action.addPage 1] exampleStart).pageManager.numPages
          = 2 := by decide
      rw [h2] at h1
      have hi : i = 0 ∨ i = 1 := by omega
      rcases hi with hi | hi <;> subst hi <;> decide,
    (navigateToPage_not_found (run [Action.addPage 0, Action.addPage 1] exampleStart)
      "Settings" (fun i h0 h1 => by
        have h2 : (run [Action.addPage 0, Action.addPage 1] exampleStart).pageManager.numPages
            = 2 := by decide
        rw [h2] at h1
        have hi : i = 0 ∨ i = 1 := by omega
        rcases hi with hi | hi <;> subst hi <;> decide)).2.2.2.2.1,
    by decide⟩

theorem goNext_frame (s : UIState) (h : 1 < s.pageManager.numPages) :
    (PageManager.goNext s).pageManager =
      PageManager.reanchor
        { s.pageManager with
          currentPageIndex :=
            Int.tmod (s.pageManager.currentPageIndex + 1) s.pageManager.numPages }
        s.pageStore ∧
    (PageManager.goNext s).pageStore = s.pageStore ∧
    (PageManager.goNext s).widgetStore = s.widgetStore := by
  unfold PageManager.goNext
  rw [if_pos h]
  exact ⟨rfl, rfl, rfl⟩

theorem goBack_frame (s : UIState) (h : 1 < s.pageManager.numPages) :
    (PageManager.goBack s).pageManager =
      PageManager.reanchor
        { s.pageManager with
          currentPageIndex :=
            Int.tmod (s.pageManager.currentPageIndex + s.pageManager.numPages - 1)
              s.pageManager.numPages }
        s.pageStore ∧
    (PageManager.goBack s).pageStore = s.pageStore ∧
    (PageManager.goBack s).widgetStore = s.widgetStore := by
  unfold PageManager.goBack
  rw [if_pos h]
  exact ⟨rfl, rfl, rfl⟩

/-- The index, the count and the registry after `goNext` with more than one
page and a non-negative index. -/
theorem goNext_index (s : UIState) (h : 1 < s.pageManager.numPages)
    (hi : 0 ≤ s.pageManager.currentPageIndex) :
    (PageManager.goNext s).pageManager.currentPageIndex =
      (s.pageManager.currentPageIndex + 1) % s.pageManager.numPages ∧
    (PageManager.goNext s).pageManager.numPages = s.pageManager.numPages ∧
    (PageManager.goNext s).pageManager.pages = s.pageManager.pages := by
  obtain ⟨e, _, _⟩ := goNext_frame s h
  obtain ⟨h1, h2, h3⟩ := reanchor_frame
    { s.pageManager with
      currentPageIndex := Int.tmod (s.pageManager.currentPageIndex + 1) s.pageManager.numPages }
    s.pageStore
  rw [e]
  refine ⟨?_, h2, h3⟩
  rw [h1]
  exact Int.tmod_eq_emod (by omega) (by omega)

/-- The index, the count and the registry after `goBack` with more than one
page and a non-negative index. -/
theorem goBack_index (s : UIState) (h : 1 < s.pageManager.numPages)
    (hi : 0 ≤ s.pageManager.currentPageIndex) :
    (PageManager.goBack s).pageManager.currentPageIndex =
      (s.pageManager.currentPageIndex + s.pageManager.numPages - 1) % s.pageManager.numPages ∧
    (PageManager.goBack s).pageManager.numPages = s.pageManager.numPages ∧
    (PageManager.goBack s).pageManager.pages = s.pageManager.pages := by
  obtain ⟨e, _, _⟩ := goBack_frame s h
  obtain ⟨h1, h2, h3⟩ := reanchor_frame
    { s.pageManager with
      currentPageIndex :=
        Int.tmod (s.pageManager.currentPageIndex + s.pageManager.numPages - 1)
          s.pageManager.numPages }
    s.pageStore
  rw [e]
  refine ⟨?_, h2, h3⟩
  rw [h1]
  exact Int.tmod_eq_emod (by omega) (by omega)

/-- The index after `k` successive `goNext`. -/
theorem goNext_iterate (s : UIState) (h : 1 < s.pageManager.numPages)
    (hi : 0 ≤ s.pageManager.currentPageIndex)
    (hlt : s.pageManager.currentPageIndex < s.pageManager.numPages) (k : Nat) :
    (PageManager.goNext^[k] s).pageManager.currentPageIndex =
      (s.pageManager.currentPageIndex + k) % s.pageManager.numPages ∧
    (PageManager.goNext^[k] s).pageManager.numPages = s.pageManager.numPages ∧
    (PageManager.goNext^[k] s).pageManager.pages = s.pageManager.pages := by
  induction k with
  | zero =>
    refine ⟨?_, rfl, rfl⟩
    simp only [Function.iterate_zero, id_eq, Nat.cast_zero, add_zero]
    exact (Int.emod_eq_of_lt hi hlt).symm
  | succ k ih =>
    obtain ⟨h1, h2, h3⟩ := ih
    rw [Function.iterate_succ_apply']
    have hn : 1 < (PageManager.goNext^[k] s).pageManager.numPages := by rw [h2]; exact h
    have h0 : 0 ≤ (PageManager.goNext^[k] s).pageManager.currentPageIndex := by
      rw [h1]; exact Int.emod_nonneg _ (by omega)
    obtain ⟨g1, g2, g3⟩ := goNext_index (PageManager.goNext^[k] s) hn h0
    refine ⟨?_, by rw [g2, h2], by rw [g3, h3]⟩
    rw [g1, h1, h2, Int.emod_add_emod]
    congr 1
    push_cast
    ring

/-- C13. Circular page stepping: with `n > 1` registered pages and current index
`i` in `[0, n)`, `goNext` sets the index to `(i + 1) mod n` and `goBack` to
`(i + n - 1) mod n`, neither changes the registry; `goBack` after `goNext` and
`goNext` after `goBack` restore the original current page, and `n` successive
`goNext` return to it; with `n <= 1` both operations change nothing. -/
theorem page_stepping_circular (s : UIState) :
    (1 < s.pageManager.numPages →
      0 ≤ s.pageManager.currentPageIndex ∧
        s.pageManager.currentPageIndex < s.pageManager.numPages →
      (PageManager.goNext s).pageManager.currentPageIndex =
        (s.pageManager.currentPageIndex + 1) % s.pageManager.numPages ∧
      (PageManager.goBack s).pageManager.currentPageIndex =
        (s.pageManager.currentPageIndex + s.pageManager.numPages - 1)
          % s.pageManager.numPages ∧
      (PageManager.goBack (PageManager.goNext s)).pageManager.currentPageIndex =
        s.pageManager.currentPageIndex ∧
      (PageManager.goBack (PageManager.goNext s)).pageManager.getCurrentPage =
        s.pageManager.getCurrentPage ∧
      (PageManager.goNext (PageManager.goBack s)).pageManager.currentPageIndex =
        s.pageManager.currentPageIndex ∧
      (PageManager.goNext (PageManager.goBack s)).pageManager.getCurrentPage =
        s.pageManager.getCurrentPage ∧
      (PageManager.goNext^[s.pageManager.numPages.toNat] s).pageManager.currentPageIndex =
        s.pageManager.currentPageIndex ∧
      (PageManager.goNext^[s.pageManager.numPages.toNat] s).pageManager.getCurrentPage =
        s.pageManager.getCurrentPage) ∧
    (s.pageManager.numPages ≤ 1 → PageManager.goNext s = s ∧ PageManager.goBack s = s) := by
  constructor
  · intro h ⟨hi, hlt⟩
    obtain ⟨n1, n2, n3⟩ := goNext_index s h hi
    obtain ⟨b1, b2, b3⟩ := goBack_index s h hi
    have hn0 : 0 ≤ (PageManager.goNext s).pageManager.currentPageIndex := by
      rw [n1]; exact Int.emod_nonneg _ (by omega)
    have hb0 : 0 ≤ (PageManager.goBack s).pageManager.currentPageIndex := by
      rw [b1]; exact Int.emod_nonneg _ (by omega)
    obtain ⟨bn1, bn2, bn3⟩ := goBack_index (PageManager.goNext s) (by rw [n2]; exact h) hn0
    obtain ⟨nb1, nb2, nb3⟩ := goNext_index (PageManager.goBack s) (by rw [b2]; exact h) hb0
    obtain ⟨k1, k2, k3⟩ := goNext_iterate s h hi hlt s.pageManager.numPages.toNat
    have self : s.pageManager.currentPageIndex % s.pageManager.numPages
        = s.pageManager.currentPageIndex := Int.emod_eq_of_lt hi hlt
    have e1 : (PageManager.goBack (PageManager.goNext s)).pageManager.currentPageIndex =
        s.pageManager.currentPageIndex := by
      rw [bn1, n1, n2, Int.add_sub_assoc, Int.emod_add_emod]
      have : s.pageManager.currentPageIndex + 1 + (s.pageManager.numPages - 1)
          = s.pageManager.currentPageIndex + s.pageManager.numPages := by ring
      rw [this, Int.add_emod_self, self]
    have e2 : (PageManager.goNext (PageManager.goBack s)).pageManager.currentPageIndex =
        s.pageManager.currentPageIndex := by
      rw [nb1, b1, b2, Int.emod_add_emod]
      have : s.pageManager.currentPageIndex + s.pageManager.numPages - 1 + 1
          = s.pageManager.currentPageIndex + s.pageManager.numPages := by ring
      rw [this, Int.add_emod_self, self]
    have e3 : (PageManager.goNext^[s.pageManager.numPages.toNat] s).pageManager.currentPageIndex
        = s.pageManager.currentPageIndex := by
      rw [k1]
      have : ((s.pageManager.numPages.toNat : Nat) : Int) = s.pageManager.numPages := by omega
      rw [this, Int.add_emod_self, self]
    refine ⟨n1, b1, e1, ?_, e2, ?_, e3, ?_⟩
    · unfold PageManager.getCurrentPage
      rw [e1, bn2, n2, bn3, n3]
    · unfold PageManager.getCurrentPage
      rw [e2, nb2, b2, nb3, b3]
    · unfold PageManager.getCurrentPage
      rw [e3, k2, k3]
  · intro h
    unfold PageManager.goNext PageManager.goBack
    have : ¬ s.pageManager.numPages > 1 := by omega
    simp only [this, if_false, and_self]

/-- C13, on the example state with the pages at addresses 0, 1 and 2
registered: from index 0, `goNext` gives 1, `goBack` gives 2, `goBack` after
`goNext` gives 0 and three `goNext` give 0 again; with only one page registered
`goNext` and `goBack` change nothing. -/
theorem page_stepping_circular_witness :
    1 < threePageState.pageManager.numPages ∧
    (0 ≤ threePageState.pageManager.currentPageIndex ∧
      threePageState.pageManager.currentPageIndex < threePageState.pageManager.numPages) ∧
    (PageManager.goNext threePageState).pageManager.currentPageIndex = 1 ∧
    (PageManager.goBack threePageState).pageManager.currentPageIndex = 2 ∧
    (PageManager.goNext^[3] threePageState).pageManager.currentPageIndex = 0 ∧
    (PageManager.goBack (PageManager.goNext threePageState)).pageManager.currentPageIndex =
      threePageState.pageManager.currentPageIndex ∧
    ((run [Action.addPage 0] exampleStart).pageManager.numPages ≤ 1 →
      PageManager.goNext (run [Action.addPage 0] exampleStart)
        = run [Action.addPage 0] exampleStart ∧
      PageManager.goBack (run [Action.addPage 0] exampleStart)
        = run [Action.addPage 0] exampleStart) :=
  ⟨by decide, by decide, by decide, by decide, by decide,
    ((page_stepping_circular threePageState).1 (by decide) (by decide)).2.2.1,
    (page_stepping_circular (run [Action.addPage 0] exampleStart)).2⟩

/-- The manager's current page after the index is set to a registered slot. -/
theorem getCurrentPage_of_index (m : PageManager) (i : Int) (h0 : 0 ≤ i) (h1 : i < m.numPages) :
    ({ m with currentPageIndex := i } : PageManager).getCurrentPage = some (m.pages i) := by
  unfold PageManager.getCurrentPage
  simp [h0, h1]

/-- A page switch that takes place: the state it produces is the old one with
the index set to a registered slot `i`, the focus re-anchored, and two calls
on `Serial`. -/
theorem pageSwitch_shape (s t : UIState)
    (h : (∃ pageName : String,
        (∃ i : Int, 0 ≤ i ∧ i < s.pageManager.numPages ∧
          (s.pageStore (s.pageManager.pages i)).name = pageName) ∧
        t = PageManager.navigateToPage s pageName) ∨
      (1 < s.pageManager.numPages ∧ 0 ≤ s.pageManager.currentPageIndex ∧
        (t = PageManager.goBack s ∨ t = PageManager.goNext s))) :
    ∃ i : Int, 0 ≤ i ∧ i < s.pageManager.numPages ∧
      t.pageManager =
        PageManager.reanchor { s.pageManager with currentPageIndex := i } s.pageStore ∧
      t.pageStore = s.pageStore ∧ t.widgetStore = s.widgetStore := by
  rcases h with ⟨pageName, ⟨i, h0, h1, hn⟩, ht⟩ | ⟨hn, hi, ht | ht⟩
  · rcases navigateToPage_cases s pageName with ⟨hmiss, _⟩ | ⟨j, hj0, hj1, _, _, e⟩
    · exact absurd hn (hmiss i h0 h1)
    · exact ⟨j, hj0, hj1, by rw [ht, e]; rfl, by rw [ht, e]; rfl, by rw [ht, e]; rfl⟩
  · obtain ⟨e1, e2, e3⟩ := goBack_frame s hn
    refine ⟨_, ?_, ?_, by rw [ht]; exact e1, by rw [ht]; exact e2, by rw [ht]; exact e3⟩
    · rw [Int.tmod_eq_emod (by omega) (by omega)]
      exact Int.emod_nonneg _ (by omega)
    · rw [Int.tmod_eq_emod (by omega) (by omega)]
      exact Int.emod_lt_of_pos _ (by omega)
  · obtain ⟨e1, e2, e3⟩ := goNext_frame s hn
    refine ⟨_, ?_, ?_, by rw [ht]; exact e1, by rw [ht]; exact e2, by rw [ht]; exact e3⟩
    · rw [Int.tmod_eq_emod (by omega) (by omega)]
      exact Int.emod_nonneg _ (by omega)
    · rw [Int.tmod_eq_emod (by omega) (by omega)]
      exact Int.emod_lt_of_pos _ (by omega)

/-- C11. Page-switch re-anchoring: after `navigateToPage` with the name of a
registered page, and after `goBack` or `goNext` with more than one page
registered (the current index being that of a registered page), there is a
current page; if its grid holds a widget, `selRow` is the smallest row index
holding one and `selCol` is that row's leftmost occupied column; if its grid is
empty the focus is `(0, 0)`. -/
theorem pageSwitch_reanchors (s t : UIState)
    (h : (∃ pageName : String,
        (∃ i : Int, 0 ≤ i ∧ i < s.pageManager.numPages ∧
          (s.pageStore (s.pageManager.pages i)).name = pageName) ∧
        t = PageManager.navigateToPage s pageName) ∨
      (1 < s.pageManager.numPages ∧
        (0 ≤ s.pageManager.currentPageIndex ∧
          s.pageManager.currentPageIndex < s.pageManager.numPages) ∧
        (t = PageManager.goBack s ∨ t = PageManager.goNext s))) :
    ∃ page : PageRef, t.pageManager.getCurrentPage = some page ∧
      ((∃ r : Int, (t.pageStore page).rowOccupied r) →
        (t.pageStore page).rowOccupied t.pageManager.selRow ∧
        (∀ k : Int, k < t.pageManager.selRow → ¬ (t.pageStore page).rowOccupied k) ∧
        (t.pageStore page).leftmostAt t.pageManager.selRow t.pageManager.selCol) ∧
      ((¬ ∃ r : Int, (t.pageStore page).rowOccupied r) →
        t.pageManager.selRow = 0 ∧ t.pageManager.selCol = 0) := by
  have h2 : (∃ pageName : String,
        (∃ i : Int, 0 ≤ i ∧ i < s.pageManager.numPages ∧
          (s.pageStore (s.pageManager.pages i)).name = pageName) ∧
        t = PageManager.navigateToPage s pageName) ∨
      (1 < s.pageManager.numPages ∧ 0 ≤ s.pageManager.currentPageIndex ∧
        (t = PageManager.goBack s ∨ t = PageManager.goNext s)) := by
    rcases h with h | ⟨a, b, c⟩
    · exact Or.inl h
    · exact Or.inr ⟨a, b.1, c⟩
  obtain ⟨i, h0, h1, hm, hp, _⟩ := pageSwitch_shape s t h2
  have hcur := getCurrentPage_of_index s.pageManager i h0 h1
  have hsp := reanchor_spec _ s.pageStore _ hcur
  refine ⟨s.pageManager.pages i, ?_, ?_, ?_⟩
  · rw [hm, reanchor_getCurrentPage]; exact hcur
  · rw [hm, hp]; exact hsp.1
  · rw [hm, hp]; exact hsp.2.1

/-- C11, on the example state with three pages registered: `navigateToPage`
to `Low` makes the page at address 1 current with the focus at `(5,0)`, and
`goNext` does the same. -/
theorem pageSwitch_reanchors_witness :
    (∃ i : Int, 0 ≤ i ∧ i < threePageState.pageManager.numPages ∧
      (threePageState.pageStore (threePageState.pageManager.pages i)).name = "Low") ∧
    (PageManager.navigateToPage threePageState "Low").pageManager.getCurrentPage = some 1 ∧
    (PageManager.navigateToPage threePageState "Low").pageManager.selRow = 5 ∧
    (PageManager.navigateToPage threePageState "Low").pageManager.selCol = 0 ∧
    (PageManager.goNext threePageState).pageManager.selRow = 5 ∧
    (PageManager.goBack threePageState).pageManager.selRow = 0 ∧
    (∃ page : PageRef,
      (PageManager.navigateToPage threePageState "Low").pageManager.getCurrentPage = some page ∧
      ((∃ r : Int, ((PageManager.navigateToPage threePageState "Low").pageStore
          page).rowOccupied r) →
        ((PageManager.navigateToPage threePageState "Low").pageStore page).rowOccupied
          (PageManager.navigateToPage threePageState "Low").pageManager.selRow ∧
        (∀ k : Int, k < (PageManager.navigateToPage threePageState "Low").pageManager.selRow →
          ¬ ((PageManager.navigateToPage threePageState "Low").pageStore page).rowOccupied k) ∧
        ((PageManager.navigateToPage threePageState "Low").pageStore page).leftmostAt
          (PageManager.navigateToPage threePageState "Low").pageManager.selRow
          (PageManager.navigateToPage threePageState "Low").pageManager.selCol) ∧
      ((¬ ∃ r : Int, ((PageManager.navigateToPage threePageState "Low").pageStore
          page).rowOccupied r) →
        (PageManager.navigateToPage threePageState "Low").pageManager.selRow = 0 ∧
        (PageManager.navigateToPage threePageState "Low").pageManager.selCol = 0)) :=
  ⟨⟨1, by decide, by decide, by decide⟩, by decide, by decide, by decide, by decide, by decide,
    pageSwitch_reanchors threePageState (PageManager.navigateToPage threePageState "Low")
      (Or.inl ⟨"Low", ⟨1, by decide, by decide, by decide⟩, rfl⟩)⟩

/-! ## Activation -/

/-- The page name a link route stands for when the route starts with `/`. -/
theorem route_data_slash (rest : String) : ("/" ++ rest).data = '/' :: rest.data := by
  simp

/-- C16. Link route resolution: activating a link has exactly the effect of
`goBack` when its route is `/back`, of `goNext` when it is `/next`, and
otherwise of `navigateToPage(p)` where `p` is the route without its leading
`/` when it starts with one and the route itself when it does not; the virtual
`onPress` of a link widget is that method. -/
theorem link_onPress_route (route : String) (s : UIState)
    (handlers : HandlerRef → UIState → UIState) (text : String) :
    (route = "/back" → Link.onPress route s = PageManager.goBack s) ∧
    (route = "/next" → Link.onPress route s = PageManager.goNext s) ∧
    (route ≠ "/back" → route ≠ "/next" →
      (∀ rest : String, route = "/" ++ rest →
        Link.onPress route s = PageManager.navigateToPage s rest) ∧
      ((∀ rest : String, route ≠ "/" ++ rest) →
        Link.onPress route s = PageManager.navigateToPage s route)) ∧
    Widget.onPress handlers (Widget.link text route) s = Link.onPress route s := by
  refine ⟨fun h => ?_, fun h => ?_, fun hb hn => ⟨fun rest hr => ?_, fun hno => ?_⟩, rfl⟩
  · unfold Link.onPress
    rw [if_pos h]
  · unfold Link.onPress
    have hb : route ≠ "/back" := by rw [h]; decide
    rw [if_neg hb, if_pos h]
  · unfold Link.onPress
    rw [if_neg hb, if_neg hn]
    have hd : route.data = '/' :: rest.data := by rw [hr]; exact route_data_slash rest
    simp only [hd]
  · unfold Link.onPress
    rw [if_neg hb, if_neg hn]
    cases hd : route.data with
    | nil => rfl
    | cons c cs =>
      by_cases hc : c = '/'
      · exfalso
        apply hno (String.mk cs)
        apply String.ext
        rw [route_data_slash, hd, hc]
      · simp only
        split
        · rename_i rest heq
          exact absurd (List.cons.inj heq).1 hc
        · rfl

/-- C16, at four routes on the example state with three pages registered. -/
theorem link_onPress_route_witness :
    Link.onPress "/back" threePageState = PageManager.goBack threePageState ∧
    Link.onPress "/next" threePageState = PageManager.goNext threePageState ∧
    Link.onPress "/Low" threePageState = PageManager.navigateToPage threePageState "Low" ∧
    Link.onPress "Low" threePageState = PageManager.navigateToPage threePageState "Low" ∧
    (Link.onPress "/Low" threePageState).pageManager.currentPageIndex = 1 ∧
    (Link.onPress "Low" threePageState).pageManager.currentPageIndex = 1 ∧
    (Link.onPress "/next" threePageState).pageManager.currentPageIndex = 1 ∧
    (Link.onPress "/back" threePageState).pageManager.currentPageIndex = 2 :=
  ⟨(link_onPress_route "/back" threePageState (fun _ t => t) "Back").1 rfl,
    (link_onPress_route "/next" threePageState (fun _ t => t) "Next").2.1 rfl,
    ((link_onPress_route "/Low" threePageState (fun _ t => t) "Low").2.2.1
      (by decide) (by decide)).1 "Low" (by decide),
    ((link_onPress_route "Low" threePageState (fun _ t => t) "Low").2.2.1
      (by decide) (by decide)).2 (fun rest h => by
        have hd := congrArg String.data h
        rw [route_data_slash] at hd
        have hh := congrArg List.head? hd
        simp at hh),
    by decide, by decide, by decide, by decide⟩

/-- Confirm on a check box: the press branch of `handleInput` toggles the
focused widget and touches nothing else. -/
theorem handleInput_press_checkBox (handlers : HandlerRef → UIState → UIState) (s : UIState)
    (page : PageRef) (w : WidgetRef) (text : String) (checked : Bool)
    (hcur : s.pageManager.getCurrentPage = some page)
    (hw : (s.pageStore page).getWidget s.pageManager.selRow s.pageManager.selCol = some w)
    (hws : s.widgetStore w = Widget.checkBox text checked) :
    handleInput handlers (Input.mk false false false false true) s =
      { s with
        widgetStore := Function.update s.widgetStore w (Widget.checkBox text (!checked)) } := by
  unfold handleInput
  rw [hcur]
  simp only [Bool.false_eq_true, if_false, if_true, hw, hws, Widget.getType, CheckBox.toggle]

/-- C17. Confirm on the state-local variants: when the focused cell holds a
check box, one Confirm flips its `checked` flag and changes nothing else (the
manager with its focus and current page, the page objects with their scroll
offsets, `Serial`, every other widget), and a second Confirm restores the
original state; when the focused cell holds a label, or is empty, or there is
no current page, Confirm changes nothing at all. -/
theorem confirm_checkBox_and_label (handlers : HandlerRef → UIState → UIState) (s : UIState) :
    (∀ (page : PageRef) (w : WidgetRef) (text : String) (checked : Bool),
      s.pageManager.getCurrentPage = some page →
      (s.pageStore page).getWidget s.pageManager.selRow s.pageManager.selCol = some w →
      s.widgetStore w = Widget.checkBox text checked →
      handleInput handlers (Input.mk false false false false true) s =
        { s with
          widgetStore := Function.update s.widgetStore w (Widget.checkBox text (!checked)) } ∧
      (handleInput handlers (Input.mk false false false false true) s).widgetStore w =
        Widget.checkBox text (!checked) ∧
      (∀ v : WidgetRef, v ≠ w →
        (handleInput handlers (Input.mk false false false false true) s).widgetStore v =
          s.widgetStore v) ∧
      (handleInput handlers (Input.mk false false false false true) s).pageManager =
        s.pageManager ∧
      (handleInput handlers (Input.mk false false false false true) s).pageStore =
        s.pageStore ∧
      (handleInput handlers (Input.mk false false false false true) s).serial = s.serial ∧
      handleInput handlers (Input.mk false false false false true)
        (handleInput handlers (Input.mk false false false false true) s) = s) ∧
    (∀ (page : PageRef) (w : WidgetRef) (text : String),
      s.pageManager.getCurrentPage = some page →
      (s.pageStore page).getWidget s.pageManager.selRow s.pageManager.selCol = some w →
      s.widgetStore w = Widget.label text →
      handleInput handlers (Input.mk false false false false true) s = s) ∧
    (∀ page : PageRef,
      s.pageManager.getCurrentPage = some page →
      (s.pageStore page).getWidget s.pageManager.selRow s.pageManager.selCol = none →
      handleInput handlers (Input.mk false false false false true) s = s) ∧
    (s.pageManager.getCurrentPage = none →
      handleInput handlers (Input.mk false false false false true) s = s) := by
  refine ⟨fun page w text checked hcur hw hws => ?_, fun page w text hcur hw hws => ?_,
    fun page hcur hw => ?_, fun hcur => ?_⟩
  · have e1 := handleInput_press_checkBox handlers s page w text checked hcur hw hws
    have e2 := handleInput_press_checkBox handlers
      { s with
        widgetStore := Function.update s.widgetStore w (Widget.checkBox text (!checked)) }
      page w text (!checked) hcur hw (by simp)
    refine ⟨e1, by rw [e1]; simp, fun v hv => by rw [e1]; simp [Function.update, hv],
      by rw [e1], by rw [e1], by rw [e1], ?_⟩
    rw [e1, e2]
    simp only [Function.update_idem, Bool.not_not]
    rw [← hws, Function.update_eq_self]
  · unfold handleInput
    rw [hcur]
    simp only [Bool.false_eq_true, if_false, if_true, hw, hws, Widget.getType, Widget.onPress]
  · unfold handleInput
    rw [hcur]
    simp only [Bool.false_eq_true, if_false, if_true, hw]
  · unfold handleInput
    rw [hcur]

/-- C17, on the example states: Confirm on the check box at `(0,0)` sets it,
a second Confirm restores the state; Confirm on the label at `(2,1)` changes
nothing. -/
theorem confirm_checkBox_and_label_witness :
    checkBoxState.pageManager.getCurrentPage = some 0 ∧
    (checkBoxState.pageStore 0).getWidget checkBoxState.pageManager.selRow
      checkBoxState.pageManager.selCol = some 1 ∧
    checkBoxState.widgetStore 1 = Widget.checkBox "Sound" false ∧
    (handleInput (fun _ t => t) (Input.mk false false false false true)
      checkBoxState).widgetStore 1 = Widget.checkBox "Sound" true ∧
    handleInput (fun _ t => t) (Input.mk false false false false true)
      (handleInput (fun _ t => t) (Input.mk false false false false true) checkBoxState)
      = checkBoxState ∧
    labelState.pageManager.getCurrentPage = some 0 ∧
    (labelState.pageStore 0).getWidget labelState.pageManager.selRow
      labelState.pageManager.selCol = some 2 ∧
    labelState.widgetStore 2 = Widget.label "Text" ∧
    handleInput (fun _ t => t) (Input.mk false false false false true) labelState
      = labelState :=
  ⟨by decide, by decide, by decide, by decide,
    ((confirm_checkBox_and_label (fun _ t => t) checkBoxState).1 0 1 "Sound" false
      (by decide) (by decide) (by decide)).2.2.2.2.2.2,
    by decide, by decide, by decide,
    (confirm_checkBox_and_label (fun _ t => t) labelState).2.1 0 2 "Text"
      (by decide) (by decide) (by decide)⟩

/-! ## Radio buttons -/

theorem getWidget_eq_some (p : Page) (r c : Int) (w : WidgetRef) (h : p.getWidget r c = some w) :
    ∃ (i : Fin 8) (j : Fin 3), (i.val : Int) = r ∧ (j.val : Int) = c ∧ p.widgets i j = some w := by
  unfold Page.getWidget at h
  by_cases hb : 0 ≤ r ∧ r < 8 ∧ 0 ≤ c ∧ c < 3
  · rw [dif_pos hb] at h
    exact ⟨⟨r.toNat, by omega⟩, ⟨c.toNat, by omega⟩, by simp; omega, by simp; omega, h⟩
  · rw [dif_neg hb] at h
    cases h

theorem deselect_getType (x : Widget) : (RadioButton.deselect x).getType = x.getType := by
  cases x <;> rfl

theorem select_getType (x : Widget) : (RadioButton.select x).getType = x.getType := by
  cases x <;> rfl

theorem isSelected_deselect (x : Widget) : RadioButton.isSelected (RadioButton.deselect x) = false := by
  cases x <;> rfl

theorem isSelected_select (x : Widget) (h : x.getType = WidgetType.W_RADIO) :
    RadioButton.isSelected (RadioButton.select x) = true := by
  cases x <;> first | rfl | cases h

theorem isSelected_of_not_radio (x : Widget) (h : x.getType ≠ WidgetType.W_RADIO) :
    RadioButton.isSelected x = false := by
  cases x <;> first | rfl | exact absurd rfl h

/-- One iteration of the loop of `selectRadioInRow`, read at a widget `v`. -/
theorem deselect_step (p : Page) (row c : Int) (ws : WidgetRef → Widget) (v : WidgetRef) :
    (match p.getWidget row c with
      | some w =>
        if (ws w).getType = WidgetType.W_RADIO then
          Function.update ws w (RadioButton.deselect (ws w))
        else ws
      | none => ws) v =
      if p.getWidget row c = some v ∧ (ws v).getType = WidgetType.W_RADIO then
        RadioButton.deselect (ws v)
      else ws v := by
  cases hg : p.getWidget row c with
  | none => simp
  | some w =>
    simp only [Option.some.injEq]
    by_cases hwv : w = v
    · subst hwv
      by_cases ht : (ws w).getType = WidgetType.W_RADIO
      · simp [ht]
      · simp [ht]
    · have hvw : v ≠ w := fun h => hwv h.symm
      by_cases ht : (ws w).getType = WidgetType.W_RADIO
      · simp [ht, hwv, Function.update, hvw]
      · simp [ht, hwv]

/-- The widget store after the loop of `selectRadioInRow`: the radio buttons
of the row are deselected, every other widget is as before. -/
theorem deselect_loop (p : Page) (row : Int) (ws : WidgetRef → Widget) (v : WidgetRef) :
    loopUp (fun c ws =>
        match p.getWidget row c with
        | some w =>
          if (ws w).getType = WidgetType.W_RADIO then
            Function.update ws w (RadioButton.deselect (ws w))
          else ws
        | none => ws) 0 (COLS - 0).toNat ws v =
      if (p.getWidget row 0 = some v ∨ p.getWidget row 1 = some v ∨ p.getWidget row 2 = some v) ∧
          (ws v).getType = WidgetType.W_RADIO then
        RadioButton.deselect (ws v)
      else ws v := by
  have hn : (COLS - 0).toNat = 3 := by decide
  rw [hn]
  simp only [loopUp]
  rw [deselect_step, deselect_step, deselect_step]
  norm_num
  by_cases ht : (ws v).getType = WidgetType.W_RADIO
  · by_cases h0 : p.getWidget row 0 = some v <;> by_cases h1 : p.getWidget row 1 = some v <;>
      by_cases h2 : p.getWidget row 2 = some v <;>
      simp [ht, h0, h1, h2, deselect_getType] <;> cases hv : ws v <;> simp_all [RadioButton.deselect]
  · simp [ht]

/-- The widget store after `selectRadioInRow`, read at a widget `v`. -/
theorem selectRadioInRow_apply (p : Page) (ws : WidgetRef → Widget) (row : Int)
    (target v : WidgetRef) :
    p.selectRadioInRow ws row target v =
      if v = target then
        RadioButton.select
          (if (p.getWidget row 0 = some v ∨ p.getWidget row 1 = some v ∨
              p.getWidget row 2 = some v) ∧ (ws v).getType = WidgetType.W_RADIO then
            RadioButton.deselect (ws v)
          else ws v)
      else if (p.getWidget row 0 = some v ∨ p.getWidget row 1 = some v ∨
          p.getWidget row 2 = some v) ∧ (ws v).getType = WidgetType.W_RADIO then
        RadioButton.deselect (ws v)
      else ws v := by
  unfold Page.selectRadioInRow
  by_cases hv : v = target
  · subst hv
    rw [if_pos rfl, Function.update_same, deselect_loop]
  · rw [if_neg hv, Function.update_noteq hv, deselect_loop]

/-- C15. Row-exclusive radio selection: on a page whose cells hold distinct
widgets, for a radio button `target` located in row `R`, after
`selectRadioInRow(R, target)` the target is selected, every other radio button
of row `R` is deselected, so at most one radio button of row `R` is selected;
the widgets held by the other rows are unchanged, every widget that is not a
radio button is unchanged, and no widget changes its class. -/
theorem selectRadioInRow_exclusive (p : Page) (ws : WidgetRef → Widget) (R : Int)
    (target : WidgetRef)
    (hdistinct : ∀ (r r' : Fin 8) (c c' : Fin 3), p.widgets r c ≠ none →
      p.widgets r c = p.widgets r' c' → r = r' ∧ c = c')
    (htarget : ∃ c : Int, 0 ≤ c ∧ c < COLS ∧ p.getWidget R c = some target)
    (hradio : (ws target).getType = WidgetType.W_RADIO) :
    RadioButton.isSelected (p.selectRadioInRow ws R target target) = true ∧
    (∀ (c : Int) (w : WidgetRef), 0 ≤ c ∧ c < COLS → p.getWidget R c = some w → w ≠ target →
      (ws w).getType = WidgetType.W_RADIO →
      RadioButton.isSelected (p.selectRadioInRow ws R target w) = false) ∧
    (∀ (c c' : Int) (w w' : WidgetRef), 0 ≤ c ∧ c < COLS → 0 ≤ c' ∧ c' < COLS →
      p.getWidget R c = some w → p.getWidget R c' = some w' →
      RadioButton.isSelected (p.selectRadioInRow ws R target w) = true →
      RadioButton.isSelected (p.selectRadioInRow ws R target w') = true → w = w' ∧ c = c') ∧
    (∀ (r c : Int) (w : WidgetRef), r ≠ R → p.getWidget r c = some w →
      p.selectRadioInRow ws R target w = ws w) ∧
    (∀ w : WidgetRef, (ws w).getType ≠ WidgetType.W_RADIO →
      p.selectRadioInRow ws R target w = ws w) ∧
    (∀ w : WidgetRef, (p.selectRadioInRow ws R target w).getType = (ws w).getType) := by
  obtain ⟨ct, hct0, hct3, hct⟩ := htarget
  simp only [COLS] at hct3
  have hrow : ∀ (c : Int) (w : WidgetRef), 0 ≤ c ∧ c < COLS → p.getWidget R c = some w →
      p.getWidget R 0 = some w ∨ p.getWidget R 1 = some w ∨ p.getWidget R 2 = some w := by
    intro c w hc hw
    simp only [COLS] at hc
    have h : c = 0 ∨ c = 1 ∨ c = 2 := by omega
    rcases h with h | h | h <;> subst h <;> simp [hw]
  have hinrow : ∀ w : WidgetRef,
      (p.getWidget R 0 = some w ∨ p.getWidget R 1 = some w ∨ p.getWidget R 2 = some w) →
      ∃ c : Int, p.getWidget R c = some w := by
    rintro w (h | h | h)
    · exact ⟨0, h⟩
    · exact ⟨1, h⟩
    · exact ⟨2, h⟩
  have hcell : ∀ (r c r' c' : Int) (w : WidgetRef), p.getWidget r c = some w →
      p.getWidget r' c' = some w → r = r' ∧ c = c' := by
    intro r c r' c' w h1 h2
    obtain ⟨i, j, hi, hj, hw⟩ := getWidget_eq_some p r c w h1
    obtain ⟨i', j', hi', hj', hw'⟩ := getWidget_eq_some p r' c' w h2
    obtain ⟨e1, e2⟩ := hdistinct i i' j j' (by rw [hw]; simp) (by rw [hw, hw'])
    subst e1; subst e2
    exact ⟨by rw [← hi, ← hi'], by rw [← hj, ← hj']⟩
  have htrow := hrow ct target ⟨hct0, by simp only [COLS]; exact hct3⟩ hct
  have hsel : RadioButton.isSelected (p.selectRadioInRow ws R target target) = true := by
    rw [selectRadioInRow_apply, if_pos rfl, if_pos ⟨htrow, hradio⟩]
    exact isSelected_select _ (by rw [deselect_getType]; exact hradio)
  have hothers : ∀ (c : Int) (w : WidgetRef), 0 ≤ c ∧ c < COLS → p.getWidget R c = some w →
      w ≠ target → RadioButton.isSelected (p.selectRadioInRow ws R target w) = false := by
    intro c w hc hw hne
    rw [selectRadioInRow_apply, if_neg hne]
    by_cases ht : (ws w).getType = WidgetType.W_RADIO
    · rw [if_pos ⟨hrow c w hc hw, ht⟩]
      exact isSelected_deselect _
    · rw [if_neg (fun h => ht h.2)]
      exact isSelected_of_not_radio _ ht
  refine ⟨hsel, fun c w hc hw hne _ => hothers c w hc hw hne, ?_, ?_, ?_, ?_⟩
  · intro c c' w w' hc hc' hw hw' hs hs'
    have e1 : w = target := by
      by_contra hne
      rw [hothers c w hc hw hne] at hs
      cases hs
    have e2 : w' = target := by
      by_contra hne
      rw [hothers c' w' hc' hw' hne] at hs'
      cases hs'
    have ew : w = w' := e1.trans e2.symm
    subst ew
    exact ⟨rfl, (hcell R c R c' w hw hw').2⟩
  · intro r c w hr hw
    have hne : w ≠ target := by
      intro h
      subst h
      exact hr (hcell r c R ct w hw hct).1
    have hnot : ¬ (p.getWidget R 0 = some w ∨ p.getWidget R 1 = some w ∨
        p.getWidget R 2 = some w) := by
      intro h
      obtain ⟨c', hc'⟩ := hinrow w h
      exact hr (hcell r c R c' w hw hc').1
    rw [selectRadioInRow_apply, if_neg hne, if_neg (fun h => hnot h.1)]
  · intro w ht
    have hne : w ≠ target := by
      intro h
      subst h
      exact ht hradio
    rw [selectRadioInRow_apply, if_neg hne, if_neg (fun h => ht h.2)]
  · intro w
    rw [selectRadioInRow_apply]
    split_ifs <;> simp [select_getType, deselect_getType]

set_option maxRecDepth 100000 in
/-- C15, on the example page, whose row 3 holds the radio buttons at addresses 3
(selected) and 4: selecting 4 in row 3 selects it and deselects 3; the check
box at address 1 in row 0 keeps its state. -/
theorem selectRadioInRow_exclusive_witness :
    (∀ (r r' : Fin 8) (c c' : Fin 3), examplePage.widgets r c ≠ none →
      examplePage.widgets r c = examplePage.widgets r' c' → r = r' ∧ c = c') ∧
    (∃ c : Int, 0 ≤ c ∧ c < COLS ∧ examplePage.getWidget 3 c = some 4) ∧
    (exampleWidgets 4).getType = WidgetType.W_RADIO ∧
    RadioButton.isSelected (exampleWidgets 3) = true ∧
    RadioButton.isSelected (examplePage.selectRadioInRow exampleWidgets 3 4 4) = true ∧
    RadioButton.isSelected (examplePage.selectRadioInRow exampleWidgets 3 4 3) = false ∧
    examplePage.selectRadioInRow exampleWidgets 3 4 1 = exampleWidgets 1 :=
  ⟨by decide, ⟨2, by decide, by decide, by decide⟩, by decide, by decide,
    (selectRadioInRow_exclusive examplePage exampleWidgets 3 4 (by decide)
      ⟨2, by decide, by decide, by decide⟩ (by decide)).1,
    by decide, by decide⟩

/-! ## Runs of the page manager -/

theorem occupied_congr (p q : Page) (h : q.widgets = p.widgets) (r c : Int) :
    q.occupied r c ↔ p.occupied r c := by
  unfold Page.occupied Page.getWidget
  rw [h]

theorem navigateUp_sound (p : Page) (row col : Int) (hcol : 0 ≤ col ∧ col < COLS) :
    (p.navigateUp row col).sound p row col := by
  unfold NavResult.sound
  rcases navigateUp_cases p row col hcol with ⟨e, _⟩ | ⟨r, c, e, _, _, _, ho, _⟩
  · rw [e]; exact ⟨rfl, rfl, (fun h => by cases h), fun _ => ⟨rfl, rfl⟩⟩
  · rw [e]; exact ⟨rfl, rfl, fun _ => ho, (fun h => by cases h)⟩

theorem navigateDown_sound (p : Page) (row col : Int) (hcol : 0 ≤ col ∧ col < COLS) :
    (p.navigateDown row col).sound p row col := by
  unfold NavResult.sound
  rcases navigateDown_cases p row col hcol with ⟨e, _⟩ | ⟨r, c, e, _, _, _, ho, _⟩
  · rw [e]; exact ⟨rfl, rfl, (fun h => by cases h), fun _ => ⟨rfl, rfl⟩⟩
  · rw [e]; exact ⟨rfl, rfl, fun _ => ho, (fun h => by cases h)⟩

theorem navigateLeft_sound (p : Page) (row col : Int) :
    (p.navigateLeft row col).sound p row col := by
  unfold NavResult.sound
  rcases navigateLeft_cases p row col with ⟨_, e⟩ | ⟨_, c, e, _, _, ho, _⟩ |
    ⟨_, _, r, c, e, _, _, _, hm, _⟩ | ⟨_, _, _, r, c, e, _, _, _, hm, _⟩ | ⟨_, _, _, _, e⟩
  · rw [e]; exact ⟨rfl, rfl, (fun h => by cases h), fun _ => ⟨rfl, rfl⟩⟩
  · rw [e]; exact ⟨rfl, rfl, fun _ => ho, (fun h => by cases h)⟩
  · rw [e]; exact ⟨rfl, rfl, fun _ => hm.2.2.1, (fun h => by cases h)⟩
  · rw [e]; exact ⟨rfl, rfl, fun _ => hm.2.2.1, (fun h => by cases h)⟩
  · rw [e]; exact ⟨rfl, rfl, (fun h => by cases h), fun _ => ⟨rfl, rfl⟩⟩

theorem navigateRight_sound (p : Page) (row col : Int) :
    (p.navigateRight row col).sound p row col := by
  unfold NavResult.sound
  rcases navigateRight_cases p row col with ⟨_, e⟩ | ⟨_, c, e, _, _, ho, _⟩ |
    ⟨_, _, r, c, e, _, _, _, hm, _⟩ | ⟨_, _, _, r, c, e, _, _, _, hm, _⟩ | ⟨_, _, _, _, e⟩
  · rw [e]; exact ⟨rfl, rfl, (fun h => by cases h), fun _ => ⟨rfl, rfl⟩⟩
  · rw [e]; exact ⟨rfl, rfl, fun _ => ho, (fun h => by cases h)⟩
  · rw [e]; exact ⟨rfl, rfl, fun _ => hm.2.2.1, (fun h => by cases h)⟩
  · rw [e]; exact ⟨rfl, rfl, fun _ => hm.2.2.1, (fun h => by cases h)⟩
  · rw [e]; exact ⟨rfl, rfl, (fun h => by cases h), fun _ => ⟨rfl, rfl⟩⟩

/-- A directional command of `handleInput` alone: nothing without a current
page, else the outcome of the method stored back. -/
theorem handleInput_direction (handlers : HandlerRef → UIState → UIState) (s : UIState) :
    handleInput handlers (Input.mk true false false false false) s =
      (match s.pageManager.getCurrentPage with
        | none => s
        | some page => storeNavResult s page
            ((s.pageStore page).navigateUp s.pageManager.selRow s.pageManager.selCol)) ∧
    handleInput handlers (Input.mk false true false false false) s =
      (match s.pageManager.getCurrentPage with
        | none => s
        | some page => storeNavResult s page
            ((s.pageStore page).navigateDown s.pageManager.selRow s.pageManager.selCol)) ∧
    handleInput handlers (Input.mk false false true false false) s =
      (match s.pageManager.getCurrentPage with
        | none => s
        | some page => storeNavResult s page
            ((s.pageStore page).navigateLeft s.pageManager.selRow s.pageManager.selCol)) ∧
    handleInput handlers (Input.mk false false false true false) s =
      (match s.pageManager.getCurrentPage with
        | none => s
        | some page => storeNavResult s page
            ((s.pageStore page).navigateRight s.pageManager.selRow s.pageManager.selCol)) := by
  unfold handleInput
  cases s.pageManager.getCurrentPage <;> simp

/-- Storing a sound outcome keeps the state well formed and the grids as they
were, and leaves a valid focus when the move succeeded or the focus was valid
before. -/
theorem storeNavResult_sound (s : UIState) (page : PageRef) (res : NavResult)
    (hwf : s.wellFormed) (hcur : s.pageManager.getCurrentPage = some page)
    (hres : res.sound (s.pageStore page) s.pageManager.selRow s.pageManager.selCol) :
    (storeNavResult s page res).wellFormed ∧
    (∀ ref : PageRef, ((storeNavResult s page res).pageStore ref).widgets
      = (s.pageStore ref).widgets) ∧
    (res.moved = true ∨ s.focusValid → (storeNavResult s page res).focusValid) := by
  obtain ⟨hw, _, hok, hfail⟩ := hres
  have hstore : ∀ ref : PageRef, ((storeNavResult s page res).pageStore ref).widgets
      = (s.pageStore ref).widgets := by
    intro ref
    unfold storeNavResult
    by_cases h : ref = page
    · subst h; simp [hw]
    · simp [Function.update, h]
  have hcur2 : (storeNavResult s page res).pageManager.getCurrentPage = some page := hcur
  have hrange : (0 ≤ res.row ∧ res.row < TOTAL_ROWS) ∧ (0 ≤ res.col ∧ res.col < COLS) := by
    cases hm : res.moved with
    | true =>
      have hb := occupied_inRange _ _ _ (hok hm)
      simp only [TOTAL_ROWS, COLS]
      omega
    | false =>
      obtain ⟨e1, e2⟩ := hfail hm
      rw [e1, e2]
      exact ⟨hwf.2.2.2.1, hwf.2.2.2.2⟩
  refine ⟨⟨hwf.1, hwf.2.1, hwf.2.2.1, hrange.1, hrange.2⟩, hstore, fun h => ?_⟩
  refine ⟨page, hcur2, fun _ => ?_⟩
  rw [occupied_congr _ _ (hstore page)]
  show (s.pageStore page).occupied res.row res.col
  cases hm : res.moved with
  | true => exact hok hm
  | false =>
    obtain ⟨e1, e2⟩ := hfail hm
    rw [e1, e2]
    rcases h with h | ⟨q, hq, hv⟩
    · rw [hm] at h; cases h
    · have hqp : q = page := by rw [hcur] at hq; exact (Option.some.inj hq).symm
      subst hqp
      apply hv
      rename_i hex
      obtain ⟨r, c, ho⟩ := hex
      exact ⟨r, c, (occupied_congr _ _ (hstore q) r c).1 ho⟩

/-- A state whose manager has been switched to the registered slot `i` and
re-anchored is well formed and has a valid focus. -/
theorem switched_state (s t : UIState) (i : Int) (hwf : s.wellFormed)
    (h0 : 0 ≤ i) (h1 : i < s.pageManager.numPages)
    (hm : t.pageManager =
      PageManager.reanchor { s.pageManager with currentPageIndex := i } s.pageStore)
    (hp : t.pageStore = s.pageStore) :
    t.wellFormed ∧ t.focusValid := by
  have hcur := getCurrentPage_of_index s.pageManager i h0 h1
  obtain ⟨hocc, _, hr, hc⟩ := reanchor_spec _ s.pageStore _ hcur
  obtain ⟨f1, f2, f3⟩ :=
    reanchor_frame ({ s.pageManager with currentPageIndex := i } : PageManager) s.pageStore
  constructor
  · unfold UIState.wellFormed
    rw [hm, f1, f2]
    exact ⟨hwf.1, fun h => by simp only at h; omega, fun _ => ⟨h0, h1⟩, hr, hc⟩
  · refine ⟨s.pageManager.pages i, by rw [hm, reanchor_getCurrentPage]; exact hcur, ?_⟩
    rw [hm, hp]
    rintro ⟨r, c, ho⟩
    have hb := occupied_inRange _ r c ho
    exact (hocc ⟨r, c, hb.2.2.1, by simp only [COLS]; exact hb.2.2.2, ho⟩).2.2.2.2.1

/-- A state that differs from a well-formed one only in what was printed. -/
theorem same_manager_state (s t : UIState) (hm : t.pageManager = s.pageManager)
    (hp : t.pageStore = s.pageStore) :
    (s.wellFormed → t.wellFormed) ∧ (s.focusValid → t.focusValid) := by
  unfold UIState.wellFormed UIState.focusValid
  rw [hm, hp]
  exact ⟨id, id⟩

/-- Registration keeps a well-formed state well formed and a valid focus
valid. -/
theorem addPage_state (s : UIState) (page : PageRef) (hwf : s.wellFormed) :
    ({ s with pageManager := s.pageManager.addPage page } : UIState).wellFormed ∧
    (s.focusValid →
      ({ s with pageManager := s.pageManager.addPage page } : UIState).focusValid) := by
  obtain ⟨hn, hz, hnz, hr, hc⟩ := hwf
  obtain ⟨fi, fr, fc⟩ := addPage_focus s.pageManager page
  by_cases hlt : s.pageManager.numPages < MAX_PAGES
  · obtain ⟨b1, b2, b3⟩ := addPage_below s.pageManager page hlt
    constructor
    · unfold UIState.wellFormed
      simp only [fi, fr, fc, b1]
      refine ⟨⟨by omega, by omega⟩, fun h => by omega, fun _ => ?_, hr, hc⟩
      by_cases h0 : s.pageManager.numPages = 0
      · rw [hz h0]; omega
      · have := hnz h0; omega
    · rintro ⟨q, hq, hv⟩
      have hidx : 0 ≤ s.pageManager.currentPageIndex ∧
          s.pageManager.currentPageIndex < s.pageManager.numPages := by
        unfold PageManager.getCurrentPage at hq
        split_ifs at hq with h
        exact h
      refine ⟨q, ?_, ?_⟩
      · show (s.pageManager.addPage page).getCurrentPage = some q
        unfold PageManager.getCurrentPage at hq ⊢
        rw [fi, b1, b3 _ (by omega)]
        rw [if_pos hidx] at hq
        rw [if_pos ⟨hidx.1, by omega⟩]
        exact hq
      · show (∃ r c : Int, (s.pageStore q).occupied r c) →
          (s.pageStore q).occupied (s.pageManager.addPage page).selRow
            (s.pageManager.addPage page).selCol
        rw [fr, fc]
        exact hv
  · rw [addPage_full s.pageManager page hlt]
    exact ⟨⟨hn, hz, hnz, hr, hc⟩, id⟩

/-- Every operation keeps a well-formed state well formed and the grids as
they were; it leaves a valid focus when it anchors the focus or the focus was
valid before. -/
theorem apply_invariant (a : Action) (s : UIState) (hwf : s.wellFormed) :
    (a.apply s).wellFormed ∧ (a.anchors s ∨ s.focusValid → (a.apply s).focusValid) := by
  have hnav : ∀ (res : PageRef → NavResult),
      (∀ page : PageRef, s.pageManager.getCurrentPage = some page →
        (res page).sound (s.pageStore page) s.pageManager.selRow s.pageManager.selCol) →
      (match s.pageManager.getCurrentPage with
        | none => s
        | some page => storeNavResult s page (res page)).wellFormed ∧
      (((∃ page : PageRef, s.pageManager.getCurrentPage = some page ∧
          (res page).moved = true) ∨ s.focusValid) →
        (match s.pageManager.getCurrentPage with
          | none => s
          | some page => storeNavResult s page (res page)).focusValid) := by
    intro res hres
    cases hcur : s.pageManager.getCurrentPage with
    | none =>
      refine ⟨hwf, fun h => ?_⟩
      rcases h with ⟨q, hq, _⟩ | h
      · cases hq
      · exact h
    | some page =>
      obtain ⟨w1, _, w3⟩ := storeNavResult_sound s page (res page) hwf hcur (hres page hcur)
      refine ⟨w1, fun h => w3 ?_⟩
      rcases h with ⟨q, hq, hmv⟩ | h
      · have : page = q := Option.some.inj hq
        subst this
        exact Or.inl hmv
      · exact Or.inr h
  have hswitch : ∀ t : UIState,
      (1 < s.pageManager.numPages → (t = PageManager.goBack s ∨ t = PageManager.goNext s) →
        t.wellFormed ∧ t.focusValid) := by
    intro t hn ht
    have hidx := hwf.2.2.1 (by omega)
    obtain ⟨i, h0, h1, hm, hp, _⟩ := pageSwitch_shape s t (Or.inr ⟨hn, hidx.1, ht⟩)
    exact switched_state s t i hwf h0 h1 hm hp
  cases a with
  | addPage page =>
    obtain ⟨w, f⟩ := addPage_state s page hwf
    refine ⟨w, fun h => ?_⟩
    rcases h with h | h
    · exact absurd h id
    · exact f h
  | navigateToPage pageName =>
    show (PageManager.navigateToPage s pageName).wellFormed ∧
      (_ → (PageManager.navigateToPage s pageName).focusValid)
    rcases navigateToPage_cases s pageName with ⟨hmiss, e⟩ | ⟨i, h0, h1, _, _, e⟩
    · obtain ⟨w, f⟩ := same_manager_state s (PageManager.navigateToPage s pageName)
        (by rw [e]; rfl) (by rw [e]; rfl)
      refine ⟨w hwf, fun h => ?_⟩
      rcases h with ⟨i, h0, h1, hn⟩ | h
      · exact absurd hn (hmiss i h0 h1)
      · exact f h
    · obtain ⟨w, f⟩ := switched_state s (PageManager.navigateToPage s pageName) i hwf h0 h1
        (by rw [e]; rfl) (by rw [e]; rfl)
      exact ⟨w, fun _ => f⟩
  | goBack =>
    show (PageManager.goBack s).wellFormed ∧ (_ → (PageManager.goBack s).focusValid)
    by_cases hn : 1 < s.pageManager.numPages
    · obtain ⟨w, f⟩ := hswitch _ hn (Or.inl rfl)
      exact ⟨w, fun _ => f⟩
    · have e : PageManager.goBack s = s := by
        unfold PageManager.goBack
        rw [if_neg hn]
      rw [e]
      refine ⟨hwf, fun h => ?_⟩
      rcases h with h | h
      · exact absurd h hn
      · exact h
  | goNext =>
    show (PageManager.goNext s).wellFormed ∧ (_ → (PageManager.goNext s).focusValid)
    by_cases hn : 1 < s.pageManager.numPages
    · obtain ⟨w, f⟩ := hswitch _ hn (Or.inr rfl)
      exact ⟨w, fun _ => f⟩
    · have e : PageManager.goNext s = s := by
        unfold PageManager.goNext
        rw [if_neg hn]
      rw [e]
      refine ⟨hwf, fun h => ?_⟩
      rcases h with h | h
      · exact absurd h hn
      · exact h
  | navigateUp =>
    show (handleInput _ (Input.mk true false false false false) s).wellFormed ∧
      (_ → (handleInput _ (Input.mk true false false false false) s).focusValid)
    rw [(handleInput_direction _ s).1]
    exact hnav (fun page =>
      (s.pageStore page).navigateUp s.pageManager.selRow s.pageManager.selCol)
      (fun page _ => navigateUp_sound _ _ _ hwf.2.2.2.2)
  | navigateDown =>
    show (handleInput _ (Input.mk false true false false false) s).wellFormed ∧
      (_ → (handleInput _ (Input.mk false true false false false) s).focusValid)
    rw [(handleInput_direction _ s).2.1]
    exact hnav (fun page =>
      (s.pageStore page).navigateDown s.pageManager.selRow s.pageManager.selCol)
      (fun page _ => navigateDown_sound _ _ _ hwf.2.2.2.2)
  | navigateLeft =>
    show (handleInput _ (Input.mk false false true false false) s).wellFormed ∧
      (_ → (handleInput _ (Input.mk false false true false false) s).focusValid)
    rw [(handleInput_direction _ s).2.2.1]
    exact hnav (fun page =>
      (s.pageStore page).navigateLeft s.pageManager.selRow s.pageManager.selCol)
      (fun page _ => navigateLeft_sound _ _ _)
  | navigateRight =>
    show (handleInput _ (Input.mk false false false true false) s).wellFormed ∧
      (_ → (handleInput _ (Input.mk false false false true false) s).focusValid)
    rw [(handleInput_direction _ s).2.2.2]
    exact hnav (fun page =>
      (s.pageStore page).navigateRight s.pageManager.selRow s.pageManager.selCol)
      (fun page _ => navigateRight_sound _ _ _)

theorem initialState_wellFormed (uninit : Int → PageRef) (pageStore : PageRef → Page)
    (widgetStore : WidgetRef → Widget) :
    (initialState uninit pageStore widgetStore).wellFormed := by
  unfold UIState.wellFormed initialState PageManager.new
  simp [MAX_PAGES, TOTAL_ROWS, COLS]

theorem run_invariant (acts : List Action) :
    ∀ s : UIState, s.wellFormed →
      (run acts s).wellFormed ∧ (s.focusValid → (run acts s).focusValid) := by
  induction acts with
  | nil => intro s hwf; exact ⟨hwf, id⟩
  | cons a rest ih =>
    intro s hwf
    obtain ⟨w, f⟩ := apply_invariant a s hwf
    obtain ⟨w2, f2⟩ := ih (a.apply s) w
    exact ⟨w2, fun h => f2 (f (Or.inr h))⟩

theorem run_append (xs ys : List Action) (s : UIState) :
    run (xs ++ ys) s = run ys (run xs s) := by
  unfold run
  rw [List.foldl_append]

/-- C19 as stated fails: on a fresh manager, after `addPage` of the example
page the current page exists and its grid holds widgets, but the focus is
still the constructor's `(1,0)`, an empty cell. -/
theorem focus_invariant_counterexample :
    (run [Action.addPage 0] exampleStart).pageManager.getCurrentPage = some 0 ∧
    ((run [Action.addPage 0] exampleStart).pageStore 0).getWidget 0 0 ≠ none ∧
    (run [Action.addPage 0] exampleStart).pageManager.selRow = 1 ∧
    (run [Action.addPage 0] exampleStart).pageManager.selCol = 0 ∧
    ((run [Action.addPage 0] exampleStart).pageStore 0).getWidget
      (run [Action.addPage 0] exampleStart).pageManager.selRow
      (run [Action.addPage 0] exampleStart).pageManager.selCol = none := by
  decide

/-- An operation that does not anchor the focus leaves `selRow` and `selCol` as
they were, the column being inside the grid. -/
theorem apply_focus_of_not_anchors (a : Action) (s : UIState)
    (hcol : 0 ≤ s.pageManager.selCol ∧ s.pageManager.selCol < COLS) (h : ¬ a.anchors s) :
    (a.apply s).pageManager.selRow = s.pageManager.selRow ∧
    (a.apply s).pageManager.selCol = s.pageManager.selCol := by
  have hnav : ∀ (res : PageRef → NavResult),
      (∀ page : PageRef, s.pageManager.getCurrentPage = some page →
        (res page).sound (s.pageStore page) s.pageManager.selRow s.pageManager.selCol) →
      (¬ ∃ page : PageRef, s.pageManager.getCurrentPage = some page ∧
        (res page).moved = true) →
      (match s.pageManager.getCurrentPage with
        | none => s
        | some page => storeNavResult s page (res page)).pageManager.selRow
          = s.pageManager.selRow ∧
      (match s.pageManager.getCurrentPage with
        | none => s
        | some page => storeNavResult s page (res page)).pageManager.selCol
          = s.pageManager.selCol := by
    intro res hres hno
    cases hcur : s.pageManager.getCurrentPage with
    | none => exact ⟨rfl, rfl⟩
    | some page =>
      have hfalse : (res page).moved = false := by
        cases hm : (res page).moved with
        | false => rfl
        | true => exact absurd ⟨page, hcur, hm⟩ hno
      obtain ⟨e1, e2⟩ := (hres page hcur).2.2.2 hfalse
      exact ⟨e1, e2⟩
  cases a with
  | addPage page =>
    obtain ⟨_, fr, fc⟩ := addPage_focus s.pageManager page
    exact ⟨fr, fc⟩
  | navigateToPage pageName =>
    show (PageManager.navigateToPage s pageName).pageManager.selRow = s.pageManager.selRow ∧
      (PageManager.navigateToPage s pageName).pageManager.selCol = s.pageManager.selCol
    rcases navigateToPage_cases s pageName with ⟨_, e⟩ | ⟨i, h0, h1, hn, _, _⟩
    · rw [e]; exact ⟨rfl, rfl⟩
    · exact absurd ⟨i, h0, h1, hn⟩ h
  | goBack =>
    show (PageManager.goBack s).pageManager.selRow = s.pageManager.selRow ∧
      (PageManager.goBack s).pageManager.selCol = s.pageManager.selCol
    have hn : ¬ s.pageManager.numPages > 1 := h
    unfold PageManager.goBack
    rw [if_neg hn]
    exact ⟨rfl, rfl⟩
  | goNext =>
    show (PageManager.goNext s).pageManager.selRow = s.pageManager.selRow ∧
      (PageManager.goNext s).pageManager.selCol = s.pageManager.selCol
    have hn : ¬ s.pageManager.numPages > 1 := h
    unfold PageManager.goNext
    rw [if_neg hn]
    exact ⟨rfl, rfl⟩
  | navigateUp =>
    show (handleInput _ (Input.mk true false false false false) s).pageManager.selRow = _ ∧
      (handleInput _ (Input.mk true false false false false) s).pageManager.selCol = _
    rw [(handleInput_direction _ s).1]
    exact hnav (fun page =>
      (s.pageStore page).navigateUp s.pageManager.selRow s.pageManager.selCol)
      (fun page _ => navigateUp_sound _ _ _ hcol) h
  | navigateDown =>
    show (handleInput _ (Input.mk false true false false false) s).pageManager.selRow = _ ∧
      (handleInput _ (Input.mk false true false false false) s).pageManager.selCol = _
    rw [(handleInput_direction _ s).2.1]
    exact hnav (fun page =>
      (s.pageStore page).navigateDown s.pageManager.selRow s.pageManager.selCol)
      (fun page _ => navigateDown_sound _ _ _ hcol) h
  | navigateLeft =>
    show (handleInput _ (Input.mk false false true false false) s).pageManager.selRow = _ ∧
      (handleInput _ (Input.mk false false true false false) s).pageManager.selCol = _
    rw [(handleInput_direction _ s).2.2.1]
    exact hnav (fun page =>
      (s.pageStore page).navigateLeft s.pageManager.selRow s.pageManager.selCol)
      (fun page _ => navigateLeft_sound _ _ _) h
  | navigateRight =>
    show (handleInput _ (Input.mk false false false true false) s).pageManager.selRow = _ ∧
      (handleInput _ (Input.mk false false false true false) s).pageManager.selCol = _
    rw [(handleInput_direction _ s).2.2.2]
    exact hnav (fun page =>
      (s.pageStore page).navigateRight s.pageManager.selRow s.pageManager.selCol)
      (fun page _ => navigateRight_sound _ _ _) h

/-- A run none of whose operations anchors the focus leaves `selRow` and
`selCol` as they were, the column being inside the grid. -/
theorem unanchored_focus (acts : List Action) :
    ∀ s : UIState, (0 ≤ s.pageManager.selCol ∧ s.pageManager.selCol < COLS) →
      unanchored acts s →
      (run acts s).pageManager.selRow = s.pageManager.selRow ∧
      (run acts s).pageManager.selCol = s.pageManager.selCol := by
  induction acts with
  | nil => intro s _ _; exact ⟨rfl, rfl⟩
  | cons a rest ih =>
    intro s hcol hun
    obtain ⟨hna, hrest⟩ := hun
    obtain ⟨e1, e2⟩ := apply_focus_of_not_anchors a s hcol hna
    obtain ⟨f1, f2⟩ := ih (a.apply s) (by rw [e2]; exact hcol) hrest
    exact ⟨f1.trans e1, f2.trans e2⟩

/-- C19, amended. In every state reached from a freshly constructed manager by
a run of `addPage`, `navigateToPage`, `goBack`, `goNext` and the four
directional commands in which some operation has anchored the focus (a
`navigateToPage` with a registered name, a `goBack` or `goNext` with more than
one page, or a directional command that returned true), a current page exists
and, if its grid holds at least one widget, the cell at `(selRow, selCol)` of
the current page holds one.  Before the first such operation, that is after a
run none of whose operations anchors the focus, the focus is the constructor's
`(1, 0)`. -/
theorem focus_valid_after_anchor (uninit : Int → PageRef) (pageStore : PageRef → Page)
    (widgetStore : WidgetRef → Widget) (before : List Action) (a : Action)
    (after : List Action) :
    (a.anchors (run before (initialState uninit pageStore widgetStore)) →
      ∃ page : PageRef,
        (run (before ++ a :: after)
          (initialState uninit pageStore widgetStore)).pageManager.getCurrentPage = some page ∧
        ((∃ r c : Int,
            ((run (before ++ a :: after)
              (initialState uninit pageStore widgetStore)).pageStore page).getWidget r c
              ≠ none) →
          ((run (before ++ a :: after)
            (initialState uninit pageStore widgetStore)).pageStore page).getWidget
            (run (before ++ a :: after)
              (initialState uninit pageStore widgetStore)).pageManager.selRow
            (run (before ++ a :: after)
              (initialState uninit pageStore widgetStore)).pageManager.selCol ≠ none)) ∧
    (unanchored before (initialState uninit pageStore widgetStore) →
      (run before (initialState uninit pageStore widgetStore)).pageManager.selRow = 1 ∧
      (run before (initialState uninit pageStore widgetStore)).pageManager.selCol = 0) := by
  constructor
  · intro h
    have hwf := (run_invariant before _ (initialState_wellFormed uninit pageStore widgetStore)).1
    obtain ⟨w, f⟩ := apply_invariant a _ hwf
    have hv := (run_invariant after _ w).2 (f (Or.inl h))
    rw [run_append]
    exact hv
  · intro hun
    exact unanchored_focus before (initialState uninit pageStore widgetStore)
      (by simp [initialState, PageManager.new, COLS]) hun

/-- C19 amended, on the example state: `addPage`, a `goNext` with one page and
a `navigateToPage` that misses anchor nothing and leave the focus at `(1,0)`;
after the `navigateToPage` that finds the page, then Down, Up and Down, the
focus is `(2,1)`, which holds a widget. -/
theorem focus_valid_after_anchor_witness :
    (Action.navigateToPage "Example").anchors
      (run [Action.addPage 0, Action.goNext, Action.navigateToPage "Nowhere"] exampleStart) ∧
    unanchored [Action.addPage 0, Action.goNext, Action.navigateToPage "Nowhere"]
      exampleStart ∧
    (run ([Action.addPage 0, Action.goNext, Action.navigateToPage "Nowhere"] ++
      Action.navigateToPage "Example" ::
      [Action.navigateDown, Action.navigateUp, Action.navigateDown])
      exampleStart).pageManager.selRow = 2 ∧
    (run ([Action.addPage 0, Action.goNext, Action.navigateToPage "Nowhere"] ++
      Action.navigateToPage "Example" ::
      [Action.navigateDown, Action.navigateUp, Action.navigateDown])
      exampleStart).pageManager.selCol = 1 ∧
    ((run [Action.addPage 0, Action.goNext, Action.navigateToPage "Nowhere"]
        (initialState (fun _ => 0) examplePages exampleWidgets)).pageManager.selRow = 1 ∧
      (run [Action.addPage 0, Action.goNext, Action.navigateToPage "Nowhere"]
        (initialState (fun _ => 0) examplePages exampleWidgets)).pageManager.selCol = 0) ∧
    (∃ page : PageRef,
      (run ([Action.addPage 0, Action.goNext, Action.navigateToPage "Nowhere"] ++
        Action.navigateToPage "Example" ::
        [Action.navigateDown, Action.navigateUp, Action.navigateDown])
        (initialState (fun _ => 0) examplePages exampleWidgets)).pageManager.getCurrentPage
        = some page ∧
      ((∃ r c : Int,
          ((run ([Action.addPage 0, Action.goNext, Action.navigateToPage "Nowhere"] ++
            Action.navigateToPage "Example" ::
            [Action.navigateDown, Action.navigateUp, Action.navigateDown])
            (initialState (fun _ => 0) examplePages exampleWidgets)).pageStore page).getWidget
            r c ≠ none) →
        ((run ([Action.addPage 0, Action.goNext, Action.navigateToPage "Nowhere"] ++
          Action.navigateToPage "Example" ::
          [Action.navigateDown, Action.navigateUp, Action.navigateDown])
          (initialState (fun _ => 0) examplePages exampleWidgets)).pageStore page).getWidget
          (run ([Action.addPage 0, Action.goNext, Action.navigateToPage "Nowhere"] ++
            Action.navigateToPage "Example" ::
            [Action.navigateDown, Action.navigateUp, Action.navigateDown])
            (initialState (fun _ => 0) examplePages exampleWidgets)).pageManager.selRow
          (run ([Action.addPage 0, Action.goNext, Action.navigateToPage "Nowhere"] ++
            Action.navigateToPage "Example" ::
            [Action.navigateDown, Action.navigateUp, Action.navigateDown])
            (initialState (fun _ => 0) examplePages exampleWidgets)).pageManager.selCol
          ≠ none)) :=
  have hun : unanchored [Action.addPage 0, Action.goNext, Action.navigateToPage "Nowhere"]
      exampleStart :=
    ⟨fun h => h,
      (by decide : ¬ (run [Action.addPage 0] exampleStart).pageManager.numPages > 1),
      fun ⟨i, h0, h1, hn⟩ => by
        have h2 : (run [Action.addPage 0, Action.goNext] exampleStart).pageManager.numPages
            = 1 := by decide
        have h1' : i < (run [Action.addPage 0, Action.goNext] exampleStart).pageManager.numPages :=
          h1
        rw [h2] at h1'
        have hi : i = 0 := by omega
        subst hi
        revert hn
        decide,
      trivial⟩
  ⟨⟨0, by decide, by decide, by decide⟩, hun, by decide, by decide,
    (focus_valid_after_anchor (fun _ => 0) examplePages exampleWidgets
      [Action.addPage 0, Action.goNext, Action.navigateToPage "Nowhere"]
      (Action.navigateToPage "Example")
      [Action.navigateDown, Action.navigateUp, Action.navigateDown]).2 hun,
    (focus_valid_after_anchor (fun _ => 0) examplePages exampleWidgets
      [Action.addPage 0, Action.goNext, Action.navigateToPage "Nowhere"]
      (Action.navigateToPage "Example")
      [Action.navigateDown, Action.navigateUp, Action.navigateDown]).1
      ⟨0, by decide, by decide, by decide⟩⟩

/-- C18 fails on the code: from freshly constructed pages (every `scrollOffset`
is 0), after `addPage` of the page whose only widgets are at `(5,0)` and
`(5,1)` and `navigateToPage` to it, the focus is on row 5 while the page's
`scrollOffset` is still 0; the next `navigateRight` returns true (an in-row
move to `(5,1)`) and the next `navigateUp` returns false, and after either
call row 5 lies outside the window `[0, 3]`. -/
theorem pageSwitch_focus_outside_window :
    (∀ page : PageRef, (exampleStart.pageStore page).scrollOffset = 0) ∧
    (run [Action.addPage 1, Action.navigateToPage "Low"]
      exampleStart).pageManager.getCurrentPage = some 1 ∧
    (run [Action.addPage 1, Action.navigateToPage "Low"] exampleStart).pageManager.selRow = 5 ∧
    (run [Action.addPage 1, Action.navigateToPage "Low"] exampleStart).pageManager.selCol = 0 ∧
    ((run [Action.addPage 1, Action.navigateToPage "Low"] exampleStart).pageStore
      1).scrollOffset = 0 ∧
    (((run [Action.addPage 1, Action.navigateToPage "Low"] exampleStart).pageStore
      1).navigateRight 5 0).moved = true ∧
    (run [Action.addPage 1, Action.navigateToPage "Low", Action.navigateRight]
      exampleStart).pageManager.selRow = 5 ∧
    (run [Action.addPage 1, Action.navigateToPage "Low", Action.navigateRight]
      exampleStart).pageManager.selCol = 1 ∧
    ((run [Action.addPage 1, Action.navigateToPage "Low", Action.navigateRight]
      exampleStart).pageStore 1).scrollOffset = 0 ∧
    ¬ ((run [Action.addPage 1, Action.navigateToPage "Low", Action.navigateRight]
        exampleStart).pageManager.selRow
      ≤ ((run [Action.addPage 1, Action.navigateToPage "Low", Action.navigateRight]
        exampleStart).pageStore 1).scrollOffset + 3) ∧
    (((run [Action.addPage 1, Action.navigateToPage "Low"] exampleStart).pageStore
      1).navigateUp 5 0).moved = false ∧
    ¬ ((run [Action.addPage 1, Action.navigateToPage "Low", Action.navigateUp]
        exampleStart).pageManager.selRow
      ≤ ((run [Action.addPage 1, Action.navigateToPage "Low", Action.navigateUp]
        exampleStart).pageStore 1).scrollOffset + 3) := by
  refine ⟨fun page => ?_, by decide, by decide, by decide, by decide, by decide, by decide,
    by decide, by decide, by decide, by decide, by decide⟩
  show (examplePages page).scrollOffset = 0
  unfold examplePages
  split_ifs <;> rfl

/-! ## Up followed by Down -/

theorem rowOccupied_updateScrollPosition (p : Page) (s r : Int) :
    (p.updateScrollPosition s).rowOccupied r ↔ p.rowOccupied r := Iff.rfl

/-- C21. Up then Down returns to the starting row: from an in-range focus on an
occupied cell, if `navigateUp` returns true then `navigateDown`, called next on
the resulting page and focus, also returns true and the focused row is the
original row again; if moreover the Up move kept the column (the cell it
landed on is in column `col`, that is the cell above in column `col` was
occupied), the focus is exactly the original `(row, col)`. -/
theorem navigateUp_then_navigateDown (p : Page) (row col : Int)
    (hrow : 0 ≤ row ∧ row < TOTAL_ROWS) (hcol : 0 ≤ col ∧ col < COLS)
    (hocc : p.getWidget row col ≠ none)
    (hup : (p.navigateUp row col).moved = true) :
    ((p.navigateUp row col).page.navigateDown (p.navigateUp row col).row
      (p.navigateUp row col).col).moved = true ∧
    ((p.navigateUp row col).page.navigateDown (p.navigateUp row col).row
      (p.navigateUp row col).col).row = row ∧
    (p.getWidget (p.navigateUp row col).row col ≠ none →
      (p.navigateUp row col).col = col ∧
      ((p.navigateUp row col).page.navigateDown (p.navigateUp row col).row
        (p.navigateUp row col).col).col = col) ∧
    ((p.navigateUp row col).col = col →
      ((p.navigateUp row col).page.navigateDown (p.navigateUp row col).row
        (p.navigateUp row col).col).col = col) := by
  have hrowocc : p.rowOccupied row := ⟨col, hcol.1, hcol.2, hocc⟩
  rcases navigateUp_cases p row col hcol with ⟨e, _⟩ | ⟨r, c, e, hr0, hr1, _, hoc, hgap, hkeep, _⟩
  · rw [e] at hup; cases hup
  · rw [e]
    have hcb := occupied_inRange p r c hoc
    have hc : 0 ≤ c ∧ c < COLS := ⟨hcb.2.2.1, by simp only [COLS]; exact hcb.2.2.2⟩
    rcases navigateDown_cases (p.updateScrollPosition r) r c hc with ⟨_, hno⟩ |
      ⟨r2, c2, e2, h1, h2, hocc2, _, hgap2, hkeep2, _⟩
    · exact absurd hrowocc (hno row hr1 hrow.2)
    · have hr2 : r2 = row := by
        by_contra hne
        by_cases hlt : r2 < row
        · exact hgap r2 h1 hlt hocc2
        · exact hgap2 row hr1 (by omega) hrowocc
      subst hr2
      show ((p.updateScrollPosition r).navigateDown r c).moved = true ∧
        ((p.updateScrollPosition r).navigateDown r c).row = r2 ∧
        (p.getWidget r col ≠ none →
          c = col ∧ ((p.updateScrollPosition r).navigateDown r c).col = col) ∧
        (c = col → ((p.updateScrollPosition r).navigateDown r c).col = col)
      rw [e2]
      refine ⟨rfl, rfl, fun h => ?_, fun h => ?_⟩
      · have hc' := hkeep h
        subst hc'
        exact ⟨rfl, hkeep2 hocc⟩
      · subst h
        exact hkeep2 hocc

/-- C21, on the page with widgets only at `(1,1)`, `(4,0)` and `(4,1)`: Up from
`(4,1)` keeps the column and lands on `(1,1)`, and Down brings the focus back
to `(4,1)`; Up from `(4,0)` lands on `(1,1)` and Down returns to row 4, at
column 1. -/
theorem navigateUp_then_navigateDown_witness :
    (0 ≤ (4 : Int) ∧ (4 : Int) < TOTAL_ROWS) ∧ (0 ≤ (1 : Int) ∧ (1 : Int) < COLS) ∧
    stackPage.getWidget 4 1 ≠ none ∧
    (stackPage.navigateUp 4 1).moved = true ∧
    (stackPage.navigateUp 4 1).row = 1 ∧ (stackPage.navigateUp 4 1).col = 1 ∧
    (((stackPage.navigateUp 4 1).page.navigateDown (stackPage.navigateUp 4 1).row
      (stackPage.navigateUp 4 1).col).moved = true ∧
    ((stackPage.navigateUp 4 1).page.navigateDown (stackPage.navigateUp 4 1).row
      (stackPage.navigateUp 4 1).col).row = 4 ∧
    (stackPage.getWidget (stackPage.navigateUp 4 1).row 1 ≠ none →
      (stackPage.navigateUp 4 1).col = 1 ∧
      ((stackPage.navigateUp 4 1).page.navigateDown (stackPage.navigateUp 4 1).row
        (stackPage.navigateUp 4 1).col).col = 1) ∧
    ((stackPage.navigateUp 4 1).col = 1 →
      ((stackPage.navigateUp 4 1).page.navigateDown (stackPage.navigateUp 4 1).row
        (stackPage.navigateUp 4 1).col).col = 1)) ∧
    ((stackPage.navigateUp 4 1).page.navigateDown (stackPage.navigateUp 4 1).row
      (stackPage.navigateUp 4 1).col).col = 1 ∧
    (stackPage.navigateUp 4 0).row = 1 ∧ (stackPage.navigateUp 4 0).col = 1 ∧
    ((stackPage.navigateUp 4 0).page.navigateDown (stackPage.navigateUp 4 0).row
      (stackPage.navigateUp 4 0).col).row = 4 ∧
    ((stackPage.navigateUp 4 0).page.navigateDown (stackPage.navigateUp 4 0).row
      (stackPage.navigateUp 4 0).col).col = 1 :=
  ⟨by decide, by decide, by decide, by decide, by decide, by decide,
    navigateUp_then_navigateDown stackPage 4 1 (by decide) (by decide) (by decide) (by decide),
    by decide, by decide, by decide, by decide, by decide⟩

/-! ## The page index -/

/-- After a page switch that takes place, the index read in
`pages[currentPageIndex]` is that of a registered slot and the count is
unchanged. -/
theorem pageSwitch_index (s t : UIState)
    (h : (∃ pageName : String,
        (∃ i : Int, 0 ≤ i ∧ i < s.pageManager.numPages ∧
          (s.pageStore (s.pageManager.pages i)).name = pageName) ∧
        t = PageManager.navigateToPage s pageName) ∨
      (1 < s.pageManager.numPages ∧ 0 ≤ s.pageManager.currentPageIndex ∧
        (t = PageManager.goBack s ∨ t = PageManager.goNext s))) :
    0 ≤ t.pageManager.currentPageIndex ∧
    t.pageManager.currentPageIndex < t.pageManager.numPages ∧
    t.pageManager.numPages = s.pageManager.numPages := by
  obtain ⟨i, h0, h1, hm, _, _⟩ := pageSwitch_shape s t h
  obtain ⟨f1, f2, _⟩ :=
    reanchor_frame ({ s.pageManager with currentPageIndex := i } : PageManager) s.pageStore
  rw [hm, f1, f2]
  exact ⟨h0, h1, rfl⟩

/-- C22. Page-index invariant: in every state reachable from a freshly
constructed manager by a run of `addPage`, `navigateToPage`, `goBack` and
`goNext` (and of the directional commands), `0 <= numPages <= 10` and the
current index is 0 when no page is registered and lies in `[0, numPages)`
otherwise; hence after a `navigateToPage` that finds its page, and after a
`goBack` or `goNext` with more than one page, the index read in
`pages[currentPageIndex]` is that of a registered slot inside the array; and
`getCurrentPage` returns a page, namely `pages[currentPageIndex]`, exactly
when at least one page is registered. -/
theorem page_index_invariant (s : UIState)
    (hreach : ∃ (uninit : Int → PageRef) (pageStore : PageRef → Page)
      (widgetStore : WidgetRef → Widget) (acts : List Action),
      s = run acts (initialState uninit pageStore widgetStore)) :
    (0 ≤ s.pageManager.numPages ∧ s.pageManager.numPages ≤ 10) ∧
    (s.pageManager.numPages = 0 → s.pageManager.currentPageIndex = 0) ∧
    (s.pageManager.numPages ≠ 0 →
      0 ≤ s.pageManager.currentPageIndex ∧
        s.pageManager.currentPageIndex < s.pageManager.numPages) ∧
    (∀ pageName : String,
      (∃ i : Int, 0 ≤ i ∧ i < s.pageManager.numPages ∧
        (s.pageStore (s.pageManager.pages i)).name = pageName) →
      0 ≤ (PageManager.navigateToPage s pageName).pageManager.currentPageIndex ∧
      (PageManager.navigateToPage s pageName).pageManager.currentPageIndex
        < (PageManager.navigateToPage s pageName).pageManager.numPages ∧
      (PageManager.navigateToPage s pageName).pageManager.numPages ≤ MAX_PAGES) ∧
    (1 < s.pageManager.numPages →
      (0 ≤ (PageManager.goBack s).pageManager.currentPageIndex ∧
        (PageManager.goBack s).pageManager.currentPageIndex
          < (PageManager.goBack s).pageManager.numPages ∧
        (PageManager.goBack s).pageManager.numPages ≤ MAX_PAGES) ∧
      (0 ≤ (PageManager.goNext s).pageManager.currentPageIndex ∧
        (PageManager.goNext s).pageManager.currentPageIndex
          < (PageManager.goNext s).pageManager.numPages ∧
        (PageManager.goNext s).pageManager.numPages ≤ MAX_PAGES)) ∧
    (s.pageManager.getCurrentPage ≠ none ↔ 1 ≤ s.pageManager.numPages) ∧
    (1 ≤ s.pageManager.numPages →
      s.pageManager.getCurrentPage = some (s.pageManager.pages s.pageManager.currentPageIndex)) := by
  obtain ⟨uninit, pageStore, widgetStore, acts, hs⟩ := hreach
  have hwf : s.wellFormed := by
    rw [hs]
    exact (run_invariant acts _ (initialState_wellFormed uninit pageStore widgetStore)).1
  obtain ⟨hn, hz, hnz, _, _⟩ := hwf
  simp only [MAX_PAGES] at hn ⊢
  have hcur : 1 ≤ s.pageManager.numPages →
      s.pageManager.getCurrentPage = some (s.pageManager.pages s.pageManager.currentPageIndex) := by
    intro h1
    have hi := hnz (by omega)
    unfold PageManager.getCurrentPage
    rw [if_pos ⟨hi.1, hi.2⟩]
  refine ⟨hn, hz, hnz, fun pageName hit => ?_, fun h1 => ⟨?_, ?_⟩, ⟨fun h => ?_, fun h => ?_⟩, hcur⟩
  · obtain ⟨a, b, c⟩ := pageSwitch_index s _ (Or.inl ⟨pageName, hit, rfl⟩)
    exact ⟨a, b, by rw [c]; exact hn.2⟩
  · have hi := hnz (by omega)
    obtain ⟨a, b, c⟩ := pageSwitch_index s _ (Or.inr ⟨h1, hi.1, Or.inl rfl⟩)
    exact ⟨a, b, by rw [c]; exact hn.2⟩
  · have hi := hnz (by omega)
    obtain ⟨a, b, c⟩ := pageSwitch_index s _ (Or.inr ⟨h1, hi.1, Or.inr rfl⟩)
    exact ⟨a, b, by rw [c]; exact hn.2⟩
  · by_contra hlt
    apply h
    unfold PageManager.getCurrentPage
    rw [if_neg (fun hc => by omega)]
  · rw [hcur h]
    exact Option.some_ne_none _

/-- C22, on the example state after registering three pages and stepping
back: three pages, index 2, and `getCurrentPage` is the page at address 2;
on the fresh state no page is registered and `getCurrentPage` is null. -/
theorem page_index_invariant_witness :
    (∃ (uninit : Int → PageRef) (pageStore : PageRef → Page)
      (widgetStore : WidgetRef → Widget) (acts : List Action),
      PageManager.goBack threePageState = run acts (initialState uninit pageStore widgetStore)) ∧
    (PageManager.goBack threePageState).pageManager.numPages = 3 ∧
    (PageManager.goBack threePageState).pageManager.currentPageIndex = 2 ∧
    (PageManager.goBack threePageState).pageManager.getCurrentPage = some 2 ∧
    exampleStart.pageManager.numPages = 0 ∧
    exampleStart.pageManager.currentPageIndex = 0 ∧
    exampleStart.pageManager.getCurrentPage = none ∧
    ((0 ≤ (PageManager.goBack threePageState).pageManager.numPages ∧
      (PageManager.goBack threePageState).pageManager.numPages ≤ 10) ∧
    ((PageManager.goBack threePageState).pageManager.numPages = 0 →
      (PageManager.goBack threePageState).pageManager.currentPageIndex = 0) ∧
    ((PageManager.goBack threePageState).pageManager.numPages ≠ 0 →
      0 ≤ (PageManager.goBack threePageState).pageManager.currentPageIndex ∧
        (PageManager.goBack threePageState).pageManager.currentPageIndex
          < (PageManager.goBack threePageState).pageManager.numPages)) :=
  ⟨⟨fun _ => 0, examplePages, exampleWidgets,
      [Action.addPage 0, Action.addPage 1, Action.addPage 2, Action.goBack], rfl⟩,
    by decide, by decide, by decide, by decide, by decide, by decide,
    ⟨(page_index_invariant (PageManager.goBack threePageState)
        ⟨fun _ => 0, examplePages, exampleWidgets,
          [Action.addPage 0, Action.addPage 1, Action.addPage 2, Action.goBack], rfl⟩).1,
      (page_index_invariant (PageManager.goBack threePageState)
        ⟨fun _ => 0, examplePages, exampleWidgets,
          [Action.addPage 0, Action.addPage 1, Action.addPage 2, Action.goBack], rfl⟩).2.1,
      (page_index_invariant (PageManager.goBack threePageState)
        ⟨fun _ => 0, examplePages, exampleWidgets,
          [Action.addPage 0, Action.addPage 1, Action.addPage 2, Action.goBack], rfl⟩).2.2.1⟩⟩

end MultiPageUI
